import Mathlib

/-! Estimation and control core of the water-treatment reactor firmware.

A shallow embedding of `MainControl/src` (PID controller, mode-switching
control system, Kalman fusion engine) together with theorems about it.

Numeric model: every C++ `float` is a rational number (`ℚ`).  The
definitions read the arithmetic the source code writes down exactly, without
rounding, infinities or NaN; the Kalman filter is given a second time with
every operation rounded to binary32 (section "Binary32 arithmetic"), and the
statements about the order of successive estimate errors are made about that
version, because they depend on the rounding.  Division is the total division
of `ℚ` (`x / 0 = 0`); wherever a theorem depends on a divisor being non-zero
this is stated.  `uint8_t` values (control modes, channel indices) are natural
numbers.  Methods that mutate their object return the new object next to
their result.
-/

namespace Zhuanli

/-! ## Arduino helpers -/

/-- Arduino macro `constrain(amt, low, high)`:
`((amt)<(low)?(low):((amt)>(high)?(high):(amt)))`. -/
def constrain (amt low high : ℚ) : ℚ :=
  if amt < low then low else if amt > high then high else amt

/-- Arduino macro `min(a, b)`: `((a)<(b)?(a):(b))`. -/
def minF (a b : ℚ) : ℚ :=
  if a < b then a else b

/-- C library `fabs`. -/
def fabs (x : ℚ) : ℚ :=
  if x < 0 then -x else x

/-! ## Core/SystemConfig.h -/

/-- Configuration constant `TARGET_POLLUTION` (100.0). -/
def TARGET_POLLUTION : ℚ := 100

/-- Configuration constant `MAX_ENERGY_USAGE` (80.0). -/
def MAX_ENERGY_USAGE : ℚ := 80

/-! ## Core/CommonTypes.h -/

/-- The struct `SensorData`. -/
structure SensorData where
  flowRate : ℚ
  pollutionLevel : ℚ
  lightIntensity : ℚ
  pH : ℚ
  temperature : ℚ
  energyUsage : ℚ
  systemEfficiency : ℚ
  sensorFaults : Fin 5 → Bool
  dataQuality : Fin 5 → ℚ

/-- The struct `DigitalTwinData`. -/
structure DigitalTwinData where
  predictedPollution : ℚ
  predictedEfficiency : ℚ
  remainingLife : ℚ
  optimalSetpoint : ℚ
  systemHealth : ℚ
  performanceTrend : ℚ

/-- The enum `ControlMode : uint8_t`: the value of the underlying byte. -/
abbrev ControlMode := Nat

/-- Enumerator `ENERGY_SAVING = 0`. -/
def ENERGY_SAVING : ControlMode := 0
/-- Enumerator `STANDARD` (1). -/
def STANDARD : ControlMode := 1
/-- Enumerator `HIGH_EFFICIENCY` (2). -/
def HIGH_EFFICIENCY : ControlMode := 2
/-- Enumerator `SHOCK_LOAD` (3). -/
def SHOCK_LOAD : ControlMode := 3
/-- Enumerator `MAINTENANCE` (4). -/
def MAINTENANCE : ControlMode := 4

/-! ## Control/PIDController -/

/-- The data members of `class PIDController`. -/
structure PIDController where
  Kp : ℚ
  Ki : ℚ
  Kd : ℚ
  integralTerm : ℚ
  previousError : ℚ
  previousMeasurement : ℚ
  outputMin : ℚ
  outputMax : ℚ
  integralMin : ℚ
  integralMax : ℚ
  antiWindupEnabled : Bool
  windupThreshold : ℚ
  derivativeFilterAlpha : ℚ
  filteredDerivative : ℚ
  adaptiveMode : Bool
  adaptiveGain : ℚ

/-- Constructor `PIDController::PIDController(Kp, Ki, Kd)`. -/
def PIDController.new (Kp Ki Kd : ℚ) : PIDController where
  Kp := Kp
  Ki := Ki
  Kd := Kd
  integralTerm := 0
  previousError := 0
  previousMeasurement := 0
  outputMin := 0
  outputMax := 100
  integralMin := -1000
  integralMax := 1000
  antiWindupEnabled := true
  windupThreshold := 8 / 10
  derivativeFilterAlpha := 3 / 10
  filteredDerivative := 0
  adaptiveMode := false
  adaptiveGain := 1 / 10

/-- Method `PIDController::setParameters`. -/
def PIDController.setParameters (c : PIDController) (Kp Ki Kd : ℚ) : PIDController :=
  { c with Kp := Kp, Ki := Ki, Kd := Kd }

/-- Method `PIDController::setOutputLimits`. -/
def PIDController.setOutputLimits (c : PIDController) (min max : ℚ) : PIDController :=
  { c with outputMin := min, outputMax := max }

/-- Method `PIDController::setIntegralLimits`. -/
def PIDController.setIntegralLimits (c : PIDController) (min max : ℚ) : PIDController :=
  { c with integralMin := min, integralMax := max }

/-- Method `PIDController::enableAntiWindup`. -/
def PIDController.enableAntiWindup (c : PIDController) (enable : Bool) (threshold : ℚ) :
    PIDController :=
  { c with antiWindupEnabled := enable, windupThreshold := threshold }

/-- Method `PIDController::setDerivativeFilter`. -/
def PIDController.setDerivativeFilter (c : PIDController) (alpha : ℚ) : PIDController :=
  { c with derivativeFilterAlpha := alpha }

/-- Method `PIDController::enableAdaptiveMode`. -/
def PIDController.enableAdaptiveMode (c : PIDController) (enable : Bool) (gain : ℚ) :
    PIDController :=
  { c with adaptiveMode := enable, adaptiveGain := gain }

/-- Method `PIDController::reset`. -/
def PIDController.reset (c : PIDController) : PIDController :=
  { c with integralTerm := 0, previousError := 0, previousMeasurement := 0,
           filteredDerivative := 0 }

/-- Method `PIDController::calculateAdaptiveGain`. -/
def PIDController.calculateAdaptiveGain (c : PIDController) (error _dt : ℚ) : ℚ :=
  1 + c.adaptiveGain * fabs error

/-- Method `PIDController::handleIntegralWindup`. -/
def PIDController.handleIntegralWindup (c : PIDController) (output _dt : ℚ) : PIDController :=
  if fabs output > c.outputMax then
    { c with integralTerm := c.integralTerm * (95 / 100) }
  else c

/-- First line of `PIDController::compute`: `if (dt <= 0.0f) dt = 0.01f;`. -/
def PIDController.flooredDt (dt : ℚ) : ℚ :=
  if dt ≤ 0 then 1 / 100 else dt

/-- Body of `PIDController::compute` up to and including the anti-windup
bleed-off: the controller after these statements and the value of the local
`output` before the final `constrain`. -/
def PIDController.computeUnclamped (c : PIDController) (setpoint measurement dt : ℚ) :
    PIDController × ℚ :=
  let dt := PIDController.flooredDt dt
  let error := setpoint - measurement
  let proportional := c.Kp * error
  let c1 : PIDController := { c with integralTerm := c.integralTerm + c.Ki * error * dt }
  let c2 : PIDController :=
    if c1.antiWindupEnabled then
      { c1 with integralTerm := constrain c1.integralTerm c1.integralMin c1.integralMax }
    else c1
  let derivative := (measurement - c2.previousMeasurement) / dt
  let c3 : PIDController :=
    { c2 with filteredDerivative :=
        c2.derivativeFilterAlpha * derivative
          + (1 - c2.derivativeFilterAlpha) * c2.filteredDerivative }
  let derivativeTerm := -c3.Kd * c3.filteredDerivative
  let proportional :=
    if c3.adaptiveMode then proportional * c3.calculateAdaptiveGain error dt
    else proportional
  let output := proportional + c3.integralTerm + derivativeTerm
  let c4 : PIDController :=
    if c3.antiWindupEnabled && decide (fabs output > c3.windupThreshold * c3.outputMax) then
      c3.handleIntegralWindup output dt
    else c3
  (c4, output)

/-- Method `PIDController::compute`: the controller after the call and the
returned output. -/
def PIDController.compute (c : PIDController) (setpoint measurement dt : ℚ) :
    PIDController × ℚ :=
  let r := c.computeUnclamped setpoint measurement dt
  let output := constrain r.2 r.1.outputMin r.1.outputMax
  ({ r.1 with previousError := setpoint - measurement, previousMeasurement := measurement },
    output)

/-! ## Control/ControlSystem -/

/-- The data members of `class ControlSystem` (the servo handle and the unused
fuzzy system carry no state read by the control laws). -/
structure ControlSystem where
  pidController : PIDController
  currentMode : ControlMode
  previousMode : ControlMode
  controlOutput : ℚ
  previousOutput : ℚ
  predictionHorizon : ℚ
  controlHorizon : ℚ
  controlEffort : ℚ
  trackingError : ℚ
  energyConsumption : ℚ
  lastControlTime : Nat
  initialized : Bool

/-- Constructor `ControlSystem::ControlSystem()`; the member `pidController`
is default-constructed with gains `(1.0, 0.1, 0.05)`. -/
def ControlSystem.new : ControlSystem where
  pidController := PIDController.new 1 (1 / 10) (5 / 100)
  currentMode := STANDARD
  previousMode := STANDARD
  controlOutput := 0
  previousOutput := 0
  predictionHorizon := 3
  controlHorizon := 2
  controlEffort := 0
  trackingError := 0
  energyConsumption := 0
  lastControlTime := 0
  initialized := false

/-- Method `ControlSystem::setControlMode` (the transition handler only prints). -/
def ControlSystem.setControlMode (cs : ControlSystem) (mode : ControlMode) : ControlSystem :=
  { cs with previousMode := cs.currentMode, currentMode := mode }

/-- Method `ControlSystem::adaptiveFuzzyPID`. -/
def ControlSystem.adaptiveFuzzyPID (cs : ControlSystem) (sensors : SensorData)
    (twin : DigitalTwinData) : ControlSystem × ℚ :=
  let error := sensors.pollutionLevel - twin.optimalSetpoint
  let dt : ℚ := 1 / 10
  let r := cs.pidController.compute twin.optimalSetpoint sensors.pollutionLevel dt
  let output := constrain r.2 0 100
  ({ cs with pidController := r.1, trackingError := fabs error }, output)

/-- Method `ControlSystem::evaluateControlCost` (a `const` method). -/
def ControlSystem.evaluateControlCost (_cs : ControlSystem) (control : ℚ)
    (_sensors : SensorData) (twin : DigitalTwinData) (_mode : ControlMode) : ℚ :=
  let pollutionCost := fabs (twin.predictedPollution - control * (1 / 2) - TARGET_POLLUTION)
  let energyCost := control * (8 / 10)
  let lifeCost := if control > 80 then (control - 80) * 2 else 0
  pollutionCost + energyCost + lifeCost

/-- The values taken by `testControl` in
`for (int testControl = 0; testControl <= 100; testControl += 20)`. -/
def mpcCandidates : List ℚ := [0, 20, 40, 60, 80, 100]

/-- One iteration of the loop of `modelPredictiveControl` on the pair
`(bestControl, bestCost)`. -/
def ControlSystem.mpcStep (cs : ControlSystem) (sensors : SensorData) (twin : DigitalTwinData)
    (best : ℚ × ℚ) (testControl : ℚ) : ℚ × ℚ :=
  let cost := cs.evaluateControlCost testControl sensors twin HIGH_EFFICIENCY
  if cost < best.2 then (testControl, cost) else best

/-- Method `ControlSystem::modelPredictiveControl`: starts from
`bestControl = 50`, `bestCost = 1e9` and runs the loop. -/
def ControlSystem.modelPredictiveControl (cs : ControlSystem) (sensors : SensorData)
    (twin : DigitalTwinData) : ℚ :=
  (mpcCandidates.foldl (cs.mpcStep sensors twin) (50, 1000000000)).1

/-- Method `ControlSystem::standardControl`. -/
def ControlSystem.standardControl (cs : ControlSystem) (sensors : SensorData)
    (twin : DigitalTwinData) : ControlSystem × ℚ :=
  cs.adaptiveFuzzyPID sensors twin

/-- Method `ControlSystem::energySavingControl`. -/
def ControlSystem.energySavingControl (cs : ControlSystem) (sensors : SensorData)
    (twin : DigitalTwinData) : ControlSystem × ℚ :=
  let r := cs.adaptiveFuzzyPID sensors twin
  (r.1, r.2 * (7 / 10))

/-- Method `ControlSystem::highEfficiencyControl`. -/
def ControlSystem.highEfficiencyControl (cs : ControlSystem) (sensors : SensorData)
    (twin : DigitalTwinData) : ControlSystem × ℚ :=
  (cs, cs.modelPredictiveControl sensors twin)

/-- Method `ControlSystem::shockLoadControl`. -/
def ControlSystem.shockLoadControl (cs : ControlSystem) (sensors : SensorData)
    (twin : DigitalTwinData) : ControlSystem × ℚ :=
  let r := cs.adaptiveFuzzyPID sensors twin
  (r.1, minF 100 (r.2 * (15 / 10)))

/-- Method `ControlSystem::maintenanceControl`. -/
def ControlSystem.maintenanceControl (cs : ControlSystem) (_sensors : SensorData)
    (_twin : DigitalTwinData) : ControlSystem × ℚ :=
  (cs, 30)

/-- Method `ControlSystem::computeControl`: the `switch` on `currentMode`
(any byte other than 0, 2, 3, 4 takes the `default` branch), then
`controlOutput = output`. -/
def ControlSystem.computeControl (cs : ControlSystem) (sensors : SensorData)
    (twin : DigitalTwinData) : ControlSystem × ℚ :=
  let r : ControlSystem × ℚ :=
    match cs.currentMode with
    | 0 => cs.energySavingControl sensors twin
    | 2 => cs.highEfficiencyControl sensors twin
    | 3 => cs.shockLoadControl sensors twin
    | 4 => cs.maintenanceControl sensors twin
    | _ => cs.standardControl sensors twin
  ({ r.1 with controlOutput := r.2 }, r.2)

/-- Method `ControlSystem::selectOptimalMode` (a `const` method: it returns a
mode and cannot assign to any member). -/
def ControlSystem.selectOptimalMode (_cs : ControlSystem) (sensors : SensorData)
    (twin : DigitalTwinData) : ControlMode :=
  if sensors.pollutionLevel > 300 then SHOCK_LOAD
  else if sensors.energyUsage > MAX_ENERGY_USAGE * (8 / 10) then ENERGY_SAVING
  else if twin.systemHealth < 70 then MAINTENANCE
  else STANDARD

/-! ## Utilities/CircularBuffer.h -/

/-- The data members of `CircularBuffer<float, N>`; `buffer` maps a slot index
to the value stored there. -/
structure CircularBuffer (N : Nat) where
  buffer : Nat → ℚ
  head : Nat
  tail : Nat
  count : Nat
  capacity : Nat

/-- Method `CircularBuffer::clear`. -/
def CircularBuffer.clear {N : Nat} (b : CircularBuffer N) : CircularBuffer N :=
  { b with head := 0, tail := 0, count := 0 }

/-- Constructor `CircularBuffer()`: indices and count zero, capacity `N`; the
slots are not written by the constructor and are taken as 0 here. -/
def CircularBuffer.new {N : Nat} : CircularBuffer N where
  buffer := fun _ => 0
  head := 0
  tail := 0
  count := 0
  capacity := N

/-- Method `CircularBuffer::isEmpty`. -/
def CircularBuffer.isEmpty {N : Nat} (b : CircularBuffer N) : Bool :=
  b.count == 0

/-- Method `CircularBuffer::isFull`. -/
def CircularBuffer.isFull {N : Nat} (b : CircularBuffer N) : Bool :=
  b.count == b.capacity

/-- Method `CircularBuffer::size`. -/
def CircularBuffer.size {N : Nat} (b : CircularBuffer N) : Nat :=
  b.count

/-- Method `CircularBuffer::push`: the buffer after the call and the returned
flag. -/
def CircularBuffer.push {N : Nat} (b : CircularBuffer N) (value : ℚ) :
    CircularBuffer N × Bool :=
  if b.isFull then (b, false)
  else
    ({ b with buffer := fun k => if k = b.head then value else b.buffer k,
              head := (b.head + 1) % b.capacity,
              count := b.count + 1 }, true)

/-- Method `CircularBuffer::get(index, value)`: the returned flag and the
contents of the out-parameter `value` after the call (left as it was when the
index is not below `count`). -/
def CircularBuffer.get {N : Nat} (b : CircularBuffer N) (index : Nat) (value : ℚ) : Bool × ℚ :=
  if index ≥ b.count then (false, value)
  else (true, b.buffer ((b.tail + index) % b.capacity))

/-- The stored elements, oldest first: slots `tail`, `tail + 1`, ... taken
modulo the capacity, `count` of them. -/
def CircularBuffer.toList {N : Nat} (b : CircularBuffer N) : List ℚ :=
  (List.range b.count).map (fun (i : Nat) => b.buffer ((b.tail + i) % b.capacity))

/-- A sequence of `push` calls, made in order (the returned flags dropped). -/
def CircularBuffer.pushAll {N : Nat} (b : CircularBuffer N) (values : List ℚ) :
    CircularBuffer N :=
  values.foldl (fun (r : CircularBuffer N) (v : ℚ) => (r.push v).1) b

/-! ## Sensors/SensorFusion -/

/-- The struct `KalmanState` of `class SensorFusion`. -/
structure KalmanState where
  estimate : ℚ
  estimateError : ℚ
  processNoise : ℚ
  measurementNoise : ℚ

/-- The data members of `class SensorFusion`. -/
structure SensorFusion where
  sensorWeights : Fin 5 → ℚ
  fusionConfidence : ℚ
  fusedHistory : CircularBuffer 20
  kalmanStates : Fin 5 → KalmanState
  regressionWeights : Fin 4 → ℚ

/-- Method `SensorFusion::initialize`: every member is overwritten, the history
buffer is cleared. -/
def SensorFusion.initialize (sf : SensorFusion) : SensorFusion where
  sensorWeights := fun _ => 2 / 10
  kalmanStates := fun _ =>
    { estimate := 250, estimateError := 1, processNoise := 1 / 10, measurementNoise := 5 / 10 }
  regressionWeights := fun _ => 25 / 100
  fusionConfidence := 1
  fusedHistory := sf.fusedHistory.clear

/-- Local `predictedError` of `applyKalmanFilter`:
`state.estimateError + state.processNoise`. -/
def KalmanState.predictedError (state : KalmanState) : ℚ :=
  state.estimateError + state.processNoise

/-- Local `kalmanGain` of `applyKalmanFilter`:
`predictedError / (predictedError + state.measurementNoise)`. -/
def KalmanState.kalmanGain (state : KalmanState) : ℚ :=
  state.predictedError / (state.predictedError + state.measurementNoise)

/-- The predict and update steps of `applyKalmanFilter` on one channel state. -/
def KalmanState.filterStep (state : KalmanState) (measurement : ℚ) : KalmanState :=
  let predictedEstimate := state.estimate
  let predictedError := state.predictedError
  let kalmanGain := state.kalmanGain
  let state1 : KalmanState :=
    { state with estimate := predictedEstimate + kalmanGain * (measurement - predictedEstimate) }
  { state1 with estimateError := (1 - kalmanGain) * predictedError }

/-- Method `SensorFusion::applyKalmanFilter`: the fusion engine after the call
and the returned value. -/
def SensorFusion.applyKalmanFilter (sf : SensorFusion) (sensorIndex : Nat) (measurement : ℚ) :
    SensorFusion × ℚ :=
  if h : sensorIndex ≥ 5 then (sf, measurement)
  else
    let i : Fin 5 := ⟨sensorIndex, Nat.lt_of_not_ge h⟩
    let state := (sf.kalmanStates i).filterStep measurement
    ({ sf with kalmanStates := fun j => if j = i then state else sf.kalmanStates j },
      state.estimate)

/-- Method `SensorFusion::updateKalmanParameters`. -/
def SensorFusion.updateKalmanParameters (sf : SensorFusion) (sensorIndex : Nat)
    (processNoise measurementNoise : ℚ) : SensorFusion :=
  if h : sensorIndex < 5 then
    let i : Fin 5 := ⟨sensorIndex, h⟩
    { sf with kalmanStates := fun j =>
        if j = i then
          { sf.kalmanStates j with processNoise := processNoise,
                                   measurementNoise := measurementNoise }
        else sf.kalmanStates j }
  else sf

/-- A call made on the fusion engine's Kalman filters. -/
inductive KalmanCall where
  | filter (sensorIndex : Nat) (measurement : ℚ)
  | update (sensorIndex : Nat) (processNoise measurementNoise : ℚ)

/-- The calls considered admissible: any `applyKalmanFilter` call, and
`updateKalmanParameters` calls with non-negative process noise and positive
measurement noise. -/
def KalmanCall.admissible : KalmanCall → Prop
  | .filter _ _ => True
  | .update _ q r => 0 ≤ q ∧ 0 < r

instance (call : KalmanCall) : Decidable call.admissible := by
  cases call <;> unfold KalmanCall.admissible <;> infer_instance

/-- Whether a call is an `applyKalmanFilter` call. -/
def KalmanCall.isFilter : KalmanCall → Bool
  | .filter _ _ => true
  | .update _ _ _ => false

/-- The engine after one call. -/
def SensorFusion.call (sf : SensorFusion) : KalmanCall → SensorFusion
  | .filter i z => (sf.applyKalmanFilter i z).1
  | .update i q r => sf.updateKalmanParameters i q r

/-- The engine after a sequence of calls, made in order. -/
def SensorFusion.calls (sf : SensorFusion) (cs : List KalmanCall) : SensorFusion :=
  cs.foldl SensorFusion.call sf

/-- Some fusion engine object before `initialize` has run on it. -/
def SensorFusion.blank : SensorFusion where
  sensorWeights := fun _ => 0
  fusionConfidence := 0
  fusedHistory := { buffer := fun _ => 0, head := 0, tail := 0, count := 0, capacity := 20 }
  kalmanStates := fun _ =>
    { estimate := 0, estimateError := 0, processNoise := 0, measurementNoise := 0 }
  regressionWeights := fun _ => 0

/-- One iteration of the loop of `compensateFaultySensor` on `(sum, count)`:
channel `i` is added unless it is the faulty one. -/
def SensorFusion.compensateStep (faultySensor : Nat) (sensorData : SensorData)
    (acc : ℚ × Nat) (i : Nat) : ℚ × Nat :=
  if i ≠ faultySensor then
    let sum :=
      match i with
      | 0 => acc.1 + sensorData.flowRate
      | 1 => acc.1 + sensorData.pollutionLevel
      | 2 => acc.1 + sensorData.lightIntensity
      | 3 => acc.1 + sensorData.pH
      | 4 => acc.1 + sensorData.temperature
      | _ => acc.1
    (sum, acc.2 + 1)
  else acc

/-- Method `SensorFusion::compensateFaultySensor`: the loop over
`i = 0, ..., 4`, then `count > 0 ? sum / count : 0`. -/
def SensorFusion.compensateFaultySensor (_sf : SensorFusion) (faultySensor : Nat)
    (sensorData : SensorData) : ℚ :=
  let r := (List.range 5).foldl (SensorFusion.compensateStep faultySensor sensorData) (0, 0)
  if r.2 > 0 then r.1 / (r.2 : ℚ) else 0

/-- Method `SensorFusion::adjustWeightsBasedOnQuality`. -/
def SensorFusion.adjustWeightsBasedOnQuality (sf : SensorFusion) (sensorData : SensorData) :
    SensorFusion :=
  let totalQuality := (List.finRange 5).foldl (fun acc i => acc + sensorData.dataQuality i) 0
  if totalQuality > 0 then
    { sf with sensorWeights := fun i => sensorData.dataQuality i / totalQuality }
  else sf

/-! ## Binary32 arithmetic

The source computes in `float`. The definitions of the other sections read
every operation in exact arithmetic; the ones of this section round the result
of every operation to the nearest binary32 value, ties to even, as the target
does. Values beyond the binary32 range are not mapped to infinity here; the
statements that use these definitions bound the magnitudes they depend on. -/

/-- The binary exponent that fixes the spacing of binary32 values around `x`:
`floor (log2 |x|)`, and `-126` for zero and for the subnormal range. -/
def f32Exponent (x : ℚ) : ℤ :=
  if x = 0 then -126 else max (Int.log 2 |x|) (-126)

/-- Rounding to the nearest integer, ties to the even one. -/
def roundHalfEven (s : ℚ) : ℤ :=
  if s - ⌊s⌋ < 1 / 2 then ⌊s⌋
  else if s - ⌊s⌋ > 1 / 2 then ⌊s⌋ + 1
  else if ⌊s⌋ % 2 = 0 then ⌊s⌋ else ⌊s⌋ + 1

/-- Rounding to the nearest binary32 value (24-bit significand, spacing
`2 ^ (exponent - 23)`), ties to even. -/
def roundF32 (x : ℚ) : ℚ :=
  (roundHalfEven (x / 2 ^ (f32Exponent x - 23)) : ℚ) * 2 ^ (f32Exponent x - 23)

/-- Local `predictedError` of `applyKalmanFilter`, computed in binary32. -/
def KalmanState.predictedErrorF32 (state : KalmanState) : ℚ :=
  roundF32 (state.estimateError + state.processNoise)

/-- Local `kalmanGain` of `applyKalmanFilter`, computed in binary32. -/
def KalmanState.kalmanGainF32 (state : KalmanState) : ℚ :=
  roundF32 (state.predictedErrorF32
    / roundF32 (state.predictedErrorF32 + state.measurementNoise))

/-- The predict and update steps of `applyKalmanFilter` on one channel state,
every operation rounded to binary32. -/
def KalmanState.filterStepF32 (state : KalmanState) (measurement : ℚ) : KalmanState :=
  let predictedEstimate := state.estimate
  let predictedError := state.predictedErrorF32
  let kalmanGain := state.kalmanGainF32
  let state1 : KalmanState :=
    { state with
      estimate :=
        roundF32 (predictedEstimate
          + roundF32 (kalmanGain * roundF32 (measurement - predictedEstimate))) }
  { state1 with estimateError := roundF32 (roundF32 (1 - kalmanGain) * predictedError) }

/-- Method `SensorFusion::initialize` with every literal converted to
binary32 (`0.1f` is not `1/10`). -/
def SensorFusion.initializeF32 (sf : SensorFusion) : SensorFusion where
  sensorWeights := fun _ => roundF32 (2 / 10)
  kalmanStates := fun _ =>
    { estimate := roundF32 250, estimateError := roundF32 1,
      processNoise := roundF32 (1 / 10), measurementNoise := roundF32 (5 / 10) }
  regressionWeights := fun _ => roundF32 (25 / 100)
  fusionConfidence := roundF32 1
  fusedHistory := sf.fusedHistory.clear

/-- Method `SensorFusion::applyKalmanFilter` in binary32: the fusion engine
after the call and the returned value. -/
def SensorFusion.applyKalmanFilterF32 (sf : SensorFusion) (sensorIndex : Nat)
    (measurement : ℚ) : SensorFusion × ℚ :=
  if h : sensorIndex ≥ 5 then (sf, measurement)
  else
    let i : Fin 5 := ⟨sensorIndex, Nat.lt_of_not_ge h⟩
    let state := (sf.kalmanStates i).filterStepF32 measurement
    ({ sf with kalmanStates := fun j => if j = i then state else sf.kalmanStates j },
      state.estimate)

/-- The engine after one call, in binary32 (`updateKalmanParameters` only
stores its arguments). -/
def SensorFusion.callF32 (sf : SensorFusion) : KalmanCall → SensorFusion
  | .filter i z => (sf.applyKalmanFilterF32 i z).1
  | .update i q r => sf.updateKalmanParameters i q r

/-- The engine after a sequence of calls, made in order, in binary32. -/
def SensorFusion.callsF32 (sf : SensorFusion) (cs : List KalmanCall) : SensorFusion :=
  cs.foldl SensorFusion.callF32 sf

/-- Whether a call is an `applyKalmanFilter` call on channel `i`. -/
def KalmanCall.filtersChannel (i : Fin 5) : KalmanCall → Bool
  | .filter idx _ => decide (idx = i.val)
  | .update _ _ _ => false

/-! ## Model/DigitalTwin

The library function `exp` and the clock `millis()` are inputs of the methods
that use them (`expF`, `now`). -/

/-- The struct `SystemModel` of `CommonTypes.h`. -/
structure SystemModel where
  efficiency : ℚ
  energyFactor : ℚ
  degradation : ℚ
  reactionRate : ℚ
  massTransfer : ℚ
  lastUpdate : Nat

/-- The data members of `class DigitalTwin`; `previousValue` is the static
local of `updateTrendAnalysis` (initial value 250). -/
structure DigitalTwin where
  systemModel : SystemModel
  pollutionHistory : CircularBuffer 20
  efficiencyHistory : CircularBuffer 20
  energyHistory : CircularBuffer 20
  predictionWeights : Fin 3 → ℚ
  modelAccuracy : Fin 3 → ℚ
  currentState : DigitalTwinData
  trendCoefficient : ℚ
  seasonalComponent : ℚ
  modelUpdated : Bool
  lastModelUpdate : Nat
  previousValue : ℚ

/-- Method `DigitalTwin::initialize` (it always returns `true`). -/
def DigitalTwin.initialize (tw : DigitalTwin) (now : Nat) : DigitalTwin :=
  { tw with
    systemModel :=
      { efficiency := 1, energyFactor := 1, degradation := 1, reactionRate := 1 / 10,
        massTransfer := 5 / 100, lastUpdate := now }
    predictionWeights := fun _ => 333 / 1000
    modelAccuracy := fun _ => 1
    trendCoefficient := 0
    seasonalComponent := 0
    modelUpdated := false
    lastModelUpdate := now
    pollutionHistory := tw.pollutionHistory.clear
    efficiencyHistory := tw.efficiencyHistory.clear
    energyHistory := tw.energyHistory.clear }

/-- A twin object as its member constructors leave it, before `initialize`
has run on it. -/
def DigitalTwin.blank : DigitalTwin where
  systemModel :=
    { efficiency := 0, energyFactor := 0, degradation := 0, reactionRate := 0,
      massTransfer := 0, lastUpdate := 0 }
  pollutionHistory := CircularBuffer.new
  efficiencyHistory := CircularBuffer.new
  energyHistory := CircularBuffer.new
  predictionWeights := fun _ => 0
  modelAccuracy := fun _ => 0
  currentState :=
    { predictedPollution := 0, predictedEfficiency := 0, remainingLife := 0,
      optimalSetpoint := 0, systemHealth := 0, performanceTrend := 0 }
  trendCoefficient := 0
  seasonalComponent := 0
  modelUpdated := false
  lastModelUpdate := 0
  previousValue := 250

/-- Method `DigitalTwin::arimaPrediction`; the two locals are written by `get`
before they are read (their initial contents are taken as 0). -/
def DigitalTwin.arimaPrediction (tw : DigitalTwin) : ℚ :=
  if tw.pollutionHistory.size < 2 then 250
  else
    let lastValue := (tw.pollutionHistory.get 0 0).2
    let secondLastValue := (tw.pollutionHistory.get 1 0).2
    8 / 10 * lastValue + 2 / 10 * secondLastValue

/-- Method `DigitalTwin::calculatePerformanceTrend`; the array `recentValues`
is written by `get` before it is read (initial contents taken as 0). -/
def DigitalTwin.calculatePerformanceTrend (tw : DigitalTwin) : ℚ :=
  if tw.pollutionHistory.size < 3 then 0
  else
    let recentValues : Nat → ℚ := fun i =>
      if i < 3 ∧ i < tw.pollutionHistory.size then (tw.pollutionHistory.get i 0).2 else 0
    let trend :=
      [1, 2].foldl
        (fun trend i =>
          if recentValues (i - 1) > 0 then
            trend + (recentValues i - recentValues (i - 1)) / recentValues (i - 1)
          else trend)
        (0 : ℚ)
    trend / 2

/-- Method `DigitalTwin::physicalModelPrediction`. -/
def DigitalTwin.physicalModelPrediction (tw : DigitalTwin) (expF : ℚ → ℚ)
    (sensors : SensorData) : ℚ :=
  let reactionRate :=
    tw.systemModel.reactionRate * (1 + 1 / 10 * sensors.flowRate / 50)
      * (1 + 5 / 100 * sensors.lightIntensity / 500)
  sensors.pollutionLevel * expF (-reactionRate * 1)

/-- Method `DigitalTwin::machineLearningPrediction`. -/
def DigitalTwin.machineLearningPrediction (tw : DigitalTwin) (sensors : SensorData) : ℚ :=
  if tw.pollutionHistory.size < 3 then sensors.pollutionLevel
  else
    let trend := tw.calculatePerformanceTrend
    sensors.pollutionLevel * (1 + trend)

/-- Method `DigitalTwin::fusePredictions`. -/
def DigitalTwin.fusePredictions (tw : DigitalTwin) (predictions : Fin 3 → ℚ) : ℚ :=
  (List.finRange 3).foldl (fun fused i => fused + predictions i * tw.predictionWeights i) 0

/-- Method `DigitalTwin::predictPollution`. -/
def DigitalTwin.predictPollution (tw : DigitalTwin) (expF : ℚ → ℚ) (sensors : SensorData) : ℚ :=
  let predictions : Fin 3 → ℚ :=
    ![tw.arimaPrediction, tw.physicalModelPrediction expF sensors,
      tw.machineLearningPrediction sensors]
  tw.fusePredictions predictions

/-- Method `DigitalTwin::predictEfficiency`. -/
def DigitalTwin.predictEfficiency (tw : DigitalTwin) (sensors : SensorData) : ℚ :=
  let baseEfficiency := sensors.systemEfficiency
  let trend := tw.trendCoefficient * (1 / 10)
  constrain (baseEfficiency * (1 + trend)) 0 100

/-- Method `DigitalTwin::predictRemainingLife`. -/
def DigitalTwin.predictRemainingLife (tw : DigitalTwin) (sensors : SensorData) : ℚ :=
  let baseLife : ℚ := 100
  let temperatureFactor := 1 - 1 / 100 * max 0 (sensors.temperature - 25)
  let pollutionFactor := 1 - 5 / 10000 * sensors.pollutionLevel
  let remainingLife := baseLife * tw.systemModel.degradation * temperatureFactor * pollutionFactor
  constrain remainingLife 0 100

/-- Method `DigitalTwin::calculateOptimalSetpoint`. -/
def DigitalTwin.calculateOptimalSetpoint (_tw : DigitalTwin) (_sensors : SensorData)
    (twin : DigitalTwinData) : ℚ :=
  let baseSetpoint := TARGET_POLLUTION
  let baseSetpoint := if twin.systemHealth < 70 then baseSetpoint * (12 / 10) else baseSetpoint
  let baseSetpoint :=
    if twin.performanceTrend > 1 / 10 then baseSetpoint * (9 / 10) else baseSetpoint
  baseSetpoint

/-- Method `DigitalTwin::calculateSystemHealth`. -/
def DigitalTwin.calculateSystemHealth (_tw : DigitalTwin) (sensors : SensorData) : ℚ :=
  let health : ℚ := 100
  let workingSensors : Nat :=
    (List.finRange 5).foldl
      (fun workingSensors i =>
        if !sensors.sensorFaults i then workingSensors + 1 else workingSensors) 0
  let health := health * ((workingSensors : ℚ) / 5)
  let health := if sensors.systemEfficiency < 60 then health * (8 / 10) else health
  let health :=
    if sensors.energyUsage > MAX_ENERGY_USAGE * (8 / 10) then health * (9 / 10) else health
  health

/-- Method `DigitalTwin::updateSystemModel`. -/
def DigitalTwin.updateSystemModel (tw : DigitalTwin) (now : Nat) (sensors : SensorData)
    (twin : DigitalTwinData) : DigitalTwin :=
  let predictionError := fabs (sensors.pollutionLevel - twin.predictedPollution)
  let reactionRate :=
    if predictionError > 10 then max (tw.systemModel.reactionRate * (95 / 100)) (1 / 100)
    else tw.systemModel.reactionRate
  let degradation := max (tw.systemModel.degradation * (999 / 1000)) (5 / 10)
  { tw with
    systemModel :=
      { tw.systemModel with reactionRate := reactionRate, degradation := degradation,
                            lastUpdate := now }
    modelUpdated := true }

/-- Method `DigitalTwin::simulate`: the twin after the call and the returned
forecast. The local `result` is declared without an initialiser; `uninit` is
what it holds before its fields are assigned, one after the other, in the
order of the source. -/
def DigitalTwin.simulate (tw : DigitalTwin) (expF : ℚ → ℚ) (now : Nat)
    (uninit : DigitalTwinData) (sensors : SensorData) : DigitalTwin × DigitalTwinData :=
  let result := uninit
  let result := { result with predictedPollution := tw.predictPollution expF sensors }
  let result := { result with predictedEfficiency := tw.predictEfficiency sensors }
  let result := { result with remainingLife := tw.predictRemainingLife sensors }
  let result := { result with optimalSetpoint := tw.calculateOptimalSetpoint sensors result }
  let result := { result with systemHealth := tw.calculateSystemHealth sensors }
  let result := { result with performanceTrend := tw.calculatePerformanceTrend }
  let tw1 : DigitalTwin := { tw with currentState := result }
  let tw2 : DigitalTwin :=
    { tw1 with
      pollutionHistory := (tw1.pollutionHistory.push sensors.pollutionLevel).1
      efficiencyHistory := (tw1.efficiencyHistory.push sensors.systemEfficiency).1
      energyHistory := (tw1.energyHistory.push sensors.energyUsage).1 }
  (tw2.updateSystemModel now sensors result, result)

/-- Method `DigitalTwin::calculatePredictionError` (a `const` method). -/
def DigitalTwin.calculatePredictionError (_tw : DigitalTwin) (predicted actual : ℚ) : ℚ :=
  if actual > 0 then fabs (predicted - actual) / actual
  else fabs (predicted - actual)

/-- Method `DigitalTwin::updatePredictionWeights`. -/
def DigitalTwin.updatePredictionWeights (tw : DigitalTwin) (actualValue : ℚ)
    (predictions : Fin 3 → ℚ) : DigitalTwin :=
  let errors : Fin 3 → ℚ := fun i => tw.calculatePredictionError (predictions i) actualValue
  let totalError := (List.finRange 3).foldl (fun totalError i => totalError + errors i) 0
  if totalError > 0 then
    { tw with predictionWeights := fun i => (totalError - errors i) / (2 * totalError) }
  else tw

/-- Method `DigitalTwin::updateTrendAnalysis`. -/
def DigitalTwin.updateTrendAnalysis (tw : DigitalTwin) (currentValue : ℚ) : DigitalTwin :=
  let tw1 : DigitalTwin :=
    if tw.previousValue > 0 then
      { tw with trendCoefficient := (currentValue - tw.previousValue) / tw.previousValue }
    else tw
  { tw1 with previousValue := currentValue }

/-- The twin after a sequence of `simulate` calls, one per sensor snapshot, in
order (the clock reading and the prior contents of `result` are the same for
every call). -/
def DigitalTwin.simulateAll (tw : DigitalTwin) (expF : ℚ → ℚ) (now : Nat)
    (uninit : DigitalTwinData) (snapshots : List SensorData) : DigitalTwin :=
  snapshots.foldl (fun t sensors => (t.simulate expF now uninit sensors).1) tw

/-! ## Sensors/SensorManager

The clock `millis()` is an input (`now`, a 32-bit reading); channel indices
are taken in `0..4`, the only values the callers pass (the source does not
check them). -/

/-- The data members of `class SensorManager`, followed by the function-local
statics `history`, `historyIndex` (of `updateStability`) and `filtered` (of
`applyFilter`). -/
structure SensorManager where
  flowBuffer : CircularBuffer 10
  pollutionBuffer : CircularBuffer 10
  lightBuffer : CircularBuffer 5
  pHBuffer : CircularBuffer 5
  calibrationOffsets : Fin 5 → ℚ
  calibrationGains : Fin 5 → ℚ
  previousReadings : Fin 5 → ℚ
  faultStartTime : Fin 5 → Nat
  persistentFaults : Fin 5 → Bool
  dataStability : Fin 5 → ℚ
  dataVariance : Fin 5 → ℚ
  history : Fin 5 → Nat → ℚ
  historyIndex : Fin 5 → Nat
  filtered : Fin 5 → ℚ

/-- Constructor `SensorManager::SensorManager()`, with the statics at their
zero initial values. -/
def SensorManager.new : SensorManager where
  flowBuffer := CircularBuffer.new
  pollutionBuffer := CircularBuffer.new
  lightBuffer := CircularBuffer.new
  pHBuffer := CircularBuffer.new
  calibrationOffsets := fun _ => 0
  calibrationGains := fun _ => 1
  previousReadings := fun _ => 0
  faultStartTime := fun _ => 0
  persistentFaults := fun _ => false
  dataStability := fun _ => 1
  dataVariance := fun _ => 0
  history := fun _ _ => 0
  historyIndex := fun _ => 0
  filtered := fun _ => 0

/-- Unsigned 32-bit subtraction `millis() - start` of two clock readings. -/
def elapsedMillis (now start : Nat) : Nat :=
  (now + 4294967296 - start) % 4294967296

/-- The last three statements of `detectFault`: store the reading, clear the
persistent flag, return `false`. -/
def SensorManager.acceptReading (sm : SensorManager) (i : Fin 5) (rawValue : ℚ) :
    SensorManager × Bool :=
  ({ sm with previousReadings := Function.update sm.previousReadings i rawValue
             persistentFaults := Function.update sm.persistentFaults i false }, false)

/-- Method `SensorManager::detectFault`: the manager after the call and the
returned flag. -/
def SensorManager.detectFault (sm : SensorManager) (now : Nat) (i : Fin 5) (rawValue : ℚ) :
    SensorManager × Bool :=
  if rawValue < 50 ∨ rawValue > 1000 then
    if sm.faultStartTime i = 0 then
      ({ sm with faultStartTime := Function.update sm.faultStartTime i now }, true)
    else if elapsedMillis now (sm.faultStartTime i) > 5000 then
      ({ sm with persistentFaults := Function.update sm.persistentFaults i true }, true)
    else (sm, true)
  else if sm.previousReadings i > 0 then
    let change := fabs (rawValue - sm.previousReadings i) / sm.previousReadings i
    if change > 3 / 10 then
      if sm.faultStartTime i = 0 then
        SensorManager.acceptReading
          { sm with faultStartTime := Function.update sm.faultStartTime i now } i rawValue
      else if elapsedMillis now (sm.faultStartTime i) > 1000 then (sm, true)
      else sm.acceptReading i rawValue
    else
      SensorManager.acceptReading
        { sm with faultStartTime := Function.update sm.faultStartTime i 0 } i rawValue
  else sm.acceptReading i rawValue

/-- Method `SensorManager::isSensorFaulty` (index in range). -/
def SensorManager.isSensorFaulty (sm : SensorManager) (i : Fin 5) : Bool :=
  sm.persistentFaults i

/-- A sequence of `detectFault` calls on one channel, one per tick
`(clock reading, raw value)`: the manager after the last call and the flag
that call returned (`false` when there is no tick). -/
def SensorManager.detectFaultTicks (sm : SensorManager) (i : Fin 5)
    (ticks : List (Nat × ℚ)) : SensorManager × Bool :=
  ticks.foldl (fun r tick => r.1.detectFault tick.1 i tick.2) (sm, false)

/-- A call made on the twin: `simulate` or `updateSystemModel`, with the clock
reading of the call (and, for `simulate`, the prior contents of its local
`result`). -/
inductive TwinCall where
  | simulate (now : Nat) (uninit : DigitalTwinData) (sensors : SensorData)
  | updateSystemModel (now : Nat) (sensors : SensorData) (twin : DigitalTwinData)

/-- Whether a call is a `simulate` call. -/
def TwinCall.isSimulate : TwinCall → Bool
  | .simulate _ _ _ => true
  | .updateSystemModel _ _ _ => false

/-- The twin after one call. -/
def DigitalTwin.call (tw : DigitalTwin) (expF : ℚ → ℚ) : TwinCall → DigitalTwin
  | .simulate now uninit sensors => (tw.simulate expF now uninit sensors).1
  | .updateSystemModel now sensors twin => tw.updateSystemModel now sensors twin

/-- The twin after a sequence of calls, made in order. -/
def DigitalTwin.calls (tw : DigitalTwin) (expF : ℚ → ℚ) (cs : List TwinCall) : DigitalTwin :=
  cs.foldl (fun t c => t.call expF c) tw

/-- The twin after a sequence of `updateSystemModel` calls, one per triple
`(clock reading, sensors, forecast)`, in order. -/
def DigitalTwin.updateSystemModelAll (tw : DigitalTwin)
    (cs : List (Nat × SensorData × DigitalTwinData)) : DigitalTwin :=
  cs.foldl (fun t c => t.updateSystemModel c.1 c.2.1 c.2.2) tw

/-- Method `SensorManager::calculateDataQuality`. -/
def SensorManager.calculateDataQuality (sm : SensorManager) (i : Fin 5) (_rawValue : ℚ)
    (isFaulty : Bool) : ℚ :=
  if isFaulty then 0
  else
    let quality := sm.dataStability i * (7 / 10) + (1 - sm.dataVariance i) * (3 / 10)
    constrain quality 0 1

/-- Method `SensorManager::updateStability`: `history[i]` is the ring of five
slots of channel `i`, `historyIndex[i]` the slot written next. -/
def SensorManager.updateStability (sm : SensorManager) (i : Fin 5) (currentValue : ℚ) :
    SensorManager :=
  let history : Fin 5 → Nat → ℚ :=
    Function.update sm.history i
      (Function.update (sm.history i) (sm.historyIndex i) currentValue)
  let historyIndex : Fin 5 → Nat :=
    Function.update sm.historyIndex i ((sm.historyIndex i + 1) % 5)
  let sum : ℚ := ([0, 1, 2, 3, 4] : List Nat).foldl (fun (s : ℚ) (k : Nat) => s + history i k) 0
  let mean : ℚ := sum / 5
  let variance : ℚ :=
    ([0, 1, 2, 3, 4] : List Nat).foldl
      (fun (v : ℚ) (k : Nat) => v + (history i k - mean) * (history i k - mean)) 0 / 5
  let dataVariance : Fin 5 → ℚ := Function.update sm.dataVariance i (variance / (mean + 1 / 1000))
  { sm with
    history := history
    historyIndex := historyIndex
    dataVariance := dataVariance
    dataStability :=
      Function.update sm.dataStability i (1 - constrain (dataVariance i) 0 (1 / 2)) }

/-- A sequence of `updateStability` calls, each on its own channel. -/
def SensorManager.updateStabilityAll (sm : SensorManager) (calls : List (Fin 5 × ℚ)) :
    SensorManager :=
  calls.foldl (fun (m : SensorManager) (c : Fin 5 × ℚ) => m.updateStability c.1 c.2) sm

/-- The five ring slots of channel `i`, read from the slot written next, that
is from the slot written longest ago. -/
def SensorManager.ringList (sm : SensorManager) (i : Fin 5) : List ℚ :=
  ([0, 1, 2, 3, 4] : List Nat).map (fun (k : Nat) => sm.history i ((sm.historyIndex i + k) % 5))

/-! ## Learning/LearningSystem

The two `random` draws of `selectAction` are inputs (`draw1` for
`random(0, 100)`, `draw2` for `random(0, 10)`), the clock is the input `now`.
Table indices are the `int` values of the source; `qTable` maps every pair of
indices to a cell, the cells with row in `0..4` and column in `0..9` being
the array `qTable[5][10]`. -/

/-- The struct `LearningData` of `CommonTypes.h`. -/
structure LearningData where
  bestKp : ℚ
  bestKi : ℚ
  bestKd : ℚ
  bestConditions : Fin 5 → ℚ
  fusionWeights : Fin 4 → ℚ
  learningSamples : Int

/-- The data members of `class LearningSystem`. -/
structure LearningSystem where
  currentLearning : LearningData
  bestLearning : LearningData
  performanceBuffer : CircularBuffer 50
  stateBuffer : Fin 5 → CircularBuffer 50
  learningRate : ℚ
  explorationRate : ℚ
  discountFactor : ℚ
  qTable : Int → Int → ℚ
  learningEnabled : Bool
  lastLearningUpdate : Nat
  learningIterations : Int

/-- Constructor `LearningSystem::LearningSystem()`. -/
def LearningSystem.new : LearningSystem where
  currentLearning :=
    { bestKp := 1, bestKi := 1 / 10, bestKd := 5 / 100, learningSamples := 1,
      bestConditions := fun _ => 0, fusionWeights := fun _ => 25 / 100 }
  bestLearning :=
    { bestKp := 1, bestKi := 1 / 10, bestKd := 5 / 100, learningSamples := 1,
      bestConditions := fun _ => 0, fusionWeights := fun _ => 25 / 100 }
  performanceBuffer := CircularBuffer.new
  stateBuffer := fun _ => CircularBuffer.new
  learningRate := 1 / 100
  explorationRate := 1 / 10
  discountFactor := 9 / 10
  qTable := fun _ _ => 0
  learningEnabled := true
  lastLearningUpdate := 0
  learningIterations := 0

/-- Method `LearningSystem::reset`. -/
def LearningSystem.reset (ls : LearningSystem) : LearningSystem :=
  { ls with learningIterations := 0, explorationRate := 1 / 10, qTable := fun _ _ => 0 }

/-- Method `LearningSystem::enableLearning`. -/
def LearningSystem.enableLearning (ls : LearningSystem) (enable : Bool) : LearningSystem :=
  { ls with learningEnabled := enable }

/-- Method `LearningSystem::calculateReward`. -/
def LearningSystem.calculateReward (_ls : LearningSystem) (sensors : SensorData)
    (twin : DigitalTwinData) : ℚ :=
  let efficiencyReward := sensors.systemEfficiency / 100
  let energyReward := 1 - sensors.energyUsage / 100
  let healthReward := twin.systemHealth / 100
  efficiencyReward * (5 / 10) + energyReward * (3 / 10) + healthReward * (2 / 10)

/-- The loop of `updateQTable` that computes `maxNextQ`, started at 0. -/
def LearningSystem.maxNextQ (ls : LearningSystem) (nextState : Int) : ℚ :=
  ([0, 1, 2, 3, 4, 5, 6, 7, 8, 9] : List Int).foldl
    (fun (maxNextQ : ℚ) (a : Int) =>
      if ls.qTable nextState a > maxNextQ then ls.qTable nextState a else maxNextQ)
    0

/-- Method `LearningSystem::updateQTable`. -/
def LearningSystem.updateQTable (ls : LearningSystem) (state action : Int) (reward : ℚ)
    (nextState : Int) : LearningSystem :=
  let maxNextQ := ls.maxNextQ nextState
  let target := reward + ls.discountFactor * maxNextQ
  let error := target - ls.qTable state action
  { ls with qTable := fun s a =>
      if s = state ∧ a = action then ls.qTable state action + ls.learningRate * error
      else ls.qTable s a }

/-- One iteration of the greedy loop of `selectAction` on
`(bestAction, bestValue)`. -/
def LearningSystem.greedyStep (ls : LearningSystem) (state : Int) (best : Int × ℚ) (a : Int) :
    Int × ℚ :=
  if ls.qTable state a > best.2 then (a, ls.qTable state a) else best

/-- Method `LearningSystem::selectAction`; `draw1` is the value of
`random(0, 100)`, `draw2` the value of `random(0, 10)`. -/
def LearningSystem.selectAction (ls : LearningSystem) (draw1 draw2 : Int) (state : Int) : Int :=
  if (draw1 : ℚ) < ls.explorationRate * 100 then draw2
  else
    (([1, 2, 3, 4, 5, 6, 7, 8, 9] : List Int).foldl (ls.greedyStep state)
      (0, ls.qTable state 0)).1

/-- Method `LearningSystem::discretizeState` (a `const` method). -/
def LearningSystem.discretizeState (_ls : LearningSystem) (sensors : SensorData) : Int :=
  if sensors.pollutionLevel < 100 then 0
  else if sensors.pollutionLevel < 200 then 1
  else if sensors.pollutionLevel < 300 then 2
  else if sensors.pollutionLevel < 400 then 3
  else 4

/-- The conversion `(int)x` of a `float`: truncation towards zero. -/
def truncToInt (x : ℚ) : Int :=
  if 0 ≤ x then ⌊x⌋ else ⌈x⌉

/-- Method `LearningSystem::discretizeAction` (a `const` method). -/
def LearningSystem.discretizeAction (_ls : LearningSystem) (controlOutput : ℚ) : Int :=
  truncToInt (controlOutput / 10)

/-- Method `LearningSystem::reinforcementLearning`. -/
def LearningSystem.reinforcementLearning (ls : LearningSystem) (draw1 draw2 : Int)
    (sensors : SensorData) (reward : ℚ) : LearningSystem :=
  let currentState := ls.discretizeState sensors
  let action := ls.selectAction draw1 draw2 currentState
  let nextState := currentState
  let ls1 := ls.updateQTable currentState action reward nextState
  { ls1 with explorationRate := max (ls1.explorationRate * (995 / 1000)) (1 / 100) }

/-- Method `LearningSystem::performOnlineLearning` (saving is a stub that
changes nothing). -/
def LearningSystem.performOnlineLearning (ls : LearningSystem) (now : Nat) (draw1 draw2 : Int)
    (sensors : SensorData) (twin : DigitalTwinData) : LearningSystem :=
  if !ls.learningEnabled then ls
  else
    let currentPerformance := ls.calculateReward sensors twin
    let ls1 := ls.reinforcementLearning draw1 draw2 sensors currentPerformance
    { ls1 with learningIterations := ls1.learningIterations + 1, lastLearningUpdate := now }

/-- Method `LearningSystem::updatePIDParameters`: the learner after the call
and the contents of the reference parameters `Kp`, `Ki`, `Kd` after it. -/
def LearningSystem.updatePIDParameters (ls : LearningSystem) (_Kp _Ki Kd : ℚ)
    (_sensors : SensorData) (error : ℚ) : LearningSystem × ℚ × ℚ × ℚ :=
  if fabs error > 50 then
    (ls, ls.currentLearning.bestKp * (12 / 10), ls.currentLearning.bestKi * (8 / 10), Kd)
  else
    (ls, ls.currentLearning.bestKp, ls.currentLearning.bestKi, ls.currentLearning.bestKd)

/-- Method `LearningSystem::updateFusionWeights`: the learner after the call
and the contents of the array parameter `weights` after it. -/
def LearningSystem.updateFusionWeights (ls : LearningSystem) (weights : Fin 4 → ℚ)
    (_sensors : SensorData) (predictionError : ℚ) : LearningSystem × (Fin 4 → ℚ) :=
  if predictionError > 20 then
    let w1 : Fin 4 → ℚ := Function.update weights 0 (weights 0 * (9 / 10))
    let w2 : Fin 4 → ℚ := Function.update w1 1 (w1 1 * (11 / 10))
    let sum := w2 0 + w2 1 + w2 2 + w2 3
    let w3 : Fin 4 → ℚ := fun i => w2 i / sum
    ({ ls with currentLearning := { ls.currentLearning with fusionWeights := w3 } }, w3)
  else (ls, weights)

/-- A call made on the learner. -/
inductive LearnerCall where
  | reinforcementLearning (draw1 draw2 : Int) (sensors : SensorData) (reward : ℚ)
  | performOnlineLearning (now : Nat) (draw1 draw2 : Int) (sensors : SensorData)
      (twin : DigitalTwinData)
  | reset

/-- The learner after one call. -/
def LearningSystem.call (ls : LearningSystem) : LearnerCall → LearningSystem
  | .reinforcementLearning draw1 draw2 sensors reward =>
      ls.reinforcementLearning draw1 draw2 sensors reward
  | .performOnlineLearning now draw1 draw2 sensors twin =>
      ls.performOnlineLearning now draw1 draw2 sensors twin
  | .reset => ls.reset

/-- The learner after a sequence of calls, made in order. -/
def LearningSystem.calls (ls : LearningSystem) (cs : List LearnerCall) : LearningSystem :=
  cs.foldl LearningSystem.call ls

/-- One `updateQTable` call: state, action, reward, next state. -/
structure QUpdate where
  state : Int
  action : Int
  reward : ℚ
  nextState : Int

/-- The learner after a sequence of `updateQTable` calls, made in order. -/
def LearningSystem.updateQTableAll (ls : LearningSystem) (us : List QUpdate) : LearningSystem :=
  us.foldl (fun l u => l.updateQTable u.state u.action u.reward u.nextState) ls

/-! ## Utilities/Timer

The clock `millis()` is the input `now`, a 32-bit reading. -/

/-- The data members of `class Timer`. -/
structure Timer where
  interval : Nat
  previousTime : Nat
  autoReset : Bool

/-- Constructor `Timer::Timer(interval, autoReset)`. -/
def Timer.new (now interval : Nat) (autoReset : Bool) : Timer where
  interval := interval
  previousTime := now
  autoReset := autoReset

/-- Method `Timer::check`: the timer after the call and the returned flag. -/
def Timer.check (t : Timer) (now : Nat) : Timer × Bool :=
  let currentTime := now
  if currentTime < t.previousTime then ({ t with previousTime := currentTime }, false)
  else if elapsedMillis currentTime t.previousTime ≥ t.interval then
    (if t.autoReset then { t with previousTime := currentTime } else t, true)
  else (t, false)

/-- Method `Timer::reset`. -/
def Timer.reset (t : Timer) (now : Nat) : Timer :=
  { t with previousTime := now }

/-! ## State predicates -/

/-- A Kalman channel state with which the gain is well defined: non-negative
estimate error, non-negative process noise, positive measurement noise. -/
def KalmanState.wellFormed (state : KalmanState) : Prop :=
  0 ≤ state.estimateError ∧ 0 ≤ state.processNoise ∧ 0 < state.measurementNoise

/-- The state variables of a PID controller right after construction or
`reset()`: integral term, previous error, previous measurement and filtered
derivative are all zero. -/
def PIDController.isFreshOrReset (c : PIDController) : Prop :=
  c.integralTerm = 0 ∧ c.previousError = 0 ∧ c.previousMeasurement = 0
    ∧ c.filteredDerivative = 0

instance (state : KalmanState) : Decidable state.wellFormed := by
  unfold KalmanState.wellFormed
  infer_instance

instance (c : PIDController) : Decidable c.isFreshOrReset := by
  unfold PIDController.isFreshOrReset
  infer_instance

/-- Representation invariant of a ring buffer of `N > 0` slots: the capacity
is `N`, at most `N` elements are stored, `tail` is a slot index and `head` is
`count` slots after `tail`. The constructor and `clear` establish it. -/
def CircularBuffer.wellFormed {N : Nat} (b : CircularBuffer N) : Prop :=
  b.capacity = N ∧ 0 < N ∧ b.count ≤ N ∧ b.tail < N ∧ b.head = (b.tail + b.count) % N

instance {N : Nat} (b : CircularBuffer N) : Decidable b.wellFormed := by
  unfold CircularBuffer.wellFormed
  infer_instance

/-- An `applyKalmanFilter` call whose measurement is a binary32 value of
magnitude at most `2 ^ 126`, so that no operation of the call overflows. -/
def KalmanCall.isF32Filter : KalmanCall → Prop
  | .filter _ z => roundF32 z = z ∧ |z| ≤ 2 ^ 126
  | .update _ _ _ => False

instance (call : KalmanCall) : Decidable call.isF32Filter := by
  cases call <;> unfold KalmanCall.isF32Filter <;> infer_instance

/-! ## Specification-side definitions -/

/-- The Standard-mode law of the mode table, in the words of the
specification: the PID output for `setpoint = twin.optimalSetpoint` and
`measurement = sensors.pollutionLevel` (the controller's fixed step is 0.1),
clamped to `[0, 100]`. -/
def specStandardLaw (pid : PIDController) (sensors : SensorData) (twin : DigitalTwinData) : ℚ :=
  max 0 (min 100 (pid.compute twin.optimalSetpoint sensors.pollutionLevel (1 / 10)).2)

/-- The cost of the finite-horizon search, in the words of the specification:
`|predictedPollution − candidate×0.5 − target| + candidate×0.8 + max(0, candidate − 80)×2`
with target 100. -/
def specCost (predictedPollution candidate : ℚ) : ℚ :=
  |predictedPollution - candidate * (1 / 2) - 100| + candidate * (8 / 10)
    + max 0 (candidate - 80) * 2

/-- The number of channels whose fault flag is false, in the words of the
specification (`workingSensorCount`). -/
def specWorkingSensorCount (sensors : SensorData) : Nat :=
  (Finset.univ.filter (fun i => sensors.sensorFaults i = false)).card

/-- Population mean of a list of readings. -/
def specMean (xs : List ℚ) : ℚ :=
  xs.sum / xs.length

/-- Population variance of a list of readings. -/
def specVariance (xs : List ℚ) : ℚ :=
  (xs.map (fun (x : ℚ) => (x - specMean xs) ^ 2)).sum / xs.length

/-- The stability score of the specification over a list of readings. -/
def specStability (xs : List ℚ) : ℚ :=
  1 - constrain (specVariance xs / (specMean xs + 1 / 1000)) 0 (1 / 2)

/-- The readings recorded for channel `i` by a sequence of `updateStability`
calls, oldest first. -/
def specReadingsOf (i : Fin 5) (calls : List (Fin 5 × ℚ)) : List ℚ :=
  (calls.filter (fun (c : Fin 5 × ℚ) => decide (c.1 = i))).map Prod.snd

/-- The last five entries of a list (all of it when it is shorter). -/
def specLastFive (xs : List ℚ) : List ℚ :=
  xs.drop (xs.length - 5)

/-- The largest entry of row `s` of the Q-table, `max over a in 0..9 of
Q[s][a]`. -/
def specMaxQ (ls : LearningSystem) (s : Int) : ℚ :=
  ([1, 2, 3, 4, 5, 6, 7, 8, 9] : List Int).foldl
    (fun (m : ℚ) (a : Int) => max m (ls.qTable s a)) (ls.qTable s 0)

/-- The Q-learning rule of the specification:
`Q(s,a) + alpha * (r + gamma * max_a Q(s2,a) - Q(s,a))`. -/
def specUpdatedQ (ls : LearningSystem) (state action : Int) (reward : ℚ) (nextState : Int) : ℚ :=
  ls.qTable state action
    + ls.learningRate * (reward + ls.discountFactor * specMaxQ ls nextState
      - ls.qTable state action)

/-- The pollutant levels handed to `simulate` by a sequence of calls, in
order (`updateSystemModel` calls hand none). -/
def specSimulatedLevels (cs : List TwinCall) : List ℚ :=
  cs.filterMap (fun (c : TwinCall) =>
    match c with
    | .simulate _ _ sensors => some sensors.pollutionLevel
    | .updateSystemModel _ _ _ => none)

/-! ## Concrete inputs used by the closed examples -/

/-- A sensor snapshot with the given pollutant level and energy usage; the
other channels are nominal and fault-free. -/
def sampleSensors (pollution energy : ℚ) : SensorData where
  flowRate := 50
  pollutionLevel := pollution
  lightIntensity := 500
  pH := 7
  temperature := 25
  energyUsage := energy
  systemEfficiency := 90
  sensorFaults := fun _ => false
  dataQuality := fun _ => 1

/-- A twin forecast with the given predicted pollution, setpoint and health. -/
def sampleTwin (predicted setpoint health : ℚ) : DigitalTwinData where
  predictedPollution := predicted
  predictedEfficiency := 90
  remainingLife := 100
  optimalSetpoint := setpoint
  systemHealth := health
  performanceTrend := 0

/-- Ticks `(clock reading, raw value)` of one channel: the baseline 100 once,
the in-range spike 50 once, then the baseline 100 on eleven consecutive
ticks, at strictly increasing clock readings about one second apart. -/
def spikeScenarioTicks : List (Nat × ℚ) :=
  [(1000, 100), (2000, 50)] ++
    [(3001, 100), (4002, 100), (5003, 100), (6004, 100), (7005, 100), (8006, 100),
      (9007, 100), (10008, 100), (11009, 100), (12010, 100), (13011, 100)]

/-- Ten `reinforcementLearning` calls with reward -1 on a snapshot of state 0
(pollutant level 50), each exploring (first draw 0) with second draws
`0, 1, ..., 9`. -/
def negativeRewardCalls : List LearnerCall :=
  ([0, 1, 2, 3, 4, 5, 6, 7, 8, 9] : List Int).map
    (fun (a : Int) => LearnerCall.reinforcementLearning 0 a (sampleSensors 50 50) (-1))

/-- A new learner whose Q-table holds 5 at actions 3 and 7 of every state and
1 elsewhere. -/
def tiedLearner : LearningSystem :=
  { LearningSystem.new with qTable := fun (_ : Int) (a : Int) => if a = 3 ∨ a = 7 then 5 else 1 }

/-- The estimate error a channel holds after `n = 0, 1, ..., 20` binary32
`applyKalmanFilter` calls on it since `initialize()`, as the theorems
of the section on the binary32 Kalman error establish. -/
def kalmanErrorTrace : List ℚ :=
  [1,
    11 / 32,
    15777251 / 67108864,
    13464349 / 67108864,
    12599531 / 67108864,
    12256729 / 67108864,
    6058861 / 33554432,
    3015209 / 16777216,
    12037469 / 67108864,
    12027857 / 67108864,
    3005975 / 16777216,
    12022269 / 67108864,
    6010799 / 33554432,
    6010661 / 33554432,
    12021209 / 67108864,
    12021163 / 67108864,
    12021143 / 67108864,
    12021135 / 67108864,
    3005283 / 16777216,
    12021129 / 67108864,
    6010565 / 33554432]

/-- Entry `min n 20` of `kalmanErrorTrace`. -/
def kalmanErrorAfter (n : Nat) : ℚ :=
  kalmanErrorTrace.getD (min n 20) 0

/-! ## Helper lemmas -/

theorem constrain_eq_max_min (x lo hi : ℚ) (h : lo ≤ hi) :
    constrain x lo hi = max lo (min hi x) := by
  unfold constrain
  split_ifs with h1 h2
  · rw [max_eq_left]; exact le_trans (min_le_right _ _) h1.le
  · rw [min_eq_left h2.le, max_eq_right h]
  · rw [min_eq_right (not_lt.mp h2), max_eq_right (not_lt.mp h1)]

theorem constrain_bounds (x lo hi : ℚ) (h : lo ≤ hi) :
    lo ≤ constrain x lo hi ∧ constrain x lo hi ≤ hi := by
  unfold constrain
  split_ifs with h1 h2
  · exact ⟨le_refl _, h⟩
  · exact ⟨h, le_refl _⟩
  · exact ⟨not_lt.mp h1, not_lt.mp h2⟩

theorem fabs_eq_abs (x : ℚ) : fabs x = |x| := by
  unfold fabs
  split_ifs with h
  · exact (abs_of_neg h).symm
  · exact (abs_of_nonneg (not_lt.mp h)).symm

theorem evaluateControlCost_eq_specCost (cs : ControlSystem) (control : ℚ)
    (sensors : SensorData) (twin : DigitalTwinData) (mode : ControlMode) :
    cs.evaluateControlCost control sensors twin mode
      = specCost twin.predictedPollution control := by
  unfold ControlSystem.evaluateControlCost specCost TARGET_POLLUTION
  simp only [fabs_eq_abs]
  split_ifs with h
  · rw [max_eq_right (by linarith)]
  · rw [max_eq_left (by linarith)]; ring

theorem adaptiveFuzzyPID_output (cs : ControlSystem) (sensors : SensorData)
    (twin : DigitalTwinData) :
    (cs.adaptiveFuzzyPID sensors twin).2 = specStandardLaw cs.pidController sensors twin := by
  unfold ControlSystem.adaptiveFuzzyPID specStandardLaw
  exact constrain_eq_max_min _ 0 100 (by norm_num)

theorem specStandardLaw_bounds (pid : PIDController) (sensors : SensorData)
    (twin : DigitalTwinData) :
    0 ≤ specStandardLaw pid sensors twin ∧ specStandardLaw pid sensors twin ≤ 100 := by
  unfold specStandardLaw
  exact ⟨le_max_left _ _, max_le (by norm_num) (min_le_left _ _)⟩

/-- The loop of `modelPredictiveControl` over any candidate list: the final
`bestCost` is below every candidate's cost and below the initial one, and the
final pair is either the initial one or the first candidate of least cost. -/
theorem mpc_fold_spec (cs : ControlSystem) (sensors : SensorData) (twin : DigitalTwinData)
    (l : List ℚ) (b c : ℚ) :
    let r := l.foldl (cs.mpcStep sensors twin) (b, c)
    (∀ x ∈ l, r.2 ≤ specCost twin.predictedPollution x) ∧ r.2 ≤ c ∧
      ((r = (b, c) ∧ ∀ x ∈ l, c ≤ specCost twin.predictedPollution x) ∨
        (r.2 < c ∧ r.2 = specCost twin.predictedPollution r.1 ∧
          ∃ pre post, l = pre ++ r.1 :: post ∧
            ∀ x ∈ pre, r.2 < specCost twin.predictedPollution x)) := by
  induction l generalizing b c with
  | nil => simp
  | cons a t ih =>
    simp only [List.foldl_cons, ControlSystem.mpcStep, evaluateControlCost_eq_specCost]
    by_cases hlt : specCost twin.predictedPollution a < c
    · rw [if_pos hlt]
      obtain ⟨h1, h2, h3⟩ := ih a (specCost twin.predictedPollution a)
      refine ⟨?_, le_trans h2 hlt.le, Or.inr ?_⟩
      · intro x hx
        rcases List.mem_cons.mp hx with rfl | hx
        · exact h2
        · exact h1 x hx
      · rcases h3 with ⟨heq, _⟩ | ⟨hlt2, hcost, pre, post, hl, hpre⟩
        · rw [heq]
          exact ⟨hlt, rfl, [], t, rfl, by simp⟩
        · refine ⟨lt_trans hlt2 hlt, hcost, a :: pre, post, congrArg (List.cons a) hl, ?_⟩
          intro x hx
          rcases List.mem_cons.mp hx with rfl | hx
          · exact hlt2
          · exact hpre x hx
    · rw [if_neg hlt]
      obtain ⟨h1, h2, h3⟩ := ih b c
      refine ⟨?_, h2, ?_⟩
      · intro x hx
        rcases List.mem_cons.mp hx with rfl | hx
        · exact le_trans h2 (not_lt.mp hlt)
        · exact h1 x hx
      · rcases h3 with ⟨heq, hall⟩ | ⟨hlt2, hcost, pre, post, hl, hpre⟩
        · left
          refine ⟨heq, ?_⟩
          intro x hx
          rcases List.mem_cons.mp hx with rfl | hx
          · exact not_lt.mp hlt
          · exact hall x hx
        · right
          refine ⟨hlt2, hcost, a :: pre, post, congrArg (List.cons a) hl, ?_⟩
          intro x hx
          rcases List.mem_cons.mp hx with rfl | hx
          · exact lt_of_lt_of_le hlt2 (not_lt.mp hlt)
          · exact hpre x hx

/-- The result of `modelPredictiveControl` is the default 50 or a grid
candidate. -/
theorem mpc_default_or_candidate (cs : ControlSystem) (sensors : SensorData)
    (twin : DigitalTwinData) :
    cs.modelPredictiveControl sensors twin = 50
      ∨ cs.modelPredictiveControl sensors twin ∈ mpcCandidates := by
  unfold ControlSystem.modelPredictiveControl
  obtain ⟨_, _, h3⟩ := mpc_fold_spec cs sensors twin mpcCandidates 50 1000000000
  rcases h3 with ⟨heq, _⟩ | ⟨_, _, pre, post, hl, _⟩
  · left; rw [heq]
  · right
    generalize (mpcCandidates.foldl (cs.mpcStep sensors twin) (50, 1000000000)).1 = r at hl
    rw [hl]; simp

theorem mpc_bounds (cs : ControlSystem) (sensors : SensorData) (twin : DigitalTwinData) :
    0 ≤ cs.modelPredictiveControl sensors twin
      ∧ cs.modelPredictiveControl sensors twin ≤ 100 := by
  rcases mpc_default_or_candidate cs sensors twin with h | h
  · rw [h]; norm_num
  · simp only [mpcCandidates, List.mem_cons, List.mem_singleton, List.not_mem_nil,
      or_false] at h
    rcases h with h | h | h | h | h | h <;> rw [h] <;> norm_num

theorem minF_eq_min (a b : ℚ) : minF a b = min a b := by
  unfold minF
  split_ifs with h
  · exact (min_eq_left h.le).symm
  · exact (min_eq_right (not_lt.mp h)).symm

theorem mpcCandidates_sorted : mpcCandidates.Pairwise (fun a b => a < b) := by
  simp only [mpcCandidates, List.pairwise_cons, List.mem_cons, List.mem_singleton,
    List.not_mem_nil, List.Pairwise.nil, and_true]
  norm_num

/-! ## Mode dispatch (claims C1 to C5) -/

/-- C1: for every mode byte, every sensor snapshot, every twin forecast and
every controller (hence PID) state, the value returned by `computeControl`
lies in `[0, 100]`. -/
theorem computeControl_output_in_range (cs : ControlSystem) (sensors : SensorData)
    (twin : DigitalTwinData) :
    0 ≤ (cs.computeControl sensors twin).2 ∧ (cs.computeControl sensors twin).2 ≤ 100 := by
  have hp := specStandardLaw_bounds cs.pidController sensors twin
  have hm := mpc_bounds cs sensors twin
  unfold ControlSystem.computeControl
  simp only
  split
  · simp only [ControlSystem.energySavingControl, adaptiveFuzzyPID_output]
    constructor <;> linarith [hp.1, hp.2]
  · simpa only [ControlSystem.highEfficiencyControl] using hm
  · simp only [ControlSystem.shockLoadControl, adaptiveFuzzyPID_output, minF_eq_min]
    exact ⟨le_min (by norm_num) (by linarith [hp.1]), min_le_left _ _⟩
  · simp only [ControlSystem.maintenanceControl]
    norm_num
  · simpa only [ControlSystem.standardControl, adaptiveFuzzyPID_output] using hp

/-- C2: two controllers with the same PID state, one in ShockLoad mode and one
in Standard mode, given the same sensors and forecast: the ShockLoad output is
at most 100 and at least the Standard output. -/
theorem shockLoad_output_ge_standard (csShock csStd : ControlSystem) (sensors : SensorData)
    (twin : DigitalTwinData) (hpid : csShock.pidController = csStd.pidController)
    (hShock : csShock.currentMode = SHOCK_LOAD) (hStd : csStd.currentMode = STANDARD) :
    (csShock.computeControl sensors twin).2 ≤ 100
      ∧ (csStd.computeControl sensors twin).2 ≤ (csShock.computeControl sensors twin).2 := by
  have hp := specStandardLaw_bounds csStd.pidController sensors twin
  unfold ControlSystem.computeControl
  simp only [hShock, hStd, SHOCK_LOAD, STANDARD, ControlSystem.shockLoadControl,
    ControlSystem.standardControl, adaptiveFuzzyPID_output, minF_eq_min, hpid]
  exact ⟨min_le_left _ _, le_min hp.2 (by linarith [hp.1])⟩

/-- C2 at the scenario of the specification (pollutant 350, health 80), from a
freshly constructed controller. -/
theorem shockLoad_output_ge_standard_scenario :
    (({ ControlSystem.new with currentMode := SHOCK_LOAD } : ControlSystem).computeControl
        (sampleSensors 350 40) (sampleTwin 350 100 80)).2 ≤ 100
      ∧ (({ ControlSystem.new with currentMode := STANDARD } : ControlSystem).computeControl
          (sampleSensors 350 40) (sampleTwin 350 100 80)).2
        ≤ (({ ControlSystem.new with currentMode := SHOCK_LOAD } : ControlSystem).computeControl
          (sampleSensors 350 40) (sampleTwin 350 100 80)).2 :=
  shockLoad_output_ge_standard _ _ _ _ rfl rfl rfl

/-- C3: `computeControl` follows the law table. With `p` the Standard-mode law
evaluated on the controller's PID state: the output is `0.7 * p` in
EnergySaving mode, the cost-search result in HighEfficiency mode,
`min(100, 1.5 * p)` in ShockLoad mode, the constant 30 in Maintenance mode and
`p` in Standard mode and for every other mode byte; and the returned value is
stored as `controlOutput`. -/
theorem computeControl_dispatch (cs : ControlSystem) (sensors : SensorData)
    (twin : DigitalTwinData) :
    (cs.currentMode = ENERGY_SAVING →
        (cs.computeControl sensors twin).2
          = 7 / 10 * specStandardLaw cs.pidController sensors twin)
      ∧ (cs.currentMode = HIGH_EFFICIENCY →
        (cs.computeControl sensors twin).2 = cs.modelPredictiveControl sensors twin)
      ∧ (cs.currentMode = SHOCK_LOAD →
        (cs.computeControl sensors twin).2
          = min 100 (15 / 10 * specStandardLaw cs.pidController sensors twin))
      ∧ (cs.currentMode = MAINTENANCE → (cs.computeControl sensors twin).2 = 30)
      ∧ (cs.currentMode ≠ ENERGY_SAVING → cs.currentMode ≠ HIGH_EFFICIENCY →
          cs.currentMode ≠ SHOCK_LOAD → cs.currentMode ≠ MAINTENANCE →
        (cs.computeControl sensors twin).2 = specStandardLaw cs.pidController sensors twin)
      ∧ (cs.computeControl sensors twin).1.controlOutput = (cs.computeControl sensors twin).2 := by
  refine ⟨?_, ?_, ?_, ?_, ?_, rfl⟩
  · intro h
    simp only [ControlSystem.computeControl, h, ENERGY_SAVING,
      ControlSystem.energySavingControl, adaptiveFuzzyPID_output]
    ring
  · intro h
    simp only [ControlSystem.computeControl, h, HIGH_EFFICIENCY,
      ControlSystem.highEfficiencyControl]
  · intro h
    simp only [ControlSystem.computeControl, h, SHOCK_LOAD,
      ControlSystem.shockLoadControl, adaptiveFuzzyPID_output, minF_eq_min]
    rw [mul_comm]
  · intro h
    simp only [ControlSystem.computeControl, h, MAINTENANCE,
      ControlSystem.maintenanceControl]
  · intro h0 h2 h3 h4
    unfold ControlSystem.computeControl
    simp only
    split
    · exact absurd (by assumption) h0
    · exact absurd (by assumption) h2
    · exact absurd (by assumption) h3
    · exact absurd (by assumption) h4
    · simp only [ControlSystem.standardControl, adaptiveFuzzyPID_output]

/-- C3 at concrete inputs: a fresh controller (Kp = 1, Ki = 0.1, Kd = 0.05)
with setpoint 100 and pollutant 60 has Standard-mode law 31.4; the five modes
return 21.98, 31.4, the search result 0, 47.1 and 30. -/
theorem computeControl_dispatch_example :
    specStandardLaw ControlSystem.new.pidController (sampleSensors 60 40) (sampleTwin 150 100 80)
        = 157 / 5
      ∧ (({ ControlSystem.new with currentMode := ENERGY_SAVING } : ControlSystem).computeControl
          (sampleSensors 60 40) (sampleTwin 150 100 80)).2 = 1099 / 50
      ∧ (({ ControlSystem.new with currentMode := STANDARD } : ControlSystem).computeControl
          (sampleSensors 60 40) (sampleTwin 150 100 80)).2 = 157 / 5
      ∧ (({ ControlSystem.new with currentMode := HIGH_EFFICIENCY } : ControlSystem).computeControl
          (sampleSensors 60 40) (sampleTwin 150 100 80)).2 = 0
      ∧ (({ ControlSystem.new with currentMode := SHOCK_LOAD } : ControlSystem).computeControl
          (sampleSensors 60 40) (sampleTwin 150 100 80)).2 = 471 / 10
      ∧ (({ ControlSystem.new with currentMode := MAINTENANCE } : ControlSystem).computeControl
          (sampleSensors 60 40) (sampleTwin 150 100 80)).2 = 30 := by
  have hp : specStandardLaw ControlSystem.new.pidController (sampleSensors 60 40)
      (sampleTwin 150 100 80) = 157 / 5 := by
    norm_num [specStandardLaw, ControlSystem.new, PIDController.new, PIDController.compute,
      PIDController.computeUnclamped, PIDController.flooredDt, constrain, fabs,
      PIDController.handleIntegralWindup, sampleSensors, sampleTwin]
  have hm : (ControlSystem.new).modelPredictiveControl (sampleSensors 60 40)
      (sampleTwin 150 100 80) = 0 := by
    norm_num [ControlSystem.modelPredictiveControl, mpcCandidates, ControlSystem.mpcStep,
      ControlSystem.evaluateControlCost, fabs, TARGET_POLLUTION, sampleTwin]
  refine ⟨hp, ?_, ?_, ?_, ?_, ?_⟩
  · rw [(computeControl_dispatch _ _ _).1 rfl]
    simp only [hp]; norm_num
  · rw [(computeControl_dispatch _ _ _).2.2.2.2.1 (by decide) (by decide) (by decide)
      (by decide)]
    exact hp
  · rw [(computeControl_dispatch _ _ _).2.1 rfl]
    exact hm
  · rw [(computeControl_dispatch _ _ _).2.2.1 rfl]
    simp only [hp]; norm_num
  · exact (computeControl_dispatch _ _ _).2.2.2.1 rfl

/-- C4: `selectOptimalMode` is a priority function of `pollutionLevel`,
`energyUsage` and `systemHealth` alone: ShockLoad exactly when the pollutant
exceeds 300; otherwise EnergySaving exactly when the energy usage exceeds
`0.8 * MAX_ENERGY_USAGE = 64`; otherwise Maintenance exactly when the health is
below 70; otherwise Standard. The result is the same for every controller
state (being a `const` method it returns only the mode, so no member, in
particular not `currentMode`, is assigned). -/
theorem selectOptimalMode_priority (cs : ControlSystem) (sensors : SensorData)
    (twin : DigitalTwinData) :
    MAX_ENERGY_USAGE * (8 / 10) = 64
      ∧ (cs.selectOptimalMode sensors twin = SHOCK_LOAD ↔ sensors.pollutionLevel > 300)
      ∧ (¬ sensors.pollutionLevel > 300 →
          (cs.selectOptimalMode sensors twin = ENERGY_SAVING ↔ sensors.energyUsage > 64))
      ∧ (¬ sensors.pollutionLevel > 300 → ¬ sensors.energyUsage > 64 →
          (cs.selectOptimalMode sensors twin = MAINTENANCE ↔ twin.systemHealth < 70))
      ∧ (¬ sensors.pollutionLevel > 300 → ¬ sensors.energyUsage > 64 →
          ¬ twin.systemHealth < 70 → cs.selectOptimalMode sensors twin = STANDARD)
      ∧ (∀ cs2 : ControlSystem,
          cs2.selectOptimalMode sensors twin = cs.selectOptimalMode sensors twin) := by
  have h64 : MAX_ENERGY_USAGE * (8 / 10) = 64 := by norm_num [MAX_ENERGY_USAGE]
  refine ⟨h64, ?_, ?_, ?_, ?_, fun _ => rfl⟩
  · unfold ControlSystem.selectOptimalMode
    split_ifs with h1 h2 h3 <;>
      simp [h1, SHOCK_LOAD, ENERGY_SAVING, MAINTENANCE, STANDARD]
  · intro h1
    unfold ControlSystem.selectOptimalMode
    rw [if_neg h1, h64]
    split_ifs with h2 h3 <;>
      simp [h2, SHOCK_LOAD, ENERGY_SAVING, MAINTENANCE, STANDARD]
  · intro h1 h2
    unfold ControlSystem.selectOptimalMode
    rw [if_neg h1, h64, if_neg h2]
    split_ifs with h3 <;>
      simp [h3, SHOCK_LOAD, ENERGY_SAVING, MAINTENANCE, STANDARD]
  · intro h1 h2 h3
    unfold ControlSystem.selectOptimalMode
    rw [if_neg h1, h64, if_neg h2, if_neg h3]

/-- C4 at the scenario of the specification: pollutant 350 and health 80 give
ShockLoad. -/
theorem selectOptimalMode_scenario :
    ControlSystem.new.selectOptimalMode (sampleSensors 350 40) (sampleTwin 350 100 80)
      = SHOCK_LOAD :=
  (selectOptimalMode_priority ControlSystem.new (sampleSensors 350 40)
    (sampleTwin 350 100 80)).2.1.mpr (by norm_num [sampleSensors])

/-- C5 as amended: whenever some grid candidate costs less than the initial
`bestCost = 1e9`, `modelPredictiveControl` returns a grid candidate of least
cost, and every lower grid candidate costs strictly more. -/
theorem modelPredictiveControl_first_minimiser (cs : ControlSystem) (sensors : SensorData)
    (twin : DigitalTwinData)
    (h : ∃ c ∈ mpcCandidates, specCost twin.predictedPollution c < 1000000000) :
    cs.modelPredictiveControl sensors twin ∈ mpcCandidates
      ∧ (∀ c ∈ mpcCandidates,
          specCost twin.predictedPollution (cs.modelPredictiveControl sensors twin)
            ≤ specCost twin.predictedPollution c)
      ∧ (∀ c ∈ mpcCandidates, c < cs.modelPredictiveControl sensors twin →
          specCost twin.predictedPollution (cs.modelPredictiveControl sensors twin)
            < specCost twin.predictedPollution c) := by
  unfold ControlSystem.modelPredictiveControl
  obtain ⟨hmin, _, h3⟩ := mpc_fold_spec cs sensors twin mpcCandidates 50 1000000000
  rcases h3 with ⟨_, hall⟩ | ⟨_, hcost, pre, post, hl, hpre⟩
  · obtain ⟨c, hc, hlt⟩ := h
    exact absurd hlt (not_lt.mpr (hall c hc))
  · have hsorted := mpcCandidates_sorted
    generalize mpcCandidates.foldl (cs.mpcStep sensors twin) (50, 1000000000) = r at *
    rw [← hcost]
    refine ⟨by rw [hl]; simp, hmin, ?_⟩
    intro c hc hlt
    rw [hl] at hc hsorted
    rcases List.mem_append.mp hc with hc | hc
    · exact hpre c hc
    · rcases List.mem_cons.mp hc with rfl | hc
      · exact absurd hlt (lt_irrefl _)
      · have := (List.pairwise_cons.mp (List.pairwise_append.mp hsorted).2.1).1 c hc
        exact absurd hlt (not_lt.mpr this.le)

/-- C5 as amended, at predicted pollution 150: the search returns the lowest
candidate 0, whose cost 50 is below the costs of all other candidates. -/
theorem modelPredictiveControl_first_minimiser_example :
    ControlSystem.new.modelPredictiveControl (sampleSensors 60 40) (sampleTwin 150 100 80)
        ∈ mpcCandidates
      ∧ (∀ c ∈ mpcCandidates,
          specCost 150 (ControlSystem.new.modelPredictiveControl (sampleSensors 60 40)
              (sampleTwin 150 100 80))
            ≤ specCost 150 c)
      ∧ (∀ c ∈ mpcCandidates,
          c < ControlSystem.new.modelPredictiveControl (sampleSensors 60 40)
              (sampleTwin 150 100 80) →
          specCost 150 (ControlSystem.new.modelPredictiveControl (sampleSensors 60 40)
              (sampleTwin 150 100 80))
            < specCost 150 c) :=
  modelPredictiveControl_first_minimiser ControlSystem.new (sampleSensors 60 40)
    (sampleTwin 150 100 80)
    ⟨0, by simp [mpcCandidates], by norm_num [specCost, sampleTwin]⟩

/-- C5 as stated fails: with predicted pollution 2e9 every grid candidate
costs at least 1e9, no candidate beats the initial `bestCost`, and the search
returns the default 50, which is not on the grid. -/
theorem modelPredictiveControl_default_off_grid :
    ControlSystem.new.modelPredictiveControl (sampleSensors 60 40)
        (sampleTwin 2000000000 100 80) = 50
      ∧ ControlSystem.new.modelPredictiveControl (sampleSensors 60 40)
        (sampleTwin 2000000000 100 80) ∉ mpcCandidates := by
  have h : ControlSystem.new.modelPredictiveControl (sampleSensors 60 40)
      (sampleTwin 2000000000 100 80) = 50 := by
    norm_num [ControlSystem.modelPredictiveControl, mpcCandidates, ControlSystem.mpcStep,
      ControlSystem.evaluateControlCost, fabs, TARGET_POLLUTION, sampleTwin]
  refine ⟨h, ?_⟩
  rw [h]
  norm_num [mpcCandidates]

/-! ## PID controller (claims C6 to C8) -/

theorem new_isFreshOrReset (Kp Ki Kd : ℚ) : (PIDController.new Kp Ki Kd).isFreshOrReset :=
  ⟨rfl, rfl, rfl, rfl⟩

theorem reset_isFreshOrReset (c : PIDController) : c.reset.isFreshOrReset :=
  ⟨rfl, rfl, rfl, rfl⟩

theorem handleIntegralWindup_limits (c : PIDController) (output dt : ℚ) :
    (c.handleIntegralWindup output dt).outputMin = c.outputMin
      ∧ (c.handleIntegralWindup output dt).outputMax = c.outputMax
      ∧ (c.handleIntegralWindup output dt).integralMin = c.integralMin
      ∧ (c.handleIntegralWindup output dt).integralMax = c.integralMax := by
  unfold PIDController.handleIntegralWindup
  split_ifs <;> exact ⟨rfl, rfl, rfl, rfl⟩

/-- The statements of `compute` before the final clamp leave the four limits
as configured. -/
theorem computeUnclamped_limits (c : PIDController) (setpoint measurement dt : ℚ) :
    (c.computeUnclamped setpoint measurement dt).1.outputMin = c.outputMin
      ∧ (c.computeUnclamped setpoint measurement dt).1.outputMax = c.outputMax
      ∧ (c.computeUnclamped setpoint measurement dt).1.integralMin = c.integralMin
      ∧ (c.computeUnclamped setpoint measurement dt).1.integralMax = c.integralMax := by
  unfold PIDController.computeUnclamped
  simp only
  split_ifs <;>
    first
      | exact ⟨rfl, rfl, rfl, rfl⟩
      | (obtain ⟨h1, h2, h3, h4⟩ := handleIntegralWindup_limits _ _ _
         rw [h1, h2, h3, h4]
         exact ⟨rfl, rfl, rfl, rfl⟩)

theorem constrain_zero (lo hi : ℚ) (hlo : lo ≤ 0) (hhi : 0 ≤ hi) : constrain 0 lo hi = 0 := by
  unfold constrain
  rw [if_neg (not_lt.mpr hlo), if_neg (not_lt.mpr hhi)]

/-- C6 as amended: a freshly constructed or reset controller with
`Ki = 0`, `Kd = 0`, adaptive mode off, and either anti-windup off or integral
limits that enclose 0 (as the constructor's -1000 and 1000 do): for every
setpoint, measurement and time step, the pre-clamp output of `compute` is
`Kp * (setpoint - measurement)` and the returned value is that product clamped
to `[outputMin, outputMax]`. -/
theorem compute_proportional_only (c : PIDController) (setpoint measurement dt : ℚ)
    (hfresh : c.isFreshOrReset) (hKi : c.Ki = 0) (hKd : c.Kd = 0)
    (hadapt : c.adaptiveMode = false)
    (hint : c.antiWindupEnabled = false ∨ (c.integralMin ≤ 0 ∧ 0 ≤ c.integralMax)) :
    (c.computeUnclamped setpoint measurement dt).2 = c.Kp * (setpoint - measurement)
      ∧ (c.compute setpoint measurement dt).2
        = constrain (c.Kp * (setpoint - measurement)) c.outputMin c.outputMax := by
  obtain ⟨hI, -, -, -⟩ := hfresh
  have hraw : (c.computeUnclamped setpoint measurement dt).2
      = c.Kp * (setpoint - measurement) := by
    unfold PIDController.computeUnclamped
    simp only [hKi, hKd, hadapt, hI, zero_mul, add_zero, neg_zero, Bool.false_eq_true,
      if_false]
    rcases hint with haw | ⟨hlo, hhi⟩
    · simp [haw]
    · cases hb : c.antiWindupEnabled
      · simp
      · simp [constrain_zero _ _ hlo hhi]
  refine ⟨hraw, ?_⟩
  obtain ⟨h1, h2, -, -⟩ := computeUnclamped_limits c setpoint measurement dt
  unfold PIDController.compute
  simp only [hraw, h1, h2]

/-- C6 as amended, at the scenario of the specification: `Kp = 1`, `Ki = 0`,
`Kd = 0`, setpoint 100, measurement 50, `dt = 1`, limits `[0, 100]`: the
pre-clamp output and the returned value are both exactly 50. -/
theorem compute_proportional_only_scenario :
    ((PIDController.new 1 0 0).computeUnclamped 100 50 1).2 = 50
      ∧ ((PIDController.new 1 0 0).compute 100 50 1).2 = 50 := by
  have h := compute_proportional_only (PIDController.new 1 0 0) 100 50 1
    (new_isFreshOrReset 1 0 0) rfl rfl rfl
    (Or.inr ⟨by norm_num [PIDController.new], by norm_num [PIDController.new]⟩)
  refine ⟨h.1.trans (by norm_num [PIDController.new]), h.2.trans ?_⟩
  norm_num [PIDController.new, constrain]

/-- C6 as stated fails: a controller built with `Kp = 1`, `Ki = 0`, `Kd = 0`,
given integral limits `[5, 10]` and then reset, is in the reset state with
adaptive mode off, yet `compute(100, 50, 1)` clamps the zero integral up to 5,
so the pre-clamp output and the returned value are 55, not `Kp * error = 50`. -/
theorem compute_reset_integral_floor_counterexample :
    (((PIDController.new 1 0 0).setIntegralLimits 5 10).reset).isFreshOrReset
      ∧ (((PIDController.new 1 0 0).setIntegralLimits 5 10).reset).Ki = 0
      ∧ (((PIDController.new 1 0 0).setIntegralLimits 5 10).reset).Kd = 0
      ∧ (((PIDController.new 1 0 0).setIntegralLimits 5 10).reset).adaptiveMode = false
      ∧ ((((PIDController.new 1 0 0).setIntegralLimits 5 10).reset).computeUnclamped
          100 50 1).2 = 55
      ∧ ((((PIDController.new 1 0 0).setIntegralLimits 5 10).reset).compute 100 50 1).2 = 55
      ∧ (((PIDController.new 1 0 0).setIntegralLimits 5 10).reset).Kp * (100 - 50) = 50 := by
  refine ⟨reset_isFreshOrReset _, rfl, rfl, rfl, ?_, ?_, ?_⟩
  · norm_num [PIDController.computeUnclamped, PIDController.new,
      PIDController.setIntegralLimits, PIDController.reset, PIDController.flooredDt,
      constrain, fabs, PIDController.handleIntegralWindup]
  · norm_num [PIDController.compute, PIDController.computeUnclamped, PIDController.new,
      PIDController.setIntegralLimits, PIDController.reset, PIDController.flooredDt,
      constrain, fabs, PIDController.handleIntegralWindup]
  · norm_num [PIDController.new, PIDController.setIntegralLimits, PIDController.reset]

theorem bleed_within_limits (x lo hi : ℚ) (hlo : lo ≤ 0) (hhi : 0 ≤ hi)
    (hx : lo ≤ x ∧ x ≤ hi) : lo ≤ x * (95 / 100) ∧ x * (95 / 100) ≤ hi := by
  rcases le_total 0 x with h | h
  · constructor <;> linarith [hx.1, hx.2]
  · constructor <;> linarith [hx.1, hx.2]

/-- The conditional bleed-off keeps an integral term inside limits that
enclose 0. -/
theorem windup_step_within_limits (c : PIDController) (p : Prop) [Decidable p]
    (output dt lo hi : ℚ) (hlo : lo ≤ 0) (hhi : 0 ≤ hi)
    (h : lo ≤ c.integralTerm ∧ c.integralTerm ≤ hi) :
    lo ≤ (if p then c.handleIntegralWindup output dt else c).integralTerm
      ∧ (if p then c.handleIntegralWindup output dt else c).integralTerm ≤ hi := by
  by_cases hp : p
  · rw [if_pos hp]
    unfold PIDController.handleIntegralWindup
    by_cases hq : fabs output > c.outputMax
    · rw [if_pos hq]
      exact bleed_within_limits _ _ _ hlo hhi h
    · rw [if_neg hq]
      exact h
  · rw [if_neg hp]
    exact h

/-- C7 as amended: with anti-windup enabled and integral limits that enclose 0
(`integralMin ≤ 0 ≤ integralMax`), for any gains, output limits, adaptive
settings, prior state, setpoint, measurement and time step, `compute` leaves
the limits as configured and the stored integral term within
`[integralMin, integralMax]`. -/
theorem compute_integral_within_limits (c : PIDController) (setpoint measurement dt : ℚ)
    (haw : c.antiWindupEnabled = true) (hlo : c.integralMin ≤ 0) (hhi : 0 ≤ c.integralMax) :
    (c.compute setpoint measurement dt).1.integralMin = c.integralMin
      ∧ (c.compute setpoint measurement dt).1.integralMax = c.integralMax
      ∧ c.integralMin ≤ (c.compute setpoint measurement dt).1.integralTerm
      ∧ (c.compute setpoint measurement dt).1.integralTerm ≤ c.integralMax := by
  obtain ⟨-, -, h3, h4⟩ := computeUnclamped_limits c setpoint measurement dt
  have hb := constrain_bounds
    (c.integralTerm + c.Ki * (setpoint - measurement) * PIDController.flooredDt dt)
    c.integralMin c.integralMax (le_trans hlo hhi)
  have hterm : c.integralMin ≤ (c.computeUnclamped setpoint measurement dt).1.integralTerm
      ∧ (c.computeUnclamped setpoint measurement dt).1.integralTerm ≤ c.integralMax := by
    unfold PIDController.computeUnclamped
    simp only [haw, if_true, Bool.true_and]
    exact windup_step_within_limits _ _ _ _ _ _ hlo hhi hb
  have e1 : (c.compute setpoint measurement dt).1.integralTerm
      = (c.computeUnclamped setpoint measurement dt).1.integralTerm := rfl
  have e2 : (c.compute setpoint measurement dt).1.integralMin
      = (c.computeUnclamped setpoint measurement dt).1.integralMin := rfl
  have e3 : (c.compute setpoint measurement dt).1.integralMax
      = (c.computeUnclamped setpoint measurement dt).1.integralMax := rfl
  rw [e1, e2, e3]
  exact ⟨h3, h4, hterm⟩

/-- C7 as amended, on the freshly constructed default controller driven into
saturation: after `compute(0, 5000, 1)` the integral term is -950, inside
`[-1000, 1000]`. -/
theorem compute_integral_within_limits_example :
    ((PIDController.new 1 1 0).compute 0 5000 1).1.integralTerm = -950
      ∧ ((PIDController.new 1 1 0).compute 0 5000 1).1.integralMin = -1000
      ∧ ((PIDController.new 1 1 0).compute 0 5000 1).1.integralMax = 1000
      ∧ (PIDController.new 1 1 0).integralMin
          ≤ ((PIDController.new 1 1 0).compute 0 5000 1).1.integralTerm
      ∧ ((PIDController.new 1 1 0).compute 0 5000 1).1.integralTerm
          ≤ (PIDController.new 1 1 0).integralMax := by
  have h := compute_integral_within_limits (PIDController.new 1 1 0) 0 5000 1 rfl
    (by norm_num [PIDController.new]) (by norm_num [PIDController.new])
  refine ⟨?_, h.1, h.2.1, h.2.2.1, h.2.2.2⟩
  norm_num [PIDController.compute, PIDController.computeUnclamped, PIDController.new,
    PIDController.flooredDt, constrain, fabs, PIDController.handleIntegralWindup]

/-- C7 as stated fails twice. With anti-windup disabled the accumulator is not
clamped: `Ki = 1`, `compute(2000, 0, 1)` stores 2000 although
`integralMax = 1000`. With anti-windup enabled and limits `[5, 10]` that do
not enclose 0, `compute(1000, 0, 1)` clamps the integral to 5 and the
bleed-off then stores 4.75, below `integralMin = 5`. -/
theorem compute_integral_outside_limits_counterexample :
    ((PIDController.new 1 1 0).enableAntiWindup false (8 / 10)).integralMin
        ≤ ((PIDController.new 1 1 0).enableAntiWindup false (8 / 10)).integralMax
      ∧ (((PIDController.new 1 1 0).enableAntiWindup false (8 / 10)).compute
          2000 0 1).1.integralTerm = 2000
      ∧ (((PIDController.new 1 1 0).enableAntiWindup false (8 / 10)).compute
          2000 0 1).1.integralMax = 1000
      ∧ ((PIDController.new 1 0 0).setIntegralLimits 5 10).integralMin
        ≤ ((PIDController.new 1 0 0).setIntegralLimits 5 10).integralMax
      ∧ (((PIDController.new 1 0 0).setIntegralLimits 5 10).compute
          1000 0 1).1.integralTerm = 19 / 4
      ∧ (((PIDController.new 1 0 0).setIntegralLimits 5 10).compute
          1000 0 1).1.integralMin = 5 := by
  refine ⟨?_, ?_, ?_, ?_, ?_, ?_⟩ <;>
    norm_num [PIDController.compute, PIDController.computeUnclamped, PIDController.new,
      PIDController.enableAntiWindup, PIDController.setIntegralLimits,
      PIDController.flooredDt, constrain, fabs, PIDController.handleIntegralWindup]

/-- C8: a non-positive time step is replaced by 0.01. For every controller
state, setpoint and measurement and every `dt ≤ 0`, `compute` with `dt`
returns the same output and leaves the same controller as `compute` with
0.01; the divisor used for the derivative is 0.01, which is not zero. -/
theorem compute_nonpositive_dt_floor (c : PIDController) (setpoint measurement dt : ℚ)
    (hdt : dt ≤ 0) :
    c.compute setpoint measurement dt = c.compute setpoint measurement (1 / 100)
      ∧ PIDController.flooredDt dt = 1 / 100
      ∧ PIDController.flooredDt dt ≠ 0 := by
  have h1 : PIDController.flooredDt dt = 1 / 100 := by
    unfold PIDController.flooredDt
    rw [if_pos hdt]
  have h2 : PIDController.flooredDt (1 / 100) = 1 / 100 := by
    unfold PIDController.flooredDt
    norm_num
  refine ⟨?_, h1, by rw [h1]; norm_num⟩
  unfold PIDController.compute PIDController.computeUnclamped
  rw [h1, h2]

/-- C8 at `dt = 0` and `dt = -3` on the default controller: both calls agree
with the call at `dt = 0.01`, which filters the derivative `50 / 0.01` to 1500
and returns 0 (the pre-clamp output is negative). -/
theorem compute_nonpositive_dt_floor_example :
    (PIDController.new 1 (1 / 10) (5 / 100)).compute 100 50 0
        = (PIDController.new 1 (1 / 10) (5 / 100)).compute 100 50 (1 / 100)
      ∧ (PIDController.new 1 (1 / 10) (5 / 100)).compute 100 50 (-3)
        = (PIDController.new 1 (1 / 10) (5 / 100)).compute 100 50 (1 / 100)
      ∧ ((PIDController.new 1 (1 / 10) (5 / 100)).compute 100 50 0).1.filteredDerivative
        = 1500
      ∧ ((PIDController.new 1 (1 / 10) (5 / 100)).compute 100 50 0).2 = 0 :=
  ⟨(compute_nonpositive_dt_floor _ 100 50 0 (le_refl 0)).1,
    (compute_nonpositive_dt_floor _ 100 50 (-3) (by norm_num)).1, by
    norm_num [PIDController.compute, PIDController.computeUnclamped, PIDController.new,
      PIDController.flooredDt, constrain, fabs, PIDController.handleIntegralWindup], by
    norm_num [PIDController.compute, PIDController.computeUnclamped, PIDController.new,
      PIDController.flooredDt, constrain, fabs, PIDController.handleIntegralWindup]⟩

/-! ## Kalman fusion engine (claims C9 and C10) -/

/-- C9: for a channel index `i < 5` whose state holds estimate `x`, error `P`,
process noise `Q` and measurement noise `R`, `applyKalmanFilter(i, z)` works
with predicted error `P + Q` and gain `K = (P + Q) / ((P + Q) + R)`: it
returns and stores the estimate `x + K * (z - x)`, stores the error
`(1 - K) * (P + Q)`, keeps `Q` and `R`, and leaves the other four channels as
they were. -/
theorem applyKalmanFilter_predict_update (sf : SensorFusion) (i : Nat) (z : ℚ) (hi : i < 5) :
    (sf.applyKalmanFilter i z).2
        = (sf.kalmanStates ⟨i, hi⟩).estimate
          + ((sf.kalmanStates ⟨i, hi⟩).estimateError + (sf.kalmanStates ⟨i, hi⟩).processNoise)
            / (((sf.kalmanStates ⟨i, hi⟩).estimateError
                + (sf.kalmanStates ⟨i, hi⟩).processNoise)
              + (sf.kalmanStates ⟨i, hi⟩).measurementNoise)
            * (z - (sf.kalmanStates ⟨i, hi⟩).estimate)
      ∧ ((sf.applyKalmanFilter i z).1.kalmanStates ⟨i, hi⟩).estimate
        = (sf.applyKalmanFilter i z).2
      ∧ ((sf.applyKalmanFilter i z).1.kalmanStates ⟨i, hi⟩).estimateError
        = (1 - ((sf.kalmanStates ⟨i, hi⟩).estimateError
                + (sf.kalmanStates ⟨i, hi⟩).processNoise)
              / (((sf.kalmanStates ⟨i, hi⟩).estimateError
                  + (sf.kalmanStates ⟨i, hi⟩).processNoise)
                + (sf.kalmanStates ⟨i, hi⟩).measurementNoise))
          * ((sf.kalmanStates ⟨i, hi⟩).estimateError
              + (sf.kalmanStates ⟨i, hi⟩).processNoise)
      ∧ ((sf.applyKalmanFilter i z).1.kalmanStates ⟨i, hi⟩).processNoise
        = (sf.kalmanStates ⟨i, hi⟩).processNoise
      ∧ ((sf.applyKalmanFilter i z).1.kalmanStates ⟨i, hi⟩).measurementNoise
        = (sf.kalmanStates ⟨i, hi⟩).measurementNoise
      ∧ (∀ j : Fin 5, j ≠ ⟨i, hi⟩ →
          (sf.applyKalmanFilter i z).1.kalmanStates j = sf.kalmanStates j) := by
  unfold SensorFusion.applyKalmanFilter
  rw [dif_neg (Nat.not_le.mpr hi)]
  refine ⟨rfl, ?_, ?_, ?_, ?_, ?_⟩
  · simp only [if_true]
  · simp only [if_true]
    rfl
  · simp only [if_true]
    rfl
  · simp only [if_true]
    rfl
  · intro j hj
    simp only [if_neg hj]

/-- C9 on channel 1 of a freshly initialised engine (`x = 250`, `P = 1`,
`Q = 0.1`, `R = 0.5`) with measurement 330: the gain is `1.1 / 1.6`, the
returned and stored estimate is 305 and the stored error is `11 / 32`. -/
theorem applyKalmanFilter_predict_update_example :
    ( SensorFusion.blank.initialize.applyKalmanFilter 1 330).2 = 305
      ∧ (( SensorFusion.blank.initialize.applyKalmanFilter 1 330).1.kalmanStates 1).estimate
        = 305
      ∧ (( SensorFusion.blank.initialize.applyKalmanFilter 1 330).1.kalmanStates 1).estimateError
        = 11 / 32
      ∧ (( SensorFusion.blank.initialize.applyKalmanFilter 1 330).1.kalmanStates 1).processNoise
        = 1 / 10
      ∧ (( SensorFusion.blank.initialize.applyKalmanFilter 1
          330).1.kalmanStates 1).measurementNoise = 1 / 2
      ∧ (( SensorFusion.blank.initialize.applyKalmanFilter 1 330).1.kalmanStates 0).estimate
        = 250 := by
  have h := applyKalmanFilter_predict_update SensorFusion.blank.initialize 1 330 (by decide)
  have hv : ( SensorFusion.blank.initialize.applyKalmanFilter 1 330).2 = 305 := by
    rw [h.1]
    norm_num [ SensorFusion.initialize]
  refine ⟨hv, ?_, ?_, ?_, ?_, ?_⟩
  · exact h.2.1.trans hv
  · refine h.2.2.1.trans ?_
    norm_num [ SensorFusion.initialize]
  · refine h.2.2.2.1.trans ?_
    norm_num [ SensorFusion.initialize]
  · refine h.2.2.2.2.1.trans ?_
    norm_num [ SensorFusion.initialize]
  · rw [h.2.2.2.2.2 0 (by decide)]
    rfl

theorem kalmanGain_bounds (state : KalmanState) (h : state.wellFormed) :
    0 < state.predictedError + state.measurementNoise
      ∧ 0 ≤ state.kalmanGain ∧ state.kalmanGain ≤ 1 := by
  obtain ⟨hP, hQ, hR⟩ := h
  have hPp : 0 ≤ state.predictedError := add_nonneg hP hQ
  have hden : 0 < state.predictedError + state.measurementNoise := by linarith
  refine ⟨hden, div_nonneg hPp hden.le, ?_⟩
  unfold KalmanState.kalmanGain
  rw [div_le_one hden]
  linarith

theorem filterStep_wellFormed (state : KalmanState) (z : ℚ) (h : state.wellFormed) :
    (state.filterStep z).wellFormed := by
  obtain ⟨_, _, hK1⟩ := kalmanGain_bounds state h
  obtain ⟨hP, hQ, hR⟩ := h
  refine ⟨?_, hQ, hR⟩
  show 0 ≤ (1 - state.kalmanGain) * state.predictedError
  exact mul_nonneg (by linarith) (add_nonneg hP hQ)

theorem initialize_wellFormed (sf : SensorFusion) (i : Fin 5) :
    ( sf.initialize.kalmanStates i).wellFormed := by
  simp only [ SensorFusion.initialize, KalmanState.wellFormed]
  norm_num

theorem call_wellFormed (sf : SensorFusion) (call : KalmanCall) (hadm : call.admissible)
    (h : ∀ i, (sf.kalmanStates i).wellFormed) (i : Fin 5) :
    ((sf.call call).kalmanStates i).wellFormed := by
  cases call with
  | filter idx z =>
    simp only [SensorFusion.call, SensorFusion.applyKalmanFilter]
    split_ifs with h5
    · exact h i
    · simp only
      split_ifs with hj
      · exact filterStep_wellFormed _ z (h _)
      · exact h i
  | update idx q r =>
    obtain ⟨hq, hr⟩ := hadm
    simp only [SensorFusion.call, SensorFusion.updateKalmanParameters]
    split_ifs with h5
    · simp only
      split_ifs with hj
      · exact ⟨(h i).1, hq, hr⟩
      · exact h i
    · exact h i

theorem calls_wellFormed (calls : List KalmanCall) (sf : SensorFusion)
    (hadm : ∀ call ∈ calls, call.admissible)
    (h : ∀ i, (sf.kalmanStates i).wellFormed) (i : Fin 5) :
    ((sf.calls calls).kalmanStates i).wellFormed := by
  induction calls generalizing sf with
  | nil => exact h i
  | cons call rest ih =>
    simp only [SensorFusion.calls, List.foldl_cons]
    exact ih (sf.call call) (fun c hc => hadm c (List.mem_cons_of_mem _ hc))
      (fun j => call_wellFormed sf call (hadm call (List.mem_cons_self _ _)) h j)

/-- C10: in every channel state reached from `initialize()` by a sequence of
`applyKalmanFilter` calls and of `updateKalmanParameters` calls with
non-negative process noise and positive measurement noise, the stored estimate
error `P` is non-negative, the divisor `(P + Q) + R` of the next gain is
strictly positive, and that gain `(P + Q) / ((P + Q) + R)`, which is the gain
the next `applyKalmanFilter` call on the channel computes, lies in `[0, 1]`. -/
theorem kalman_gain_in_unit_interval (sf : SensorFusion) (calls : List KalmanCall)
    (i : Fin 5) (hadm : ∀ call ∈ calls, call.admissible) :
    0 ≤ (( sf.initialize.calls calls).kalmanStates i).estimateError
      ∧ 0 < ((( sf.initialize.calls calls).kalmanStates i).estimateError
              + (( sf.initialize.calls calls).kalmanStates i).processNoise)
            + (( sf.initialize.calls calls).kalmanStates i).measurementNoise
      ∧ (( sf.initialize.calls calls).kalmanStates i).kalmanGain
        = ((( sf.initialize.calls calls).kalmanStates i).estimateError
              + (( sf.initialize.calls calls).kalmanStates i).processNoise)
            / (((( sf.initialize.calls calls).kalmanStates i).estimateError
                + (( sf.initialize.calls calls).kalmanStates i).processNoise)
              + (( sf.initialize.calls calls).kalmanStates i).measurementNoise)
      ∧ 0 ≤ (( sf.initialize.calls calls).kalmanStates i).kalmanGain
      ∧ (( sf.initialize.calls calls).kalmanStates i).kalmanGain ≤ 1 := by
  have hwf := calls_wellFormed calls sf.initialize hadm (initialize_wellFormed sf) i
  obtain ⟨hden, hK0, hK1⟩ := kalmanGain_bounds _ hwf
  exact ⟨hwf.1, hden, rfl, hK0, hK1⟩

/-- C10 on a concrete run: initialise, filter channel 1 with 330, set its
noises to `(0, 1/2)`, filter it with 280, and make one call with the
out-of-range index 7; the channel then holds error `11/54` and its next gain
is `11/38`. -/
theorem kalman_gain_in_unit_interval_example :
    (( SensorFusion.blank.initialize.calls
        [.filter 1 330, .update 1 0 (1 / 2), .filter 1 280, .filter 7 5]).kalmanStates
        1).estimateError = 11 / 54
      ∧ (( SensorFusion.blank.initialize.calls
        [.filter 1 330, .update 1 0 (1 / 2), .filter 1 280, .filter 7 5]).kalmanStates
        1).kalmanGain = 11 / 38
      ∧ 0 ≤ (( SensorFusion.blank.initialize.calls
        [.filter 1 330, .update 1 0 (1 / 2), .filter 1 280, .filter 7 5]).kalmanStates
        1).kalmanGain
      ∧ (( SensorFusion.blank.initialize.calls
        [.filter 1 330, .update 1 0 (1 / 2), .filter 1 280, .filter 7 5]).kalmanStates
        1).kalmanGain ≤ 1 := by
  have h := kalman_gain_in_unit_interval SensorFusion.blank
    [.filter 1 330, .update 1 0 (1 / 2), .filter 1 280, .filter 7 5] 1
    (by
      intro call hc
      simp only [List.mem_cons, List.mem_singleton, List.not_mem_nil, or_false] at hc
      rcases hc with rfl | rfl | rfl | rfl <;> simp [KalmanCall.admissible])
  refine ⟨?_, ?_, h.2.2.2.1, h.2.2.2.2⟩
  · simp [SensorFusion.calls, SensorFusion.call, SensorFusion.applyKalmanFilter,
      SensorFusion.updateKalmanParameters, SensorFusion.initialize, KalmanState.filterStep,
      KalmanState.kalmanGain, KalmanState.predictedError]
    norm_num
  · simp [SensorFusion.calls, SensorFusion.call, SensorFusion.applyKalmanFilter,
      SensorFusion.updateKalmanParameters, SensorFusion.initialize, KalmanState.filterStep,
      KalmanState.kalmanGain, KalmanState.predictedError]
    norm_num

/-! ## Kalman fusion engine, continued (claim C12) -/

/-- C12: an index of 5 or more is rejected. `applyKalmanFilter(index, z)`
returns `z` and leaves the whole engine, hence all five channel states and the
sensor weights, unchanged; `updateKalmanParameters(index, q, r)` leaves the
whole engine, hence all five channel states, unchanged. -/
theorem out_of_range_index_rejected (sf : SensorFusion) (index : Nat) (z q r : ℚ)
    (h : index ≥ 5) :
    (sf.applyKalmanFilter index z).2 = z
      ∧ (sf.applyKalmanFilter index z).1 = sf
      ∧ (sf.applyKalmanFilter index z).1.kalmanStates = sf.kalmanStates
      ∧ (sf.applyKalmanFilter index z).1.sensorWeights = sf.sensorWeights
      ∧ sf.updateKalmanParameters index q r = sf
      ∧ (sf.updateKalmanParameters index q r).kalmanStates = sf.kalmanStates := by
  have h1 : sf.applyKalmanFilter index z = (sf, z) := by
    unfold SensorFusion.applyKalmanFilter
    rw [dif_pos h]
  have h2 : sf.updateKalmanParameters index q r = sf := by
    unfold SensorFusion.updateKalmanParameters
    rw [dif_neg (Nat.not_lt.mpr h)]
  rw [h1, h2]
  exact ⟨rfl, rfl, rfl, rfl, rfl, rfl⟩

/-- C12 at index 5 and at the largest byte 255 on a freshly initialised
engine. -/
theorem out_of_range_index_rejected_example :
    ( SensorFusion.blank.initialize.applyKalmanFilter 5 42).2 = 42
      ∧ ( SensorFusion.blank.initialize.applyKalmanFilter 5 42).1
        = SensorFusion.blank.initialize
      ∧ ( SensorFusion.blank.initialize.applyKalmanFilter 255 42).2 = 42
      ∧ ( SensorFusion.blank.initialize.updateKalmanParameters 255 7 9)
        = SensorFusion.blank.initialize :=
  ⟨(out_of_range_index_rejected _ 5 42 0 0 (by decide)).1,
    (out_of_range_index_rejected _ 5 42 0 0 (by decide)).2.1,
    (out_of_range_index_rejected _ 255 42 0 0 (by decide)).1,
    (out_of_range_index_rejected _ 255 42 7 9 (by decide)).2.2.2.2.1⟩

/-! ## Fault detection (claim C13) -/

/-- A reading that is in range but more than 30% away from the stored previous
reading, arriving more than 1000 ms after the fault timer was started, makes
`detectFault` return `true` and change nothing: neither the previous reading
nor the timer is touched. -/
theorem detectFault_latch (sm : SensorManager) (now : Nat) (i : Fin 5) (rawValue : ℚ)
    (hr : ¬ (rawValue < 50 ∨ rawValue > 1000)) (hp : sm.previousReadings i > 0)
    (hc : fabs (rawValue - sm.previousReadings i) / sm.previousReadings i > 3 / 10)
    (ht : sm.faultStartTime i ≠ 0) (he : elapsedMillis now (sm.faultStartTime i) > 1000) :
    sm.detectFault now i rawValue = (sm, true) := by
  unfold SensorManager.detectFault
  rw [if_neg hr, if_pos hp]
  simp only
  rw [if_pos hc, if_neg ht, if_pos he]

theorem detectFaultTicks_append (sm : SensorManager) (i : Fin 5) (a b : List (Nat × ℚ)) :
    sm.detectFaultTicks i (a ++ b)
      = b.foldl (fun r tick => r.1.detectFault tick.1 i tick.2) (sm.detectFaultTicks i a) := by
  unfold SensorManager.detectFaultTicks
  rw [List.foldl_append]

theorem foldl_detectFault_latch (ticks : List (Nat × ℚ)) (sm : SensorManager) (i : Fin 5)
    (b : Bool) (hne : ticks ≠ [])
    (hall : ∀ tick ∈ ticks, sm.detectFault tick.1 i tick.2 = (sm, true)) :
    ticks.foldl (fun r tick => r.1.detectFault tick.1 i tick.2) (sm, b) = (sm, true) := by
  induction ticks generalizing b with
  | nil => exact absurd rfl hne
  | cons t rest ih =>
    rw [List.foldl_cons]
    simp only
    rw [hall t (List.mem_cons_self _ _)]
    by_cases hrest : rest = []
    · subst hrest; rfl
    · exact ih true hrest (fun tick h => hall tick (List.mem_cons_of_mem _ h))

/-- The scenario up to and including the spike: both calls return `false`,
the spike 50 is stored as the previous reading and starts the timer at 2000. -/
theorem spike_tick_state :
    (SensorManager.new.detectFaultTicks 1 [(1000, 100)]).2 = false
      ∧ (SensorManager.new.detectFaultTicks 1 [(1000, 100)]).1.faultStartTime 1 = 0
      ∧ (SensorManager.new.detectFaultTicks 1 [(1000, 100), (2000, 50)]).2 = false
      ∧ (SensorManager.new.detectFaultTicks 1 [(1000, 100), (2000, 50)]).1.previousReadings 1
        = 50
      ∧ (SensorManager.new.detectFaultTicks 1 [(1000, 100), (2000, 50)]).1.faultStartTime 1
        = 2000 := by
  simp [SensorManager.detectFaultTicks, SensorManager.detectFault, SensorManager.acceptReading,
    SensorManager.new, fabs]
  norm_num

/-- C13 fails on the code. Channel 1 of a new manager reads the baseline 100
(no fault), then the spike 50 once (in range, a 50% jump), then 100 again on
eleven consecutive ticks at increasing clock readings. The spike was stored as
the previous reading, so the return to 100 is a 100% jump; from 1001 ms after
the spike on, every call returns `true` without storing the reading or
clearing the timer. On the eleventh tick `detectFault` still returns `true`
and the fault timer still holds 2000. -/
theorem detectFault_stays_faulty_after_spike :
    (SensorManager.new.detectFaultTicks 1 spikeScenarioTicks).2 = true
      ∧ (SensorManager.new.detectFaultTicks 1 spikeScenarioTicks).1.faultStartTime 1 = 2000
      ∧ (SensorManager.new.detectFaultTicks 1 spikeScenarioTicks).1.previousReadings 1 = 50 := by
  obtain ⟨-, -, hb, hp, ht⟩ := spike_tick_state
  have hrun : SensorManager.new.detectFaultTicks 1 spikeScenarioTicks
      = ((SensorManager.new.detectFaultTicks 1 [(1000, 100), (2000, 50)]).1, true) := by
    unfold spikeScenarioTicks
    rw [detectFaultTicks_append]
    generalize SensorManager.new.detectFaultTicks 1 [(1000, 100), (2000, 50)] = r at hb hp ht
    obtain ⟨sm, b⟩ := r
    apply foldl_detectFault_latch _ sm 1 b (by simp)
    intro tick htick
    simp only at hp ht
    apply detectFault_latch
    · simp only [List.mem_cons, List.mem_singleton, List.not_mem_nil, or_false] at htick
      rcases htick with h | h | h | h | h | h | h | h | h | h | h <;> rw [h] <;> norm_num
    · rw [hp]; norm_num
    · simp only [List.mem_cons, List.mem_singleton, List.not_mem_nil, or_false] at htick
      rcases htick with h | h | h | h | h | h | h | h | h | h | h <;> rw [h, hp] <;>
        norm_num [fabs]
    · rw [ht]; norm_num
    · simp only [List.mem_cons, List.mem_singleton, List.not_mem_nil, or_false] at htick
      rcases htick with h | h | h | h | h | h | h | h | h | h | h <;> rw [h, ht] <;>
        norm_num [elapsedMillis]
  rw [hrun]
  exact ⟨rfl, ht, hp⟩

/-! ## Fault compensation and quality weights (claims C14 and C15) -/

theorem finRange_five : List.finRange 5 = [0, 1, 2, 3, 4] := by decide

theorem finRange_three : List.finRange 3 = [0, 1, 2] := by decide

/-- C14: for every faulty index `f` in `0..4` and every sensor vector,
`compensateFaultySensor(f, vector)` is the sum of the other four channels
among flowRate, pollutionLevel, lightIntensity, pH and temperature, divided
by 4; a second vector that agrees with the first on those four channels gives
the same result, whatever it holds in channel `f`. -/
theorem compensateFaultySensor_mean (sf : SensorFusion) (f : Nat) (d : SensorData)
    (hf : f < 5) :
    (f = 0 → sf.compensateFaultySensor f d
        = (d.pollutionLevel + d.lightIntensity + d.pH + d.temperature) / 4)
      ∧ (f = 1 → sf.compensateFaultySensor f d
        = (d.flowRate + d.lightIntensity + d.pH + d.temperature) / 4)
      ∧ (f = 2 → sf.compensateFaultySensor f d
        = (d.flowRate + d.pollutionLevel + d.pH + d.temperature) / 4)
      ∧ (f = 3 → sf.compensateFaultySensor f d
        = (d.flowRate + d.pollutionLevel + d.lightIntensity + d.temperature) / 4)
      ∧ (f = 4 → sf.compensateFaultySensor f d
        = (d.flowRate + d.pollutionLevel + d.lightIntensity + d.pH) / 4)
      ∧ (∀ d2 : SensorData,
          (f ≠ 0 → d2.flowRate = d.flowRate) →
          (f ≠ 1 → d2.pollutionLevel = d.pollutionLevel) →
          (f ≠ 2 → d2.lightIntensity = d.lightIntensity) →
          (f ≠ 3 → d2.pH = d.pH) →
          (f ≠ 4 → d2.temperature = d.temperature) →
          sf.compensateFaultySensor f d2 = sf.compensateFaultySensor f d) := by
  refine ⟨?_, ?_, ?_, ?_, ?_, ?_⟩
  · intro h; subst h
    simp [SensorFusion.compensateFaultySensor, SensorFusion.compensateStep, List.range,
      List.range.loop]
  · intro h; subst h
    simp [SensorFusion.compensateFaultySensor, SensorFusion.compensateStep, List.range,
      List.range.loop]
  · intro h; subst h
    simp [SensorFusion.compensateFaultySensor, SensorFusion.compensateStep, List.range,
      List.range.loop]
  · intro h; subst h
    simp [SensorFusion.compensateFaultySensor, SensorFusion.compensateStep, List.range,
      List.range.loop]
  · intro h; subst h
    simp [SensorFusion.compensateFaultySensor, SensorFusion.compensateStep, List.range,
      List.range.loop]
  · intro d2 h0 h1 h2 h3 h4
    interval_cases f <;>
      simp at h0 h1 h2 h3 h4 <;>
      simp [SensorFusion.compensateFaultySensor, SensorFusion.compensateStep, List.range,
        List.range.loop, *]

/-- C14 with the pollutant channel faulty: the estimate for flow 50, light 500,
pH 7 and temperature 25 is `582 / 4 = 145.5`, whether the pollutant channel
reads 999 or 0. -/
theorem compensateFaultySensor_mean_example :
    SensorFusion.blank.compensateFaultySensor 1 (sampleSensors 999 40) = 291 / 2
      ∧ SensorFusion.blank.compensateFaultySensor 1 (sampleSensors 0 40)
        = SensorFusion.blank.compensateFaultySensor 1 (sampleSensors 999 40) := by
  have h := compensateFaultySensor_mean SensorFusion.blank 1 (sampleSensors 999 40)
    (by decide)
  refine ⟨(h.2.1 rfl).trans (by norm_num [sampleSensors]), ?_⟩
  exact h.2.2.2.2.2 (sampleSensors 0 40) (fun _ => rfl) (fun h => absurd rfl h)
    (fun _ => rfl) (fun _ => rfl) (fun _ => rfl)

theorem adjustWeights_total (d : SensorData) :
    (List.finRange 5).foldl (fun acc i => acc + d.dataQuality i) 0
      = d.dataQuality 0 + d.dataQuality 1 + d.dataQuality 2 + d.dataQuality 3
        + d.dataQuality 4 := by
  rw [finRange_five]
  simp only [List.foldl, zero_add]

/-- C15: for a sensor vector with non-negative quality scores. If some score
is non-zero, `adjustWeightsBasedOnQuality` sets every weight to its score
divided by the sum of the five scores, every weight lies in `[0, 1]`, and the
five weights sum to 1. If all five scores are zero, the engine, hence every
weight, is left as it was. -/
theorem adjustWeights_normalised (sf : SensorFusion) (d : SensorData)
    (hq : ∀ i, 0 ≤ d.dataQuality i) :
    ((∃ i, d.dataQuality i ≠ 0) →
        (∀ i, (sf.adjustWeightsBasedOnQuality d).sensorWeights i
            = d.dataQuality i
              / (d.dataQuality 0 + d.dataQuality 1 + d.dataQuality 2 + d.dataQuality 3
                + d.dataQuality 4))
          ∧ (∀ i, 0 ≤ (sf.adjustWeightsBasedOnQuality d).sensorWeights i
            ∧ (sf.adjustWeightsBasedOnQuality d).sensorWeights i ≤ 1)
          ∧ (sf.adjustWeightsBasedOnQuality d).sensorWeights 0
              + (sf.adjustWeightsBasedOnQuality d).sensorWeights 1
              + (sf.adjustWeightsBasedOnQuality d).sensorWeights 2
              + (sf.adjustWeightsBasedOnQuality d).sensorWeights 3
              + (sf.adjustWeightsBasedOnQuality d).sensorWeights 4 = 1)
      ∧ ((∀ i, d.dataQuality i = 0) → sf.adjustWeightsBasedOnQuality d = sf) := by
  have h0 := hq 0
  have h1 := hq 1
  have h2 := hq 2
  have h3 := hq 3
  have h4 := hq 4
  constructor
  · rintro ⟨k, hk⟩
    have hkpos : 0 < d.dataQuality k := lt_of_le_of_ne (hq k) (Ne.symm hk)
    have hle : ∀ i, d.dataQuality i
        ≤ d.dataQuality 0 + d.dataQuality 1 + d.dataQuality 2 + d.dataQuality 3
          + d.dataQuality 4 := by
      intro i
      fin_cases i <;> simp <;> linarith
    have hT : 0 < d.dataQuality 0 + d.dataQuality 1 + d.dataQuality 2 + d.dataQuality 3
        + d.dataQuality 4 := lt_of_lt_of_le hkpos (hle k)
    have hw : ∀ i, (sf.adjustWeightsBasedOnQuality d).sensorWeights i
        = d.dataQuality i
          / (d.dataQuality 0 + d.dataQuality 1 + d.dataQuality 2 + d.dataQuality 3
            + d.dataQuality 4) := by
      intro i
      unfold SensorFusion.adjustWeightsBasedOnQuality
      simp only [adjustWeights_total]
      rw [if_pos hT]
    refine ⟨hw, ?_, ?_⟩
    · intro i
      rw [hw i]
      exact ⟨div_nonneg (hq i) hT.le, (div_le_one hT).mpr (hle i)⟩
    · rw [hw 0, hw 1, hw 2, hw 3, hw 4, ← add_div, ← add_div, ← add_div, ← add_div]
      exact div_self hT.ne.symm
  · intro hz
    unfold SensorFusion.adjustWeightsBasedOnQuality
    simp only [adjustWeights_total, hz]
    norm_num

/-- C15 on two vectors: five scores of 1 give five weights of `1/5`, which sum
to 1; five scores of 0 leave the initial weights untouched. -/
theorem adjustWeights_normalised_example :
    (SensorFusion.blank.adjustWeightsBasedOnQuality (sampleSensors 100 40)).sensorWeights 0
        = 1 / 5
      ∧ (SensorFusion.blank.adjustWeightsBasedOnQuality (sampleSensors 100 40)).sensorWeights 0
          + (SensorFusion.blank.adjustWeightsBasedOnQuality (sampleSensors 100 40)).sensorWeights 1
          + (SensorFusion.blank.adjustWeightsBasedOnQuality (sampleSensors 100 40)).sensorWeights 2
          + (SensorFusion.blank.adjustWeightsBasedOnQuality (sampleSensors 100 40)).sensorWeights 3
          + (SensorFusion.blank.adjustWeightsBasedOnQuality (sampleSensors 100 40)).sensorWeights 4
        = 1
      ∧ SensorFusion.blank.adjustWeightsBasedOnQuality
          { sampleSensors 100 40 with dataQuality := fun _ => 0 } = SensorFusion.blank := by
  have h := adjustWeights_normalised SensorFusion.blank (sampleSensors 100 40)
    (fun _ => by norm_num [sampleSensors])
  have h' := h.1 ⟨0, by norm_num [sampleSensors]⟩
  refine ⟨(h'.1 0).trans (by norm_num [sampleSensors]), h'.2.2, ?_⟩
  exact (adjustWeights_normalised SensorFusion.blank
    { sampleSensors 100 40 with dataQuality := fun _ => 0 } (fun _ => le_refl _)).2
    (fun _ => rfl)

/-! ## Twin forecaster (claims C16 to C20) -/

theorem simulate_pollutionHistory (tw : DigitalTwin) (expF : ℚ → ℚ) (now : Nat)
    (uninit : DigitalTwinData) (sensors : SensorData) :
    (tw.simulate expF now uninit sensors).1.pollutionHistory
      = (tw.pollutionHistory.push sensors.pollutionLevel).1 :=
  rfl

/-- The pollutant history after a sequence of `simulate` calls is the history
before it with the pollutant levels pushed in order. -/
theorem simulateAll_pollutionHistory (snapshots : List SensorData) (tw : DigitalTwin)
    (expF : ℚ → ℚ) (now : Nat) (uninit : DigitalTwinData) :
    (tw.simulateAll expF now uninit snapshots).pollutionHistory
      = snapshots.foldl (fun b sensors => (b.push sensors.pollutionLevel).1)
          tw.pollutionHistory := by
  induction snapshots generalizing tw with
  | nil => rfl
  | cons sensors rest ih =>
    simp only [DigitalTwin.simulateAll, List.foldl_cons]
    have := ih (tw.simulate expF now uninit sensors).1
    simp only [DigitalTwin.simulateAll] at this
    rw [this, simulate_pollutionHistory]

/-- C16 fails on the code. After `initialize()` and two `simulate` calls that
record the pollutant levels 100 and then 200, `get(0)` and `get(1)` deliver the
oldest and the second oldest sample, so `arimaPrediction` returns
`0.8 * 100 + 0.2 * 200 = 120`, not `0.8 * 200 + 0.2 * 100 = 180` as the most
recent and second most recent samples would give. -/
theorem arimaPrediction_reads_oldest_samples (expF : ℚ → ℚ) (now : Nat)
    (uninit : DigitalTwinData) :
    (( DigitalTwin.blank.initialize now).simulateAll expF now uninit
        [sampleSensors 100 40, sampleSensors 200 40]).arimaPrediction = 120
      ∧ (( DigitalTwin.blank.initialize now).simulateAll expF now uninit
        [sampleSensors 100 40, sampleSensors 200 40]).arimaPrediction
        ≠ 8 / 10 * 200 + 2 / 10 * 100 := by
  have h : (( DigitalTwin.blank.initialize now).simulateAll expF now uninit
      [sampleSensors 100 40, sampleSensors 200 40]).arimaPrediction = 120 := by
    unfold DigitalTwin.arimaPrediction
    rw [simulateAll_pollutionHistory]
    simp [ DigitalTwin.initialize, DigitalTwin.blank, CircularBuffer.new, CircularBuffer.clear,
      CircularBuffer.push, CircularBuffer.isFull, CircularBuffer.get, CircularBuffer.size,
      sampleSensors]
    norm_num
  rw [h]
  exact ⟨rfl, by norm_num⟩

theorem fabs_nonneg (x : ℚ) : 0 ≤ fabs x := by
  rw [fabs_eq_abs]
  exact abs_nonneg x

theorem calculatePredictionError_nonneg (tw : DigitalTwin) (predicted actual : ℚ) :
    0 ≤ tw.calculatePredictionError predicted actual := by
  unfold DigitalTwin.calculatePredictionError
  split_ifs with h
  · exact div_nonneg (fabs_nonneg _) h.le
  · exact fabs_nonneg _

theorem updatePredictionWeights_total (tw : DigitalTwin) (actual : ℚ) (p : Fin 3 → ℚ) :
    (List.finRange 3).foldl
        (fun totalError i => totalError + tw.calculatePredictionError (p i) actual) 0
      = tw.calculatePredictionError (p 0) actual + tw.calculatePredictionError (p 1) actual
        + tw.calculatePredictionError (p 2) actual := by
  rw [finRange_three]
  simp only [List.foldl, zero_add]

/-- C17: with `e i = calculatePredictionError(predictions[i], actual)` and
`T = e 0 + e 1 + e 2`: every `e i` is non-negative; if `T > 0` then
`updatePredictionWeights` sets `w i = (T - e i) / (2 * T)` for each `i`, the
three weights sum to 1, each lies in `[0, 1/2]`, and `e i ≤ e j` gives
`w j ≤ w i`; if `T = 0` the twin, hence every weight, is left unchanged. -/
theorem updatePredictionWeights_inverse_error (tw : DigitalTwin) (actual : ℚ)
    (p : Fin 3 → ℚ) :
    (∀ i, 0 ≤ tw.calculatePredictionError (p i) actual)
      ∧ (0 < tw.calculatePredictionError (p 0) actual
              + tw.calculatePredictionError (p 1) actual
              + tw.calculatePredictionError (p 2) actual →
          (∀ i, (tw.updatePredictionWeights actual p).predictionWeights i
              = (tw.calculatePredictionError (p 0) actual
                    + tw.calculatePredictionError (p 1) actual
                    + tw.calculatePredictionError (p 2) actual
                  - tw.calculatePredictionError (p i) actual)
                / (2 * (tw.calculatePredictionError (p 0) actual
                    + tw.calculatePredictionError (p 1) actual
                    + tw.calculatePredictionError (p 2) actual)))
            ∧ (tw.updatePredictionWeights actual p).predictionWeights 0
                + (tw.updatePredictionWeights actual p).predictionWeights 1
                + (tw.updatePredictionWeights actual p).predictionWeights 2 = 1
            ∧ (∀ i, 0 ≤ (tw.updatePredictionWeights actual p).predictionWeights i
                ∧ (tw.updatePredictionWeights actual p).predictionWeights i ≤ 1 / 2)
            ∧ (∀ i j, tw.calculatePredictionError (p i) actual
                  ≤ tw.calculatePredictionError (p j) actual →
                (tw.updatePredictionWeights actual p).predictionWeights j
                  ≤ (tw.updatePredictionWeights actual p).predictionWeights i))
      ∧ (tw.calculatePredictionError (p 0) actual
            + tw.calculatePredictionError (p 1) actual
            + tw.calculatePredictionError (p 2) actual = 0 →
          tw.updatePredictionWeights actual p = tw) := by
  have hnn := calculatePredictionError_nonneg tw
  have h0 := hnn (p 0) actual
  have h1 := hnn (p 1) actual
  have h2 := hnn (p 2) actual
  refine ⟨fun i => hnn (p i) actual, ?_, ?_⟩
  · intro hT
    generalize hTdef : tw.calculatePredictionError (p 0) actual
      + tw.calculatePredictionError (p 1) actual
      + tw.calculatePredictionError (p 2) actual = T at hT
    have hle : ∀ i, tw.calculatePredictionError (p i) actual ≤ T := by
      intro i
      fin_cases i <;> simp <;> linarith
    have hw : ∀ i, (tw.updatePredictionWeights actual p).predictionWeights i
        = (T - tw.calculatePredictionError (p i) actual) / (2 * T) := by
      intro i
      unfold DigitalTwin.updatePredictionWeights
      simp only [updatePredictionWeights_total, hTdef]
      rw [if_pos hT]
    have h2T : 0 < 2 * T := by linarith
    refine ⟨hw, ?_, ?_, ?_⟩
    · rw [hw 0, hw 1, hw 2, ← add_div, ← add_div, div_eq_one_iff_eq h2T.ne.symm]
      linarith
    · intro i
      rw [hw i]
      refine ⟨div_nonneg (by linarith [hle i]) h2T.le, ?_⟩
      rw [div_le_iff₀ h2T]
      linarith [hnn (p i) actual]
    · intro i j hij
      rw [hw i, hw j]
      exact div_le_div_of_nonneg_right (by linarith) h2T.le
  · intro hT
    unfold DigitalTwin.updatePredictionWeights
    simp only [updatePredictionWeights_total, hT]
    norm_num

/-- C17 at actual value 100 with predictions 110, 90 and 130: the errors are
`1/10`, `1/10` and `3/10`, and the new weights are `2/5`, `2/5` and `1/5`. -/
theorem updatePredictionWeights_inverse_error_example :
    (DigitalTwin.blank.updatePredictionWeights 100 ![110, 90, 130]).predictionWeights 0
        = 2 / 5
      ∧ (DigitalTwin.blank.updatePredictionWeights 100 ![110, 90, 130]).predictionWeights 1
        = 2 / 5
      ∧ (DigitalTwin.blank.updatePredictionWeights 100 ![110, 90, 130]).predictionWeights 2
        = 1 / 5 := by
  have h := (updatePredictionWeights_inverse_error DigitalTwin.blank 100 ![110, 90, 130]).2.1
    (by norm_num [DigitalTwin.calculatePredictionError, fabs])
  refine ⟨(h.1 0).trans ?_, (h.1 1).trans ?_, (h.1 2).trans ?_⟩ <;>
    norm_num [DigitalTwin.calculatePredictionError, fabs]

/-- In `simulate` the setpoint is computed from the local `result` before its
`systemHealth` and `performanceTrend` are assigned: it is 100, times 1.2 if
the prior content of `result.systemHealth` is below 70, times 0.9 if the prior
content of `result.performanceTrend` exceeds 0.1, whatever the twin and the
sensors are. -/
theorem simulate_setpoint_from_prior_contents (tw : DigitalTwin) (expF : ℚ → ℚ) (now : Nat)
    (uninit : DigitalTwinData) (sensors : SensorData) :
    (tw.simulate expF now uninit sensors).2.optimalSetpoint
        = (if uninit.performanceTrend > 1 / 10 then
            (if uninit.systemHealth < 70 then 100 * (12 / 10) else 100) * (9 / 10)
          else (if uninit.systemHealth < 70 then 100 * (12 / 10) else 100))
      ∧ (tw.simulate expF now uninit sensors).2.systemHealth = tw.calculateSystemHealth sensors
      ∧ (tw.simulate expF now uninit sensors).2.performanceTrend
        = tw.calculatePerformanceTrend :=
  ⟨rfl, rfl, rfl⟩

/-- C18 fails on the code. On a freshly initialised twin, with no sensor
fault, efficiency 90 and energy usage 40, and with the local `result` holding
zeros before its fields are assigned, `simulate` returns a forecast with
`systemHealth = 100` and `performanceTrend = 0` whose `optimalSetpoint` is 120:
the setpoint was computed before health and trend were assigned, from the
prior content 0 of `result.systemHealth`. The claim gives 100. -/
theorem simulate_setpoint_ignores_reported_health (expF : ℚ → ℚ) :
    (( DigitalTwin.blank.initialize 0).simulate expF 0 (sampleTwin 0 0 0)
        (sampleSensors 100 40)).2.systemHealth = 100
      ∧ (( DigitalTwin.blank.initialize 0).simulate expF 0 (sampleTwin 0 0 0)
        (sampleSensors 100 40)).2.performanceTrend = 0
      ∧ (( DigitalTwin.blank.initialize 0).simulate expF 0 (sampleTwin 0 0 0)
        (sampleSensors 100 40)).2.optimalSetpoint = 120 := by
  obtain ⟨h1, h2, h3⟩ := simulate_setpoint_from_prior_contents ( DigitalTwin.blank.initialize 0)
    expF 0 (sampleTwin 0 0 0) (sampleSensors 100 40)
  rw [h1, h2, h3]
  refine ⟨?_, ?_, ?_⟩
  · rw [DigitalTwin.calculateSystemHealth, finRange_five]
    norm_num [List.foldl, sampleSensors, MAX_ENERGY_USAGE]
  · simp [DigitalTwin.calculatePerformanceTrend, DigitalTwin.initialize, DigitalTwin.blank,
      CircularBuffer.new, CircularBuffer.clear, CircularBuffer.size]
  · norm_num [sampleTwin]

theorem workingSensors_eq_card : ∀ f : Fin 5 → Bool,
    (List.finRange 5).foldl (fun n i => if !f i then n + 1 else n) 0
      = (Finset.univ.filter (fun i => f i = false)).card := by
  decide

theorem card_working_le : ∀ f : Fin 5 → Bool,
    (Finset.univ.filter (fun i => f i = false)).card ≤ 5 := by
  decide

theorem card_working_eq_five : ∀ f : Fin 5 → Bool,
    (Finset.univ.filter (fun i => f i = false)).card = 5 ↔ ∀ i, f i = false := by
  decide

/-- C19: `calculateSystemHealth` returns `100 * (k / 5)`, times 0.8 if
`systemEfficiency < 60`, times 0.9 if `energyUsage > 0.8 * 80 = 64`, where `k`
is the number of channels whose fault flag is false; the result lies in
`[0, 100]`, and it is 100 exactly when no channel is faulty, the efficiency is
at least 60 and the energy usage is at most 64. -/
theorem calculateSystemHealth_formula (tw : DigitalTwin) (sensors : SensorData) :
    tw.calculateSystemHealth sensors
        = 100 * ((specWorkingSensorCount sensors : ℚ) / 5)
          * (if sensors.systemEfficiency < 60 then 8 / 10 else 1)
          * (if sensors.energyUsage > 64 then 9 / 10 else 1)
      ∧ 0 ≤ tw.calculateSystemHealth sensors
      ∧ tw.calculateSystemHealth sensors ≤ 100
      ∧ (tw.calculateSystemHealth sensors = 100 ↔
          (∀ i, sensors.sensorFaults i = false) ∧ 60 ≤ sensors.systemEfficiency
            ∧ sensors.energyUsage ≤ 64) := by
  have h64 : MAX_ENERGY_USAGE * (8 / 10) = 64 := by norm_num [MAX_ENERGY_USAGE]
  have hform : tw.calculateSystemHealth sensors
      = 100 * ((specWorkingSensorCount sensors : ℚ) / 5)
        * (if sensors.systemEfficiency < 60 then 8 / 10 else 1)
        * (if sensors.energyUsage > 64 then 9 / 10 else 1) := by
    unfold DigitalTwin.calculateSystemHealth specWorkingSensorCount
    simp only [workingSensors_eq_card sensors.sensorFaults, h64]
    split_ifs <;> ring
  have hk5 : specWorkingSensorCount sensors ≤ 5 := card_working_le sensors.sensorFaults
  have hkall : specWorkingSensorCount sensors = 5 ↔ ∀ i, sensors.sensorFaults i = false :=
    card_working_eq_five sensors.sensorFaults
  have hkq : (0 : ℚ) ≤ (specWorkingSensorCount sensors : ℚ) := Nat.cast_nonneg _
  have hkq5 : (specWorkingSensorCount sensors : ℚ) ≤ 5 := by exact_mod_cast hk5
  rw [hform]
  refine ⟨rfl, ?_, ?_, ?_⟩
  · split_ifs <;> linarith
  · split_ifs <;> linarith
  · constructor
    · intro h
      have hk : (specWorkingSensorCount sensors : ℚ) = 5 := by
        split_ifs at h <;> linarith
      rw [hk] at h
      refine ⟨hkall.mp (by exact_mod_cast hk), ?_, ?_⟩
      · by_contra hlt
        rw [if_pos (not_le.mp hlt)] at h
        split_ifs at h <;> norm_num at h
      · by_contra hgt
        rw [if_pos (not_le.mp hgt)] at h
        split_ifs at h <;> norm_num at h
    · rintro ⟨hall, heff, hen⟩
      have hk : (specWorkingSensorCount sensors : ℚ) = 5 := by
        exact_mod_cast hkall.mpr hall
      rw [hk, if_neg (not_lt.mpr heff), if_neg (not_lt.mpr hen)]
      norm_num

/-- C19 at scenario 2 of the specification: no fault, efficiency 90, energy
usage 40 give health 100. -/
theorem calculateSystemHealth_scenario :
    DigitalTwin.blank.calculateSystemHealth (sampleSensors 100 40) = 100 :=
  (calculateSystemHealth_formula DigitalTwin.blank (sampleSensors 100 40)).2.2.2.mpr
    ⟨fun _ => rfl, by norm_num [sampleSensors], by norm_num [sampleSensors]⟩

/-- C20 fails on the code. After `initialize()` and four `simulate` calls that
record the pollutant levels 100, 200, 400 and 100, `get(0)`, `get(1)` and
`get(2)` deliver the three oldest samples 100, 200, 400, so
`calculatePerformanceTrend` returns `((200-100)/100 + (400-200)/200) / 2 = 1`,
not the value `((400-200)/200 + (100-400)/400) / 2 = 1/8` of the three most
recent samples 200, 400, 100. -/
theorem calculatePerformanceTrend_reads_oldest_samples (expF : ℚ → ℚ) (now : Nat)
    (uninit : DigitalTwinData) :
    (( DigitalTwin.blank.initialize now).simulateAll expF now uninit
        [sampleSensors 100 40, sampleSensors 200 40, sampleSensors 400 40,
          sampleSensors 100 40]).calculatePerformanceTrend = 1
      ∧ (( DigitalTwin.blank.initialize now).simulateAll expF now uninit
        [sampleSensors 100 40, sampleSensors 200 40, sampleSensors 400 40,
          sampleSensors 100 40]).calculatePerformanceTrend
        ≠ ((400 - 200) / 200 + (100 - 400) / 400) / 2 := by
  have h : (( DigitalTwin.blank.initialize now).simulateAll expF now uninit
      [sampleSensors 100 40, sampleSensors 200 40, sampleSensors 400 40,
        sampleSensors 100 40]).calculatePerformanceTrend = 1 := by
    unfold DigitalTwin.calculatePerformanceTrend
    rw [simulateAll_pollutionHistory]
    simp [ DigitalTwin.initialize, DigitalTwin.blank, CircularBuffer.new, CircularBuffer.clear,
      CircularBuffer.push, CircularBuffer.isFull, CircularBuffer.get, CircularBuffer.size,
      sampleSensors]
    norm_num
  rw [h]
  exact ⟨rfl, by norm_num⟩

/-! ## Model drift (claims C21 to C23) -/

theorem updateSystemModel_reactionRate (tw : DigitalTwin) (now : Nat) (sensors : SensorData)
    (twin : DigitalTwinData) :
    (tw.updateSystemModel now sensors twin).systemModel.reactionRate
      = if |sensors.pollutionLevel - twin.predictedPollution| > 10 then
          max (tw.systemModel.reactionRate * (95 / 100)) (1 / 100)
        else tw.systemModel.reactionRate := by
  simp only [DigitalTwin.updateSystemModel, fabs_eq_abs]

/-- Decaying by 0.95 with floor 0.01 and then `m` further times is decaying
`m + 1` times. -/
theorem drift_step (r : ℚ) (m : Nat) :
    max (max (r * (95 / 100)) (1 / 100) * (95 / 100) ^ m) (1 / 100)
      = max (r * (95 / 100) ^ (m + 1)) (1 / 100) := by
  have hpos : (0 : ℚ) ≤ (95 / 100) ^ m := by positivity
  have hle : ((95 : ℚ) / 100) ^ m ≤ 1 := pow_le_one₀ (by norm_num) (by norm_num)
  rw [max_mul_of_nonneg _ _ hpos, max_assoc]
  have h1 : max ((1 : ℚ) / 100 * (95 / 100) ^ m) (1 / 100) = 1 / 100 :=
    max_eq_right (by nlinarith)
  rw [h1]
  congr 1
  ring

theorem updateSystemModelAll_reactionRate (cs : List (Nat × SensorData × DigitalTwinData))
    (tw : DigitalTwin) (hr : 1 / 100 ≤ tw.systemModel.reactionRate)
    (herr : ∀ c ∈ cs, |c.2.1.pollutionLevel - c.2.2.predictedPollution| > 10) :
    (tw.updateSystemModelAll cs).systemModel.reactionRate
      = max (tw.systemModel.reactionRate * (95 / 100) ^ cs.length) (1 / 100) := by
  induction cs generalizing tw with
  | nil =>
    simp only [DigitalTwin.updateSystemModelAll, List.foldl_nil, List.length_nil, pow_zero,
      mul_one]
    exact (max_eq_left hr).symm
  | cons c rest ih =>
    have hstep := updateSystemModel_reactionRate tw c.1 c.2.1 c.2.2
    rw [if_pos (herr c (List.mem_cons_self _ _))] at hstep
    have := ih (tw.updateSystemModel c.1 c.2.1 c.2.2)
      (by rw [hstep]; exact le_max_right _ _)
      (fun c' hc' => herr c' (List.mem_cons_of_mem _ hc'))
    simp only [DigitalTwin.updateSystemModelAll, List.foldl_cons, List.length_cons] at this ⊢
    rw [this, hstep]
    exact drift_step _ _

/-- C21: from a reaction-rate constant `r0 ≥ 0.01`, after `n` consecutive
`updateSystemModel` calls in each of which
`|measured pollutant - predicted pollutant| > 10`, the constant is
`max(r0 * 0.95^n, 0.01)`; a call with `|measured - predicted| ≤ 10` leaves the
constant unchanged. -/
theorem reactionRate_drift (tw : DigitalTwin) (cs : List (Nat × SensorData × DigitalTwinData))
    (hr : 1 / 100 ≤ tw.systemModel.reactionRate)
    (herr : ∀ c ∈ cs, |c.2.1.pollutionLevel - c.2.2.predictedPollution| > 10) :
    (tw.updateSystemModelAll cs).systemModel.reactionRate
        = max (tw.systemModel.reactionRate * (95 / 100) ^ cs.length) (1 / 100)
      ∧ (∀ (t : DigitalTwin) (now : Nat) (sensors : SensorData) (twin : DigitalTwinData),
          |sensors.pollutionLevel - twin.predictedPollution| ≤ 10 →
          (t.updateSystemModel now sensors twin).systemModel.reactionRate
            = t.systemModel.reactionRate) := by
  refine ⟨updateSystemModelAll_reactionRate cs tw hr herr, ?_⟩
  intro t now sensors twin h
  rw [updateSystemModel_reactionRate, if_neg (not_lt.mpr h)]

/-- C21 at scenario 4 of the specification: from the initial constant 0.1, ten
consecutive calls with measured 150 against predicted 100 leave
`0.1 * 0.95^10`, which is above the floor. -/
theorem reactionRate_drift_scenario :
    (( DigitalTwin.blank.initialize 0).updateSystemModelAll
        (List.replicate 10 (0, sampleSensors 150 40, sampleTwin 100 100 80))).systemModel.reactionRate
      = 1 / 10 * (95 / 100) ^ 10 := by
  have h := (reactionRate_drift ( DigitalTwin.blank.initialize 0)
    (List.replicate 10 (0, sampleSensors 150 40, sampleTwin 100 100 80))
    (by norm_num [ DigitalTwin.initialize])
    (by
      intro c hc
      rw [List.eq_of_mem_replicate hc]
      norm_num [sampleSensors, sampleTwin])).1
  rw [h, List.length_replicate]
  norm_num [ DigitalTwin.initialize]

theorem call_degradation (tw : DigitalTwin) (expF : ℚ → ℚ) (c : TwinCall) :
    (tw.call expF c).systemModel.degradation
      = max (tw.systemModel.degradation * (999 / 1000)) (1 / 2) := by
  cases c with
  | simulate now uninit sensors =>
    show max (tw.systemModel.degradation * (999 / 1000)) (5 / 10) = _
    norm_num
  | updateSystemModel now sensors twin =>
    show max (tw.systemModel.degradation * (999 / 1000)) (5 / 10) = _
    norm_num

theorem degradation_step_bounds (d : ℚ) (h : 1 / 2 ≤ d ∧ d ≤ 1) :
    1 / 2 ≤ max (d * (999 / 1000)) (1 / 2) ∧ max (d * (999 / 1000)) (1 / 2) ≤ 1
      ∧ max (d * (999 / 1000)) (1 / 2) ≤ d := by
  refine ⟨le_max_right _ _, max_le (by linarith [h.2]) (by norm_num), max_le ?_ h.1⟩
  linarith [h.1]

theorem calls_degradation_bounds (cs : List TwinCall) (tw : DigitalTwin) (expF : ℚ → ℚ)
    (h : 1 / 2 ≤ tw.systemModel.degradation ∧ tw.systemModel.degradation ≤ 1) :
    1 / 2 ≤ (tw.calls expF cs).systemModel.degradation
      ∧ (tw.calls expF cs).systemModel.degradation ≤ 1 := by
  induction cs generalizing tw with
  | nil => exact h
  | cons c rest ih =>
    simp only [DigitalTwin.calls, List.foldl_cons]
    have hb := degradation_step_bounds _ h
    have := ih (tw.call expF c) (by rw [call_degradation]; exact ⟨hb.1, hb.2.1⟩)
    simpa only [DigitalTwin.calls] using this

/-- C22: every `updateSystemModel` call replaces the degradation factor `d` by
`max(0.999 * d, 0.5)`, whatever the sensors and the forecast (hence the
prediction error) are. In every twin state reached from `initialize()` by
`simulate` and `updateSystemModel` calls the factor lies in `[0.5, 1]`, and
one more call of either kind does not raise it. -/
theorem degradation_invariant (tw : DigitalTwin) (now0 : Nat) (expF : ℚ → ℚ)
    (cs : List TwinCall) (c : TwinCall) :
    (∀ (t : DigitalTwin) (now : Nat) (sensors : SensorData) (twin : DigitalTwinData),
        (t.updateSystemModel now sensors twin).systemModel.degradation
          = max (999 / 1000 * t.systemModel.degradation) (1 / 2))
      ∧ ( tw.initialize now0).systemModel.degradation = 1
      ∧ 1 / 2 ≤ ((( tw.initialize now0).calls expF cs).systemModel.degradation)
      ∧ ((( tw.initialize now0).calls expF cs).systemModel.degradation) ≤ 1
      ∧ (((( tw.initialize now0).calls expF cs).call expF c).systemModel.degradation)
        ≤ ((( tw.initialize now0).calls expF cs).systemModel.degradation) := by
  have hinit : ( tw.initialize now0).systemModel.degradation = 1 := rfl
  have hb := calls_degradation_bounds cs ( tw.initialize now0) expF
    (by rw [hinit]; norm_num)
  refine ⟨?_, hinit, hb.1, hb.2, ?_⟩
  · intro t now sensors twin
    rw [mul_comm]
    exact call_degradation t expF (.updateSystemModel now sensors twin)
  · rw [call_degradation]
    exact (degradation_step_bounds _ hb).2.2

/-- C22 on a concrete run: after `initialize()`, one `simulate` call and one
`updateSystemModel` call the factor is `0.999^2 = 0.998001`. -/
theorem degradation_invariant_example :
    ((( DigitalTwin.blank.initialize 0).calls (fun _ => 1)
        [.simulate 0 (sampleTwin 0 0 0) (sampleSensors 100 40),
          .updateSystemModel 1 (sampleSensors 150 40) (sampleTwin 100 100 80)]).systemModel.degradation)
        = 998001 / 1000000
      ∧ 1 / 2 ≤ ((( DigitalTwin.blank.initialize 0).calls (fun _ => 1)
        [.simulate 0 (sampleTwin 0 0 0) (sampleSensors 100 40),
          .updateSystemModel 1 (sampleSensors 150 40) (sampleTwin 100 100 80)]).systemModel.degradation) := by
  refine ⟨?_, (degradation_invariant DigitalTwin.blank 0 (fun _ => 1)
    [.simulate 0 (sampleTwin 0 0 0) (sampleSensors 100 40),
      .updateSystemModel 1 (sampleSensors 150 40) (sampleTwin 100 100 80)]
    (.simulate 0 (sampleTwin 0 0 0) (sampleSensors 100 40))).2.2.1⟩
  simp only [DigitalTwin.calls, List.foldl_cons, List.foldl_nil, call_degradation]
  norm_num [ DigitalTwin.initialize]

theorem call_trendCoefficient (tw : DigitalTwin) (expF : ℚ → ℚ) (c : TwinCall) :
    (tw.call expF c).trendCoefficient = tw.trendCoefficient := by
  cases c <;> rfl

theorem calls_trendCoefficient (cs : List TwinCall) (tw : DigitalTwin) (expF : ℚ → ℚ) :
    (tw.calls expF cs).trendCoefficient = tw.trendCoefficient := by
  induction cs generalizing tw with
  | nil => rfl
  | cons c rest ih =>
    simp only [DigitalTwin.calls, List.foldl_cons]
    have := ih (tw.call expF c)
    simp only [DigitalTwin.calls] at this
    rw [this, call_trendCoefficient]

/-- What the code computes: `predictEfficiency`, and with it the
`predictedEfficiency` reported by `simulate`, is
`systemEfficiency * (1 + 0.1 * trendCoefficient)` clamped to `[0, 100]`,
where `trendCoefficient` is the coefficient stored in the twin. Only
`updateTrendAnalysis` writes that coefficient and neither `simulate` nor
`updateSystemModel` calls it, so in every state reached from `initialize()`
by such calls the coefficient is still 0. -/
theorem predictEfficiency_uses_stored_coefficient (tw : DigitalTwin) (now0 : Nat)
    (expF : ℚ → ℚ) (cs : List TwinCall) (now : Nat) (uninit : DigitalTwinData)
    (sensors : SensorData) :
    (∀ t : DigitalTwin, t.predictEfficiency sensors
        = max 0 (min 100 (sensors.systemEfficiency * (1 + 1 / 10 * t.trendCoefficient))))
      ∧ (∀ t : DigitalTwin, (t.simulate expF now uninit sensors).2.predictedEfficiency
        = t.predictEfficiency sensors)
      ∧ (( tw.initialize now0).calls expF cs).trendCoefficient = 0
      ∧ (( tw.initialize now0).calls expF cs).predictEfficiency sensors
        = max 0 (min 100 sensors.systemEfficiency) := by
  have hform : ∀ t : DigitalTwin, t.predictEfficiency sensors
      = max 0 (min 100 (sensors.systemEfficiency * (1 + 1 / 10 * t.trendCoefficient))) := by
    intro t
    unfold DigitalTwin.predictEfficiency
    rw [constrain_eq_max_min _ 0 100 (by norm_num), mul_comm t.trendCoefficient]
  have hzero : (( tw.initialize now0).calls expF cs).trendCoefficient = 0 := by
    rw [calls_trendCoefficient]
    rfl
  refine ⟨hform, fun _ => rfl, hzero, ?_⟩
  rw [hform, hzero]
  norm_num

/-- After three `simulate` calls: with efficiency 90 the forecast is 90, also
as reported by a fourth `simulate` call. -/
theorem predictEfficiency_uses_stored_coefficient_example :
    (( DigitalTwin.blank.initialize 0).calls (fun _ => 1)
        [.simulate 0 (sampleTwin 0 0 0) (sampleSensors 100 40),
          .simulate 1 (sampleTwin 0 0 0) (sampleSensors 200 40),
          .simulate 2 (sampleTwin 0 0 0) (sampleSensors 400 40)]).predictEfficiency
        (sampleSensors 400 40) = 90
      ∧ (((( DigitalTwin.blank.initialize 0).calls (fun _ => 1)
        [.simulate 0 (sampleTwin 0 0 0) (sampleSensors 100 40),
          .simulate 1 (sampleTwin 0 0 0) (sampleSensors 200 40),
          .simulate 2 (sampleTwin 0 0 0) (sampleSensors 400 40)]).simulate (fun _ => 1) 3
        (sampleTwin 0 0 0) (sampleSensors 400 40)).2.predictedEfficiency) = 90 := by
  have h := predictEfficiency_uses_stored_coefficient DigitalTwin.blank 0 (fun _ => 1)
    [.simulate 0 (sampleTwin 0 0 0) (sampleSensors 100 40),
      .simulate 1 (sampleTwin 0 0 0) (sampleSensors 200 40),
      .simulate 2 (sampleTwin 0 0 0) (sampleSensors 400 40)] 3 (sampleTwin 0 0 0)
    (sampleSensors 400 40)
  have h90 : max (0 : ℚ) (min 100 (sampleSensors 400 40).systemEfficiency) = 90 := by
    norm_num [sampleSensors]
  exact ⟨h.2.2.2.trans h90, (h.2.1 _).trans (h.2.2.2.trans h90)⟩

theorem simulateAll_trendCoefficient (snapshots : List SensorData) (tw : DigitalTwin)
    (expF : ℚ → ℚ) (now : Nat) (uninit : DigitalTwinData) :
    (tw.simulateAll expF now uninit snapshots).trendCoefficient = tw.trendCoefficient := by
  induction snapshots generalizing tw with
  | nil => rfl
  | cons sensors rest ih =>
    simp only [DigitalTwin.simulateAll, List.foldl_cons]
    have := ih (tw.simulate expF now uninit sensors).1
    simp only [DigitalTwin.simulateAll] at this
    rw [this]
    rfl

/-- C23 fails on the code: after `initialize()` and three `simulate` calls
that record the pollutant levels 100, 200 and 400,
`calculatePerformanceTrend` gives 1, so with efficiency 90 the claim gives
`90 * (1 + 0.1 * 1) = 99`; but `predictEfficiency`, and the
`predictedEfficiency` of the next `simulate` call, is 90. The source comments
say the forecast takes the trend into account, and `updateTrendAnalysis` is
there to maintain `trendCoefficient`, but nothing calls it, so the stored
coefficient is still the 0 set by `initialize()`. -/
theorem predictEfficiency_ignores_performance_trend :
    (( DigitalTwin.blank.initialize 0).simulateAll (fun _ => 1) 0 (sampleTwin 0 0 0)
        [sampleSensors 100 40, sampleSensors 200 40,
          sampleSensors 400 40]).calculatePerformanceTrend = 1
      ∧ (( DigitalTwin.blank.initialize 0).simulateAll (fun _ => 1) 0 (sampleTwin 0 0 0)
        [sampleSensors 100 40, sampleSensors 200 40,
          sampleSensors 400 40]).predictEfficiency (sampleSensors 400 40) = 90
      ∧ (((( DigitalTwin.blank.initialize 0).simulateAll (fun _ => 1) 0 (sampleTwin 0 0 0)
        [sampleSensors 100 40, sampleSensors 200 40,
          sampleSensors 400 40]).simulate (fun _ => 1) 0 (sampleTwin 0 0 0)
          (sampleSensors 400 40)).2.predictedEfficiency) = 90
      ∧ constrain ((sampleSensors 400 40).systemEfficiency * (1 + 1 / 10 * 1)) 0 100 = 99 := by
  have htrend : (( DigitalTwin.blank.initialize 0).simulateAll (fun _ => 1) 0
      (sampleTwin 0 0 0) [sampleSensors 100 40, sampleSensors 200 40,
        sampleSensors 400 40]).calculatePerformanceTrend = 1 := by
    unfold DigitalTwin.calculatePerformanceTrend
    rw [simulateAll_pollutionHistory]
    simp [ DigitalTwin.initialize, DigitalTwin.blank, CircularBuffer.new, CircularBuffer.clear,
      CircularBuffer.push, CircularBuffer.isFull, CircularBuffer.get, CircularBuffer.size,
      sampleSensors]
    norm_num
  have heff : (( DigitalTwin.blank.initialize 0).simulateAll (fun _ => 1) 0
      (sampleTwin 0 0 0) [sampleSensors 100 40, sampleSensors 200 40,
        sampleSensors 400 40]).predictEfficiency (sampleSensors 400 40) = 90 := by
    unfold DigitalTwin.predictEfficiency
    rw [simulateAll_trendCoefficient]
    norm_num [ DigitalTwin.initialize, constrain, sampleSensors]
  refine ⟨htrend, heff, heff, ?_⟩
  norm_num [constrain, sampleSensors]

/-! ## Reinforcement learner (claims C24 to C29) -/

/-- The state index is `0` below 100, `1` below 200, `2` below 300, `3` below
400 and `4` otherwise, hence always in `0..4`. -/
theorem discretizeState_in_range (ls : LearningSystem) (sensors : SensorData) :
    0 ≤ ls.discretizeState sensors ∧ ls.discretizeState sensors ≤ 4
      ∧ (ls.discretizeState sensors = 0 ↔ sensors.pollutionLevel < 100)
      ∧ (ls.discretizeState sensors = 1 ↔
          100 ≤ sensors.pollutionLevel ∧ sensors.pollutionLevel < 200)
      ∧ (ls.discretizeState sensors = 2 ↔
          200 ≤ sensors.pollutionLevel ∧ sensors.pollutionLevel < 300)
      ∧ (ls.discretizeState sensors = 3 ↔
          300 ≤ sensors.pollutionLevel ∧ sensors.pollutionLevel < 400)
      ∧ (ls.discretizeState sensors = 4 ↔ 400 ≤ sensors.pollutionLevel) := by
  unfold LearningSystem.discretizeState
  split_ifs with h1 h2 h3 h4 <;>
    simp only [not_lt] at * <;>
    refine ⟨by norm_num, by norm_num, ?_, ?_, ?_, ?_, ?_⟩ <;>
    constructor <;>
    intro h <;>
    first
      | rfl
      | (norm_num at h; done)
      | linarith
      | (constructor <;> linarith)

/-- For a control output in `[0, 100)` the action index is in `0..9`. -/
theorem discretizeAction_below_full (ls : LearningSystem) (controlOutput : ℚ)
    (h0 : 0 ≤ controlOutput) (h1 : controlOutput < 100) :
    0 ≤ ls.discretizeAction controlOutput ∧ ls.discretizeAction controlOutput ≤ 9 := by
  unfold LearningSystem.discretizeAction truncToInt
  rw [if_pos (by positivity)]
  refine ⟨Int.floor_nonneg.mpr (by positivity), ?_⟩
  have : ⌊controlOutput / 10⌋ < 10 := by
    rw [Int.floor_lt]
    push_cast
    linarith
  omega

/-- C24 as stated fails at the top of the output range: the control output
100, which lies in `[0, 100]`, is mapped by `discretizeAction` to the index
`(int)(100 / 10) = 10`, not to an index in `0..9`. -/
theorem discretizeAction_full_output_out_of_range :
    (0 : ℚ) ≤ 100 ∧ (100 : ℚ) ≤ 100
      ∧ LearningSystem.new.discretizeAction 100 = 10
      ∧ ¬ (LearningSystem.new.discretizeAction 100 ≤ 9) := by
  have h : LearningSystem.new.discretizeAction 100 = 10 := by
    unfold LearningSystem.discretizeAction truncToInt
    rw [if_pos (by norm_num)]
    rw [Int.floor_eq_iff]
    norm_num
  rw [h]
  norm_num

/-- The running maximum of `updateQTable` stays in `[0, 10]` when the
entries it reads do. -/
theorem maxNextQ_fold_bounds (ls : LearningSystem) (nextState : Int) (l : List Int) (m : ℚ)
    (hq : ∀ s a, 0 ≤ ls.qTable s a ∧ ls.qTable s a ≤ 10) (hm : 0 ≤ m ∧ m ≤ 10) :
    0 ≤ l.foldl
          (fun (maxNextQ : ℚ) (a : Int) =>
            if ls.qTable nextState a > maxNextQ then ls.qTable nextState a else maxNextQ) m
      ∧ l.foldl
          (fun (maxNextQ : ℚ) (a : Int) =>
            if ls.qTable nextState a > maxNextQ then ls.qTable nextState a else maxNextQ) m
        ≤ 10 := by
  induction l generalizing m with
  | nil => exact hm
  | cons a rest ih =>
    rw [List.foldl_cons]
    apply ih
    split_ifs
    · exact hq _ _
    · exact hm

theorem updateQTable_bounds (ls : LearningSystem) (state action nextState : Int) (reward : ℚ)
    (hq : ∀ s a, 0 ≤ ls.qTable s a ∧ ls.qTable s a ≤ 10)
    (hα : ls.learningRate = 1 / 100) (hγ : ls.discountFactor = 9 / 10)
    (hr : 0 ≤ reward ∧ reward ≤ 1) :
    (∀ s a, 0 ≤ (ls.updateQTable state action reward nextState).qTable s a
        ∧ (ls.updateQTable state action reward nextState).qTable s a ≤ 10)
      ∧ (ls.updateQTable state action reward nextState).learningRate = 1 / 100
      ∧ (ls.updateQTable state action reward nextState).discountFactor = 9 / 10 := by
  refine ⟨?_, hα, hγ⟩
  intro s a
  have hM := maxNextQ_fold_bounds ls nextState [0, 1, 2, 3, 4, 5, 6, 7, 8, 9] 0 hq
    ⟨le_refl _, by norm_num⟩
  have hM' : 0 ≤ ls.maxNextQ nextState ∧ ls.maxNextQ nextState ≤ 10 := hM
  have hcell := hq state action
  simp only [LearningSystem.updateQTable, hα, hγ]
  split_ifs
  · constructor <;> linarith [hM'.1, hM'.2, hcell.1, hcell.2, hr.1, hr.2]
  · exact hq s a

theorem updateQTableAll_bounds (us : List QUpdate) (ls : LearningSystem)
    (hq : ∀ s a, 0 ≤ ls.qTable s a ∧ ls.qTable s a ≤ 10)
    (hα : ls.learningRate = 1 / 100) (hγ : ls.discountFactor = 9 / 10)
    (hr : ∀ u ∈ us, 0 ≤ u.reward ∧ u.reward ≤ 1) :
    ∀ s a, 0 ≤ (ls.updateQTableAll us).qTable s a ∧ (ls.updateQTableAll us).qTable s a ≤ 10 := by
  induction us generalizing ls with
  | nil => exact hq
  | cons u rest ih =>
    obtain ⟨h1, h2, h3⟩ := updateQTable_bounds ls u.state u.action u.nextState u.reward hq hα hγ
      (hr u (List.mem_cons_self _ _))
    have := ih (ls.updateQTable u.state u.action u.reward u.nextState) h1 h2 h3
      (fun u' hu' => hr u' (List.mem_cons_of_mem _ hu'))
    simpa only [LearningSystem.updateQTableAll, List.foldl_cons] using this

/-- C25: from the all-zero Q-table with learning rate 0.01 and discount factor
0.9, after every finite sequence of `updateQTable` calls with states in
`0..4`, actions in `0..9`, next state equal to the current state and rewards in
`[0, 1]`, every Q-table entry lies in `[0, 10]`. -/
theorem qTable_bounded (ls : LearningSystem) (us : List QUpdate)
    (hzero : ∀ s a, ls.qTable s a = 0)
    (hα : ls.learningRate = 1 / 100) (hγ : ls.discountFactor = 9 / 10)
    (hus : ∀ u ∈ us, 0 ≤ u.state ∧ u.state ≤ 4 ∧ 0 ≤ u.action ∧ u.action ≤ 9
      ∧ u.nextState = u.state ∧ 0 ≤ u.reward ∧ u.reward ≤ 1) :
    ∀ s a, 0 ≤ (ls.updateQTableAll us).qTable s a ∧ (ls.updateQTableAll us).qTable s a ≤ 10 :=
  updateQTableAll_bounds us ls (fun s a => by rw [hzero s a]; norm_num) hα hγ
    (fun u hu => ⟨(hus u hu).2.2.2.2.2.1, (hus u hu).2.2.2.2.2.2⟩)

/-- C25 on the constructed learner with two updates of entry `(1, 3)` at
reward 1: the entry becomes `0.01` and then `0.01999`, inside `[0, 10]`. -/
theorem qTable_bounded_example :
    (LearningSystem.new.updateQTableAll [⟨1, 3, 1, 1⟩, ⟨1, 3, 1, 1⟩]).qTable 1 3
        = 1999 / 100000
      ∧ 0 ≤ (LearningSystem.new.updateQTableAll [⟨1, 3, 1, 1⟩, ⟨1, 3, 1, 1⟩]).qTable 1 3
      ∧ (LearningSystem.new.updateQTableAll [⟨1, 3, 1, 1⟩, ⟨1, 3, 1, 1⟩]).qTable 1 3 ≤ 10 := by
  have h := qTable_bounded LearningSystem.new [⟨1, 3, 1, 1⟩, ⟨1, 3, 1, 1⟩]
    (fun _ _ => rfl) rfl rfl
    (by
      intro u hu
      simp only [List.mem_cons, List.mem_singleton, List.not_mem_nil, or_false, or_self] at hu
      subst hu
      norm_num) 1 3
  refine ⟨?_, h.1, h.2⟩
  simp [LearningSystem.updateQTableAll, LearningSystem.updateQTable, LearningSystem.maxNextQ,
    LearningSystem.new]
  norm_num

theorem reinforcementLearning_explorationRate (ls : LearningSystem) (draw1 draw2 : Int)
    (sensors : SensorData) (reward : ℚ) :
    (ls.reinforcementLearning draw1 draw2 sensors reward).explorationRate
      = max (ls.explorationRate * (995 / 1000)) (1 / 100) :=
  rfl

theorem exploration_step_bounds (e : ℚ) (h : 1 / 100 ≤ e ∧ e ≤ 1 / 10) :
    1 / 100 ≤ max (e * (995 / 1000)) (1 / 100) ∧ max (e * (995 / 1000)) (1 / 100) ≤ 1 / 10
      ∧ max (e * (995 / 1000)) (1 / 100) ≤ e := by
  refine ⟨le_max_right _ _, max_le (by linarith [h.2]) (by norm_num), max_le ?_ h.1⟩
  linarith [h.1]

theorem learner_call_explorationRate (ls : LearningSystem) (c : LearnerCall)
    (h : 1 / 100 ≤ ls.explorationRate ∧ ls.explorationRate ≤ 1 / 10) :
    1 / 100 ≤ (ls.call c).explorationRate ∧ (ls.call c).explorationRate ≤ 1 / 10 := by
  have hb := exploration_step_bounds _ h
  cases c with
  | reinforcementLearning draw1 draw2 sensors reward =>
    show 1 / 100 ≤ (ls.reinforcementLearning draw1 draw2 sensors reward).explorationRate
      ∧ (ls.reinforcementLearning draw1 draw2 sensors reward).explorationRate ≤ 1 / 10
    rw [reinforcementLearning_explorationRate]
    exact ⟨hb.1, hb.2.1⟩
  | performOnlineLearning now draw1 draw2 sensors twin =>
    show 1 / 100 ≤ (ls.performOnlineLearning now draw1 draw2 sensors twin).explorationRate
      ∧ (ls.performOnlineLearning now draw1 draw2 sensors twin).explorationRate ≤ 1 / 10
    unfold LearningSystem.performOnlineLearning
    split_ifs
    · exact h
    · show 1 / 100 ≤ (ls.reinforcementLearning draw1 draw2 sensors _).explorationRate
        ∧ (ls.reinforcementLearning draw1 draw2 sensors _).explorationRate ≤ 1 / 10
      rw [reinforcementLearning_explorationRate]
      exact ⟨hb.1, hb.2.1⟩
  | reset =>
    show (1 : ℚ) / 100 ≤ 1 / 10 ∧ (1 : ℚ) / 10 ≤ 1 / 10
    norm_num

theorem learner_calls_explorationRate (cs : List LearnerCall) (ls : LearningSystem)
    (h : 1 / 100 ≤ ls.explorationRate ∧ ls.explorationRate ≤ 1 / 10) :
    1 / 100 ≤ (ls.calls cs).explorationRate ∧ (ls.calls cs).explorationRate ≤ 1 / 10 := by
  induction cs generalizing ls with
  | nil => exact h
  | cons c rest ih =>
    have := ih (ls.call c) (learner_call_explorationRate ls c h)
    simpa only [LearningSystem.calls, List.foldl_cons] using this

/-- C26: every `reinforcementLearning` call replaces the exploration rate `e`
by `max(0.995 * e, 0.01)`. Construction and `reset()` set it to 0.1. In every
learner state reached from a state with `e = 0.1` by `reinforcementLearning`,
`performOnlineLearning` and `reset` calls the rate lies in `[0.01, 0.1]`, and
one more `reinforcementLearning` call leaves a rate that is not larger and
not below 0.01. -/
theorem explorationRate_invariant (ls : LearningSystem) (cs : List LearnerCall)
    (draw1 draw2 : Int) (sensors : SensorData) (reward : ℚ)
    (he : ls.explorationRate = 1 / 10) :
    (∀ (l : LearningSystem) (d1 d2 : Int) (s : SensorData) (r : ℚ),
        (l.reinforcementLearning d1 d2 s r).explorationRate
          = max (995 / 1000 * l.explorationRate) (1 / 100))
      ∧ LearningSystem.new.explorationRate = 1 / 10
      ∧ (∀ l : LearningSystem, l.reset.explorationRate = 1 / 10)
      ∧ 1 / 100 ≤ (ls.calls cs).explorationRate
      ∧ (ls.calls cs).explorationRate ≤ 1 / 10
      ∧ ((ls.calls cs).reinforcementLearning draw1 draw2 sensors reward).explorationRate
        ≤ (ls.calls cs).explorationRate
      ∧ 1 / 100
        ≤ ((ls.calls cs).reinforcementLearning draw1 draw2 sensors reward).explorationRate := by
  have hb := learner_calls_explorationRate cs ls (by rw [he]; norm_num)
  have hs := exploration_step_bounds _ hb
  refine ⟨?_, rfl, fun _ => rfl, hb.1, hb.2, ?_, ?_⟩
  · intro l d1 d2 s r
    rw [reinforcementLearning_explorationRate, mul_comm]
  · rw [reinforcementLearning_explorationRate]
    exact hs.2.2
  · rw [reinforcementLearning_explorationRate]
    exact hs.1

/-- C26 on the constructed learner: after two learning iterations the rate is
`0.1 * 0.995^2 = 0.0990025`, inside `[0.01, 0.1]`. -/
theorem explorationRate_invariant_example :
    (LearningSystem.new.calls
        [.reinforcementLearning 50 3 (sampleSensors 150 40) 1,
          .reinforcementLearning 50 3 (sampleSensors 150 40) 1]).explorationRate
        = 1 / 10 * (995 / 1000) ^ 2
      ∧ 1 / 100 ≤ (LearningSystem.new.calls
        [.reinforcementLearning 50 3 (sampleSensors 150 40) 1,
          .reinforcementLearning 50 3 (sampleSensors 150 40) 1]).explorationRate
      ∧ (LearningSystem.new.calls
        [.reinforcementLearning 50 3 (sampleSensors 150 40) 1,
          .reinforcementLearning 50 3 (sampleSensors 150 40) 1]).explorationRate ≤ 1 / 10 := by
  have h := explorationRate_invariant LearningSystem.new
    [.reinforcementLearning 50 3 (sampleSensors 150 40) 1,
      .reinforcementLearning 50 3 (sampleSensors 150 40) 1] 50 3 (sampleSensors 150 40) 1 rfl
  refine ⟨?_, h.2.2.2.1, h.2.2.2.2.1⟩
  simp only [LearningSystem.calls, List.foldl_cons, List.foldl_nil, LearningSystem.call,
    reinforcementLearning_explorationRate]
  norm_num [LearningSystem.new]

/-- C27: `calculateReward` is
`0.5 * (systemEfficiency / 100) + 0.3 * (1 - energyUsage / 100)
 + 0.2 * (systemHealth / 100)`, and it lies in `[0, 1]` whenever the three
inputs lie in `[0, 100]`. -/
theorem calculateReward_formula (ls : LearningSystem) (sensors : SensorData)
    (twin : DigitalTwinData) :
    ls.calculateReward sensors twin
        = 5 / 10 * (sensors.systemEfficiency / 100) + 3 / 10 * (1 - sensors.energyUsage / 100)
          + 2 / 10 * (twin.systemHealth / 100)
      ∧ (0 ≤ sensors.systemEfficiency → sensors.systemEfficiency ≤ 100 →
          0 ≤ sensors.energyUsage → sensors.energyUsage ≤ 100 →
          0 ≤ twin.systemHealth → twin.systemHealth ≤ 100 →
          0 ≤ ls.calculateReward sensors twin ∧ ls.calculateReward sensors twin ≤ 1) := by
  have h : ls.calculateReward sensors twin
      = 5 / 10 * (sensors.systemEfficiency / 100) + 3 / 10 * (1 - sensors.energyUsage / 100)
        + 2 / 10 * (twin.systemHealth / 100) := by
    unfold LearningSystem.calculateReward
    ring
  refine ⟨h, ?_⟩
  intro h1 h2 h3 h4 h5 h6
  rw [h]
  constructor <;> linarith

/-- C27 at efficiency 90, energy usage 40 and health 80: the reward is
`0.45 + 0.18 + 0.16 = 0.79`. -/
theorem calculateReward_formula_example :
    LearningSystem.new.calculateReward (sampleSensors 100 40) (sampleTwin 100 100 80)
      = 79 / 100 :=
  (calculateReward_formula LearningSystem.new (sampleSensors 100 40)
    (sampleTwin 100 100 80)).1.trans (by norm_num [sampleSensors, sampleTwin])

/-- C28: for every incoming `(Kp, Ki, Kd)` and every error,
`updatePIDParameters` leaves `Kp = 1.2 * bestKp`, `Ki = 0.8 * bestKi` and `Kd`
as passed in when `|error| > 50`, and leaves
`(Kp, Ki, Kd) = (bestKp, bestKi, bestKd)` when `|error| ≤ 50`; in both cases the
learner, hence its stored best-known gains, is unchanged. -/
theorem updatePIDParameters_adaptation (ls : LearningSystem) (Kp Ki Kd : ℚ)
    (sensors : SensorData) (error : ℚ) :
    (|error| > 50 →
        (ls.updatePIDParameters Kp Ki Kd sensors error).2.1
            = 12 / 10 * ls.currentLearning.bestKp
          ∧ (ls.updatePIDParameters Kp Ki Kd sensors error).2.2.1
            = 8 / 10 * ls.currentLearning.bestKi
          ∧ (ls.updatePIDParameters Kp Ki Kd sensors error).2.2.2 = Kd)
      ∧ (|error| ≤ 50 →
        (ls.updatePIDParameters Kp Ki Kd sensors error).2.1 = ls.currentLearning.bestKp
          ∧ (ls.updatePIDParameters Kp Ki Kd sensors error).2.2.1 = ls.currentLearning.bestKi
          ∧ (ls.updatePIDParameters Kp Ki Kd sensors error).2.2.2
            = ls.currentLearning.bestKd)
      ∧ (ls.updatePIDParameters Kp Ki Kd sensors error).1 = ls := by
  refine ⟨?_, ?_, ?_⟩
  · intro h
    unfold LearningSystem.updatePIDParameters
    rw [fabs_eq_abs, if_pos h]
    exact ⟨mul_comm _ _, mul_comm _ _, rfl⟩
  · intro h
    unfold LearningSystem.updatePIDParameters
    rw [fabs_eq_abs, if_neg (not_lt.mpr h)]
    exact ⟨rfl, rfl, rfl⟩
  · unfold LearningSystem.updatePIDParameters
    split_ifs <;> rfl

/-- C28 on the constructed learner (best gains 1, 0.1, 0.05) with incoming
gains `(7, 8, 9)`: error -60 gives `(1.2, 0.08, 9)`, error 50 gives
`(1, 0.1, 0.05)`. -/
theorem updatePIDParameters_adaptation_example :
    (LearningSystem.new.updatePIDParameters 7 8 9 (sampleSensors 100 40) (-60)).2
        = (12 / 10, 8 / 100, 9)
      ∧ (LearningSystem.new.updatePIDParameters 7 8 9 (sampleSensors 100 40) 50).2
        = (1, 1 / 10, 5 / 100) := by
  have h1 := (updatePIDParameters_adaptation LearningSystem.new 7 8 9 (sampleSensors 100 40)
    (-60)).1 (by norm_num)
  have h2 := (updatePIDParameters_adaptation LearningSystem.new 7 8 9 (sampleSensors 100 40)
    50).2.1 (by norm_num)
  constructor
  · refine Prod.ext (h1.1.trans ?_) (Prod.ext (h1.2.1.trans ?_) h1.2.2) <;>
      norm_num [LearningSystem.new]
  · exact Prod.ext h2.1 (Prod.ext h2.2.1 h2.2.2)

/-- The weights and the learner that `updateFusionWeights` leaves for a
prediction error above 20. -/
theorem updateFusionWeights_above (ls : LearningSystem) (w : Fin 4 → ℚ) (sensors : SensorData)
    (predictionError : ℚ) (h : predictionError > 20) :
    (∀ i, (ls.updateFusionWeights w sensors predictionError).2 i
        = ![w 0 * (9 / 10), w 1 * (11 / 10), w 2, w 3] i
          / (w 0 * (9 / 10) + w 1 * (11 / 10) + w 2 + w 3))
      ∧ (ls.updateFusionWeights w sensors predictionError).1.currentLearning.fusionWeights
        = (ls.updateFusionWeights w sensors predictionError).2 := by
  unfold LearningSystem.updateFusionWeights
  rw [if_pos h]
  refine ⟨?_, rfl⟩
  intro i
  fin_cases i <;> simp [Function.update]

/-- C29: for four non-negative weights with `w0 + w1 > 0` or `w2 + w3 > 0`.
If `predictionError > 20`, `updateFusionWeights` replaces the weights by
`(0.9 * w0, 1.1 * w1, w2, w3)` divided by the sum of these four numbers, the
new weights sum to 1, and they are stored as the fusion weights of the current
learning data. If `predictionError ≤ 20`, the weights and the learner are
left unchanged. -/
theorem updateFusionWeights_renormalised (ls : LearningSystem) (w : Fin 4 → ℚ)
    (sensors : SensorData) (predictionError : ℚ) (hw : ∀ i, 0 ≤ w i)
    (hpos : w 0 + w 1 > 0 ∨ w 2 + w 3 > 0) :
    (predictionError > 20 →
        (ls.updateFusionWeights w sensors predictionError).2 0
            = 9 / 10 * w 0 / (9 / 10 * w 0 + 11 / 10 * w 1 + w 2 + w 3)
          ∧ (ls.updateFusionWeights w sensors predictionError).2 1
            = 11 / 10 * w 1 / (9 / 10 * w 0 + 11 / 10 * w 1 + w 2 + w 3)
          ∧ (ls.updateFusionWeights w sensors predictionError).2 2
            = w 2 / (9 / 10 * w 0 + 11 / 10 * w 1 + w 2 + w 3)
          ∧ (ls.updateFusionWeights w sensors predictionError).2 3
            = w 3 / (9 / 10 * w 0 + 11 / 10 * w 1 + w 2 + w 3)
          ∧ (ls.updateFusionWeights w sensors predictionError).2 0
              + (ls.updateFusionWeights w sensors predictionError).2 1
              + (ls.updateFusionWeights w sensors predictionError).2 2
              + (ls.updateFusionWeights w sensors predictionError).2 3 = 1
          ∧ (ls.updateFusionWeights w sensors predictionError).1.currentLearning.fusionWeights
            = (ls.updateFusionWeights w sensors predictionError).2)
      ∧ (predictionError ≤ 20 → ls.updateFusionWeights w sensors predictionError = (ls, w)) := by
  have h0 := hw 0
  have h1 := hw 1
  have h2 := hw 2
  have h3 := hw 3
  have hS : 0 < 9 / 10 * w 0 + 11 / 10 * w 1 + w 2 + w 3 := by
    rcases hpos with h | h
    · rcases lt_or_eq_of_le h0 with h0' | h0'
      · linarith
      · have : 0 < w 1 := by linarith
        linarith
    · linarith
  have hSeq : w 0 * (9 / 10) + w 1 * (11 / 10) + w 2 + w 3
      = 9 / 10 * w 0 + 11 / 10 * w 1 + w 2 + w 3 := by ring
  constructor
  · intro h
    obtain ⟨hv, hcopy⟩ := updateFusionWeights_above ls w sensors predictionError h
    rw [hSeq] at hv
    have e0 := hv 0
    have e1 := hv 1
    have e2 := hv 2
    have e3 := hv 3
    simp only [Matrix.cons_val_zero, Matrix.cons_val_one, Matrix.head_cons,
      Matrix.cons_val_two, Matrix.tail_cons, Matrix.cons_val_three] at e0 e1 e2 e3
    rw [mul_comm] at e0 e1
    refine ⟨e0, e1, e2, e3, ?_, hcopy⟩
    rw [e0, e1, e2, e3, ← add_div, ← add_div, ← add_div]
    exact div_self hS.ne.symm
  · intro h
    unfold LearningSystem.updateFusionWeights
    rw [if_neg (not_lt.mpr h)]

/-- C29 on the constructed learner with weights `(0.25, 0.25, 0.25, 0.25)` and
prediction error 30: the new weights are `(0.225, 0.275, 0.25, 0.25)` (their
sum before division is already 1) and are stored in the learning data. -/
theorem updateFusionWeights_renormalised_example :
    (LearningSystem.new.updateFusionWeights (fun _ => 1 / 4) (sampleSensors 100 40) 30).2 0
        = 9 / 40
      ∧ (LearningSystem.new.updateFusionWeights (fun _ => 1 / 4) (sampleSensors 100 40) 30).2 1
        = 11 / 40
      ∧ (LearningSystem.new.updateFusionWeights (fun _ => 1 / 4) (sampleSensors 100 40)
          30).1.currentLearning.fusionWeights 1 = 11 / 40
      ∧ LearningSystem.new.updateFusionWeights (fun _ => 1 / 4) (sampleSensors 100 40) 20
        = (LearningSystem.new, fun _ => 1 / 4) := by
  have h := updateFusionWeights_renormalised LearningSystem.new (fun _ => 1 / 4)
    (sampleSensors 100 40) 30 (fun _ => by norm_num) (Or.inl (by norm_num))
  have h' := h.1 (by norm_num)
  have h20 := (updateFusionWeights_renormalised LearningSystem.new (fun _ => 1 / 4)
    (sampleSensors 100 40) 20 (fun _ => by norm_num) (Or.inl (by norm_num))).2 (le_refl _)
  refine ⟨h'.1.trans (by norm_num), h'.2.1.trans (by norm_num), ?_, h20⟩
  rw [h'.2.2.2.2.2]
  exact h'.2.1.trans (by norm_num)

/-! ## Timer (claim C30) -/

theorem elapsedMillis_of_le (now start : Nat) (hnow : now < 4294967296) (h : start ≤ now) :
    elapsedMillis now start = now - start := by
  unfold elapsedMillis
  omega

/-- C30: with the clock reading `now` a 32-bit value. If
`now < previousTime`, `check` returns `false` (and no subtraction is
evaluated). Otherwise the unsigned difference is the true
difference `now - previousTime`, and `check` returns `true` exactly when it is
at least `interval`. A `true` result with `autoReset` set leaves
`previousTime = now`. -/
theorem timer_check_wraparound (t : Timer) (now : Nat) (hnow : now < 4294967296) :
    (now < t.previousTime → (t.check now).2 = false)
      ∧ (¬ now < t.previousTime → elapsedMillis now t.previousTime = now - t.previousTime)
      ∧ (¬ now < t.previousTime →
          ((t.check now).2 = true ↔ now - t.previousTime ≥ t.interval))
      ∧ ((t.check now).2 = true → t.autoReset = true → (t.check now).1.previousTime = now) := by
  refine ⟨?_, ?_, ?_, ?_⟩
  · intro h
    unfold Timer.check
    simp only [if_pos h]
  · intro h
    exact elapsedMillis_of_le now _ hnow (Nat.le_of_not_lt h)
  · intro h
    unfold Timer.check
    simp only [if_neg h]
    rw [elapsedMillis_of_le now _ hnow (Nat.le_of_not_lt h)]
    split_ifs with h2 <;> simp [h2]
  · intro hres hauto
    unfold Timer.check at hres ⊢
    by_cases h1 : now < t.previousTime
    · simp [h1] at hres
    · by_cases h2 : elapsedMillis now t.previousTime ≥ t.interval
      · simp [h1, h2, hauto]
      · simp [h1, h2] at hres

/-- C30 on a timer constructed at clock reading 1000 with interval 500 and
`autoReset`: at 1600 it fires and stores 1600; at 1400 it does not fire; at
the wrapped reading 200 it returns `false`. -/
theorem timer_check_wraparound_example :
    ((Timer.new 1000 500 true).check 1600).2 = true
      ∧ ((Timer.new 1000 500 true).check 1600).1.previousTime = 1600
      ∧ ((Timer.new 1000 500 true).check 1400).2 = false
      ∧ ((Timer.new 1000 500 true).check 200).2 = false := by
  have h1 := timer_check_wraparound (Timer.new 1000 500 true) 1600 (by norm_num)
  have h2 := timer_check_wraparound (Timer.new 1000 500 true) 1400 (by norm_num)
  have h3 := timer_check_wraparound (Timer.new 1000 500 true) 200 (by norm_num)
  have e1 : ((Timer.new 1000 500 true).check 1600).2 = true :=
    (h1.2.2.1 (by norm_num [Timer.new])).mpr (by norm_num [Timer.new])
  refine ⟨e1, h1.2.2.2 e1 rfl, ?_, h3.1 (by norm_num [Timer.new])⟩
  have := (h2.2.2.1 (by norm_num [Timer.new])).not.mpr (by norm_num [Timer.new])
  simpa using this

/-! ## PID controller, continued (claims C31 and C32) -/

theorem flooredDt_of_pos (dt : ℚ) (h : 0 < dt) : PIDController.flooredDt dt = dt := by
  unfold PIDController.flooredDt
  rw [if_neg (not_le.mpr h)]

theorem constrain_of_mem (x lo hi : ℚ) (h1 : lo ≤ x) (h2 : x ≤ hi) : constrain x lo hi = x := by
  unfold constrain
  rw [if_neg (not_lt.mpr h1), if_neg (not_lt.mpr h2)]

/-- The conditional bleed-off, spelled out on the integral term. -/
theorem windup_step_integral (c : PIDController) (p : Prop) [Decidable p] (output dt : ℚ) :
    (if p then c.handleIntegralWindup output dt else c).integralTerm
      = if p ∧ |output| > c.outputMax then 95 / 100 * c.integralTerm else c.integralTerm := by
  by_cases hp : p
  · rw [if_pos hp]
    unfold PIDController.handleIntegralWindup
    rw [fabs_eq_abs]
    by_cases hq : |output| > c.outputMax
    · rw [if_pos hq, if_pos ⟨hp, hq⟩]
      exact mul_comm _ _
    · rw [if_neg hq, if_neg (fun h => hq h.2)]
  · rw [if_neg hp, if_neg (fun h => hp h.1)]

/-- C31 as amended: with anti-windup enabled, a `compute` call leaves the
integral term equal to 0.95 times its accumulated and clamped value when the
pre-clamp output satisfies both `|output| > windupThreshold * outputMax` and
`|output| > outputMax`, and equal to the accumulated and clamped value
otherwise. -/
theorem compute_integral_bleed (c : PIDController) (setpoint measurement dt : ℚ)
    (haw : c.antiWindupEnabled = true) :
    (c.compute setpoint measurement dt).1.integralTerm
      = if |(c.computeUnclamped setpoint measurement dt).2| > c.windupThreshold * c.outputMax
            ∧ |(c.computeUnclamped setpoint measurement dt).2| > c.outputMax then
          95 / 100 * constrain
            (c.integralTerm + c.Ki * (setpoint - measurement) * PIDController.flooredDt dt)
            c.integralMin c.integralMax
        else
          constrain
            (c.integralTerm + c.Ki * (setpoint - measurement) * PIDController.flooredDt dt)
            c.integralMin c.integralMax := by
  have e1 : (c.compute setpoint measurement dt).1.integralTerm
      = (c.computeUnclamped setpoint measurement dt).1.integralTerm := rfl
  rw [e1]
  unfold PIDController.computeUnclamped
  simp only [haw, if_true, Bool.true_and, fabs_eq_abs, decide_eq_true_eq]
  exact windup_step_integral _ _ _ _

/-- C31 as amended, on the default limits with `Kp = 1`, `Ki = 0.1`, `Kd = 0`:
`compute(200, 0, 1)` has pre-clamp output 220, above both 80 and 100, and
leaves the integral at `0.95 * 20 = 19`. -/
theorem compute_integral_bleed_example :
    ((PIDController.new 1 (1 / 10) 0).computeUnclamped 200 0 1).2 = 220
      ∧ ((PIDController.new 1 (1 / 10) 0).compute 200 0 1).1.integralTerm = 19 := by
  have hout : ((PIDController.new 1 (1 / 10) 0).computeUnclamped 200 0 1).2 = 220 := by
    norm_num [PIDController.computeUnclamped, PIDController.new, PIDController.flooredDt,
      constrain, fabs, PIDController.handleIntegralWindup]
  refine ⟨hout, ?_⟩
  rw [compute_integral_bleed _ _ _ _ rfl, hout]
  norm_num [PIDController.new, PIDController.flooredDt, constrain]

/-- C31 as stated fails: on the default controller limits (anti-windup on,
threshold 0.8, `outputMax = 100`) with `Kp = 1`, `Ki = 0.1`, `Kd = 0`,
`compute(80, 0, 1)` has pre-clamp output 88, which exceeds
`windupThreshold * outputMax = 80`, yet the integral stays at its accumulated
and clamped value 8 instead of `0.95 * 8 = 7.6`, because 88 does not exceed
`outputMax`. -/
theorem compute_no_bleed_between_thresholds :
    (PIDController.new 1 (1 / 10) 0).antiWindupEnabled = true
      ∧ 0 < (PIDController.new 1 (1 / 10) 0).outputMax
      ∧ ((PIDController.new 1 (1 / 10) 0).computeUnclamped 80 0 1).2 = 88
      ∧ |((PIDController.new 1 (1 / 10) 0).computeUnclamped 80 0 1).2|
        > (PIDController.new 1 (1 / 10) 0).windupThreshold
          * (PIDController.new 1 (1 / 10) 0).outputMax
      ∧ constrain ((PIDController.new 1 (1 / 10) 0).integralTerm
          + (PIDController.new 1 (1 / 10) 0).Ki * (80 - 0) * PIDController.flooredDt 1)
          (PIDController.new 1 (1 / 10) 0).integralMin
          (PIDController.new 1 (1 / 10) 0).integralMax = 8
      ∧ ((PIDController.new 1 (1 / 10) 0).compute 80 0 1).1.integralTerm = 8
      ∧ ((PIDController.new 1 (1 / 10) 0).compute 80 0 1).1.integralTerm ≠ 95 / 100 * 8 := by
  have hout : ((PIDController.new 1 (1 / 10) 0).computeUnclamped 80 0 1).2 = 88 := by
    norm_num [PIDController.computeUnclamped, PIDController.new, PIDController.flooredDt,
      constrain, fabs, PIDController.handleIntegralWindup]
  have hint : ((PIDController.new 1 (1 / 10) 0).compute 80 0 1).1.integralTerm = 8 := by
    norm_num [PIDController.compute, PIDController.computeUnclamped, PIDController.new,
      PIDController.flooredDt, constrain, fabs, PIDController.handleIntegralWindup]
  refine ⟨rfl, by norm_num [PIDController.new], hout, ?_, ?_, hint, ?_⟩
  · rw [hout]
    norm_num [PIDController.new]
  · norm_num [PIDController.new, PIDController.flooredDt, constrain]
  · rw [hint]
    norm_num

/-- C32: for every controller state, measurement, `dt > 0` and two setpoints.
Both `compute` calls leave the filtered derivative
`alpha * (measurement - previousMeasurement) / dt + (1 - alpha) * old`, which
does not mention the setpoint; the pre-clamp output is the proportional part
plus the accumulated (and, with anti-windup, clamped) integral plus `-Kd`
times that filtered derivative; with adaptive mode off and the integral not
clamped for either setpoint, the two pre-clamp outputs differ by
`(Kp + Ki * dt) * (s1 - s2)`. -/
theorem compute_derivative_on_measurement (c : PIDController) (measurement dt s1 s2 : ℚ)
    (hdt : 0 < dt) :
    (c.compute s1 measurement dt).1.filteredDerivative
        = c.derivativeFilterAlpha * ((measurement - c.previousMeasurement) / dt)
          + (1 - c.derivativeFilterAlpha) * c.filteredDerivative
      ∧ (c.compute s2 measurement dt).1.filteredDerivative
        = (c.compute s1 measurement dt).1.filteredDerivative
      ∧ (∀ s : ℚ, (c.computeUnclamped s measurement dt).2
          = (if c.adaptiveMode then
              c.Kp * (s - measurement) * (1 + c.adaptiveGain * |s - measurement|)
            else c.Kp * (s - measurement))
            + (if c.antiWindupEnabled then
                constrain (c.integralTerm + c.Ki * (s - measurement) * dt)
                  c.integralMin c.integralMax
              else c.integralTerm + c.Ki * (s - measurement) * dt)
            + -c.Kd * (c.derivativeFilterAlpha * ((measurement - c.previousMeasurement) / dt)
                + (1 - c.derivativeFilterAlpha) * c.filteredDerivative))
      ∧ (c.adaptiveMode = false →
          (c.antiWindupEnabled = false
            ∨ (c.integralMin ≤ c.integralTerm + c.Ki * (s1 - measurement) * dt
              ∧ c.integralTerm + c.Ki * (s1 - measurement) * dt ≤ c.integralMax)) →
          (c.antiWindupEnabled = false
            ∨ (c.integralMin ≤ c.integralTerm + c.Ki * (s2 - measurement) * dt
              ∧ c.integralTerm + c.Ki * (s2 - measurement) * dt ≤ c.integralMax)) →
          (c.computeUnclamped s1 measurement dt).2 - (c.computeUnclamped s2 measurement dt).2
            = (c.Kp + c.Ki * dt) * (s1 - s2)) := by
  have hfl := flooredDt_of_pos dt hdt
  have hfd : ∀ s : ℚ, (c.compute s measurement dt).1.filteredDerivative
      = c.derivativeFilterAlpha * ((measurement - c.previousMeasurement) / dt)
        + (1 - c.derivativeFilterAlpha) * c.filteredDerivative := by
    intro s
    have e : (c.compute s measurement dt).1.filteredDerivative
        = (c.computeUnclamped s measurement dt).1.filteredDerivative := rfl
    rw [e]
    unfold PIDController.computeUnclamped PIDController.handleIntegralWindup
    simp only [hfl]
    split_ifs <;> rfl
  have hout : ∀ s : ℚ, (c.computeUnclamped s measurement dt).2
      = (if c.adaptiveMode then
          c.Kp * (s - measurement) * (1 + c.adaptiveGain * |s - measurement|)
        else c.Kp * (s - measurement))
        + (if c.antiWindupEnabled then
            constrain (c.integralTerm + c.Ki * (s - measurement) * dt)
              c.integralMin c.integralMax
          else c.integralTerm + c.Ki * (s - measurement) * dt)
        + -c.Kd * (c.derivativeFilterAlpha * ((measurement - c.previousMeasurement) / dt)
            + (1 - c.derivativeFilterAlpha) * c.filteredDerivative) := by
    intro s
    unfold PIDController.computeUnclamped PIDController.calculateAdaptiveGain
    simp only [hfl, fabs_eq_abs]
    split_ifs <;> rfl
  refine ⟨hfd s1, (hfd s2).trans (hfd s1).symm, hout, ?_⟩
  intro hadapt h1 h2
  have hI : ∀ s : ℚ,
      (c.antiWindupEnabled = false
        ∨ (c.integralMin ≤ c.integralTerm + c.Ki * (s - measurement) * dt
          ∧ c.integralTerm + c.Ki * (s - measurement) * dt ≤ c.integralMax)) →
      (if c.antiWindupEnabled then
          constrain (c.integralTerm + c.Ki * (s - measurement) * dt)
            c.integralMin c.integralMax
        else c.integralTerm + c.Ki * (s - measurement) * dt)
        = c.integralTerm + c.Ki * (s - measurement) * dt := by
    intro s h
    rcases h with h | ⟨ha, hb⟩
    · simp [h]
    · rw [constrain_of_mem _ _ _ ha hb]
      split_ifs <;> rfl
  rw [hout s1, hout s2, hI s1 h1, hI s2 h2]
  simp only [hadapt, Bool.false_eq_true, if_false]
  ring

/-- C32 on the default controller (`Kp = 1`, `Ki = 0.1`, `Kd = 0.05`,
`alpha = 0.3`) with measurement 50 and `dt = 1`: setpoints 100 and 60 both
leave the filtered derivative 15, and the pre-clamp outputs 54.25 and 10.25
differ by `1.1 * 40 = 44`. -/
theorem compute_derivative_on_measurement_example :
    ((PIDController.new 1 (1 / 10) (5 / 100)).compute 100 50 1).1.filteredDerivative = 15
      ∧ ((PIDController.new 1 (1 / 10) (5 / 100)).compute 60 50 1).1.filteredDerivative = 15
      ∧ ((PIDController.new 1 (1 / 10) (5 / 100)).computeUnclamped 100 50 1).2
          - ((PIDController.new 1 (1 / 10) (5 / 100)).computeUnclamped 60 50 1).2 = 44 := by
  have h := compute_derivative_on_measurement (PIDController.new 1 (1 / 10) (5 / 100)) 50 1
    100 60 (by norm_num)
  have h15 : ((PIDController.new 1 (1 / 10) (5 / 100)).compute 100 50 1).1.filteredDerivative
      = 15 := h.1.trans (by norm_num [PIDController.new])
  refine ⟨h15, h.2.1.trans h15, ?_⟩
  rw [h.2.2.2 rfl (Or.inr (by norm_num [PIDController.new]))
    (Or.inr (by norm_num [PIDController.new]))]
  norm_num [PIDController.new]

/-! ## Fault timer (claims C33 and C34) -/

/-- A reading inside the plausible range, taken while the stored previous
reading is not positive, skips the whole abrupt-change block. -/
theorem detectFault_clean_no_previous (sm : SensorManager) (now : Nat) (i : Fin 5)
    (rawValue : ℚ) (h1 : 50 ≤ rawValue) (h2 : rawValue ≤ 1000)
    (hp : ¬ sm.previousReadings i > 0) :
    sm.detectFault now i rawValue = sm.acceptReading i rawValue := by
  unfold SensorManager.detectFault
  rw [if_neg (by rintro (h | h) <;> linarith), if_neg hp]

/-- An out-of-range reading on a channel whose timer is clear starts the
timer. -/
theorem detectFault_range_start (sm : SensorManager) (now : Nat) (i : Fin 5) (rawValue : ℚ)
    (hr : rawValue < 50 ∨ rawValue > 1000) (ht : sm.faultStartTime i = 0) :
    sm.detectFault now i rawValue
      = ({ sm with faultStartTime := Function.update sm.faultStartTime i now }, true) := by
  unfold SensorManager.detectFault
  rw [if_pos hr, if_pos ht]

/-- An out-of-range reading on a channel whose timer runs since `t1`. -/
theorem detectFault_range_running (sm : SensorManager) (now t1 : Nat) (i : Fin 5)
    (rawValue : ℚ) (hr : rawValue < 50 ∨ rawValue > 1000) (ht : sm.faultStartTime i = t1)
    (ht1 : t1 ≠ 0) (hle : t1 ≤ now) (hnow : now < 4294967296) :
    (sm.detectFault now i rawValue).2 = true
      ∧ (sm.detectFault now i rawValue).1.faultStartTime i = t1
      ∧ (sm.detectFault now i rawValue).1.persistentFaults i
        = (sm.persistentFaults i || decide (t1 + 5000 < now)) := by
  unfold SensorManager.detectFault
  rw [if_pos hr, if_neg (by rw [ht]; exact ht1), ht, elapsedMillis_of_le now t1 hnow hle]
  by_cases h : now - t1 > 5000
  · have h2 : t1 + 5000 < now := by omega
    rw [if_pos h]
    simp [ht, h2]
  · have h2 : ¬ t1 + 5000 < now := by omega
    rw [if_neg h]
    simp [ht, h2]

/-- A run of out-of-range readings on a channel whose timer runs since `t1`. -/
theorem foldl_detectFault_range (ticks : List (Nat × ℚ)) (sm : SensorManager) (b : Bool)
    (i : Fin 5) (t1 : Nat) (ht : sm.faultStartTime i = t1) (ht1 : t1 ≠ 0)
    (hall : ∀ tick ∈ ticks,
      (tick.2 < 50 ∨ tick.2 > 1000) ∧ t1 ≤ tick.1 ∧ tick.1 < 4294967296) :
    (ticks.foldl (fun r tick => r.1.detectFault tick.1 i tick.2) (sm, b)).1.faultStartTime i = t1
      ∧ (ticks.foldl (fun r tick => r.1.detectFault tick.1 i tick.2) (sm, b)).1.persistentFaults i
        = (sm.persistentFaults i || ticks.any (fun tick => decide (t1 + 5000 < tick.1)))
      ∧ (ticks ≠ [] →
          (ticks.foldl (fun r tick => r.1.detectFault tick.1 i tick.2) (sm, b)).2 = true) := by
  induction ticks generalizing sm b with
  | nil => simp [ht]
  | cons tick rest ih =>
    obtain ⟨hr, hle, hnow⟩ := hall tick (List.mem_cons_self _ _)
    obtain ⟨s1, s2, s3⟩ := detectFault_range_running sm tick.1 t1 i tick.2 hr ht ht1 hle hnow
    have hrest := ih (sm.detectFault tick.1 i tick.2).1 (sm.detectFault tick.1 i tick.2).2 s2
      (fun x hx => hall x (List.mem_cons_of_mem _ hx))
    simp only [List.foldl_cons, List.any_cons]
    refine ⟨hrest.1, ?_, ?_⟩
    · rw [hrest.2.1, s3, Bool.or_assoc]
    · intro _
      by_cases hnil : rest = []
      · subst hnil
        simpa using s1
      · exact hrest.2.2 hnil

/-- C33 fails on a reachable state: on a new manager, channel 1 reads 20 at
clock 1000 (out of range: the timer starts at 1000, the stored previous
reading stays 0) and then the clean value 100 at clock 2000. The second call
returns `false` yet leaves `faultStartTime = 1000`, because the statement
that clears the timer sits inside `if (previousReadings > 0)`; the same holds
for every state whose stored previous reading is not positive. A further
out-of-range reading at 7001 is then marked persistent at once. With a
positive stored previous reading the clean reading does clear the timer. -/
theorem detectFault_clean_reading_keeps_timer :
    (SensorManager.new.detectFaultTicks 1 [(1000, 20)]).2 = true
      ∧ (SensorManager.new.detectFaultTicks 1 [(1000, 20)]).1.faultStartTime 1 = 1000
      ∧ (SensorManager.new.detectFaultTicks 1 [(1000, 20)]).1.previousReadings 1 = 0
      ∧ (SensorManager.new.detectFaultTicks 1 [(1000, 20), (2000, 100)]).2 = false
      ∧ (SensorManager.new.detectFaultTicks 1 [(1000, 20), (2000, 100)]).1.faultStartTime 1
        = 1000
      ∧ (SensorManager.new.detectFaultTicks 1
          [(1000, 20), (2000, 100), (7001, 20)]).1.isSensorFaulty 1 = true
      ∧ (∀ (sm : SensorManager) (now : Nat) (i : Fin 5) (rawValue : ℚ),
          50 ≤ rawValue → rawValue ≤ 1000 → ¬ sm.previousReadings i > 0 →
          (sm.detectFault now i rawValue).2 = false
            ∧ (sm.detectFault now i rawValue).1.faultStartTime i = sm.faultStartTime i)
      ∧ (∀ (sm : SensorManager) (now : Nat) (i : Fin 5) (rawValue : ℚ),
          50 ≤ rawValue → rawValue ≤ 1000 → sm.previousReadings i > 0 →
          ¬ fabs (rawValue - sm.previousReadings i) / sm.previousReadings i > 3 / 10 →
          (sm.detectFault now i rawValue).2 = false
            ∧ (sm.detectFault now i rawValue).1.faultStartTime i = 0) := by
  refine ⟨?_, ?_, ?_, ?_, ?_, ?_, ?_, ?_⟩
  · norm_num [SensorManager.detectFaultTicks, SensorManager.detectFault, SensorManager.new]
  · norm_num [SensorManager.detectFaultTicks, SensorManager.detectFault, SensorManager.new]
  · norm_num [SensorManager.detectFaultTicks, SensorManager.detectFault, SensorManager.new]
  · norm_num [SensorManager.detectFaultTicks, SensorManager.detectFault, SensorManager.new,
      SensorManager.acceptReading]
  · norm_num [SensorManager.detectFaultTicks, SensorManager.detectFault, SensorManager.new,
      SensorManager.acceptReading]
  · norm_num [SensorManager.detectFaultTicks, SensorManager.detectFault, SensorManager.new,
      SensorManager.acceptReading, SensorManager.isSensorFaulty, elapsedMillis]
  · intro sm now i rawValue h1 h2 hp
    rw [detectFault_clean_no_previous sm now i rawValue h1 h2 hp]
    exact ⟨rfl, rfl⟩
  · intro sm now i rawValue h1 h2 hp hc
    unfold SensorManager.detectFault
    rw [if_neg (by rintro (h | h) <;> linarith), if_pos hp]
    simp only [if_neg hc]
    exact ⟨rfl, by simp [SensorManager.acceptReading]⟩

/-- C34: for a channel whose fault timer is clear and a run of readings that
are all outside the plausible range, taken at non-decreasing 32-bit clock
readings of which the first, `t1`, is not zero. After every reading
`(t, raw)` of the run `detectFault` has returned `true`, the timer holds `t1`,
and the persistent flag read by `isSensorFaulty` is the flag from before the
run or-ed with `t - t1 > 5000`; so from a clear flag it is set exactly from
the first reading more than 5000 ms after `t1`. Moreover any `detectFault`
call, in any state, that returns `false` leaves the persistent flag clear. -/
theorem detectFault_persistent_range_fault (sm : SensorManager) (i : Fin 5)
    (run : List (Nat × ℚ)) (t1 : Nat) (raw1 : ℚ) (rest : List (Nat × ℚ))
    (hrun : run = (t1, raw1) :: rest)
    (htimer : sm.faultStartTime i = 0)
    (hrange : ∀ tick ∈ run, tick.2 < 50 ∨ tick.2 > 1000)
    (ht1 : t1 ≠ 0)
    (hclock : ∀ tick ∈ run, tick.1 < 4294967296)
    (hmono : List.Pairwise (fun a b => a ≤ b) (run.map Prod.fst)) :
    (∀ (pre : List (Nat × ℚ)) (tick : Nat × ℚ) (post : List (Nat × ℚ)),
        run = pre ++ tick :: post →
        (sm.detectFaultTicks i (pre ++ [tick])).2 = true
          ∧ (sm.detectFaultTicks i (pre ++ [tick])).1.faultStartTime i = t1
          ∧ (sm.detectFaultTicks i (pre ++ [tick])).1.isSensorFaulty i
            = (sm.persistentFaults i || decide (tick.1 - t1 > 5000)))
      ∧ (∀ (sm2 : SensorManager) (now : Nat) (rawValue : ℚ),
          (sm2.detectFault now i rawValue).2 = false →
          (sm2.detectFault now i rawValue).1.isSensorFaulty i = false) := by
  subst hrun
  constructor
  · intro pre tick post hsplit
    have hstart := detectFault_range_start sm t1 i raw1
      (hrange (t1, raw1) (List.mem_cons_self _ _)) htimer
    cases pre with
    | nil =>
      simp only [List.nil_append, List.cons.injEq] at hsplit
      obtain ⟨h1, _⟩ := hsplit
      subst h1
      simp only [List.nil_append, SensorManager.detectFaultTicks, List.foldl_cons,
        List.foldl_nil, hstart, SensorManager.isSensorFaulty]
      simp
    | cons p pre2 =>
      simp only [List.cons_append, List.cons.injEq] at hsplit
      obtain ⟨h1, h2⟩ := hsplit
      subst h1
      subst h2
      have hm := List.pairwise_cons.mp (List.pairwise_map.mp hmono)
      have hfirst : ∀ x ∈ pre2 ++ tick :: post, t1 ≤ x.1 := hm.1
      have hpre : ∀ x ∈ pre2, x.1 ≤ tick.1 := fun x hx =>
        (List.pairwise_append.mp hm.2).2.2 x hx tick (List.mem_cons_self _ _)
      have hall : ∀ x ∈ pre2 ++ [tick],
          (x.2 < 50 ∨ x.2 > 1000) ∧ t1 ≤ x.1 ∧ x.1 < 4294967296 := by
        intro x hx
        have hmem : x ∈ pre2 ++ tick :: post := by
          rcases List.mem_append.mp hx with h | h
          · exact List.mem_append_left _ h
          · exact List.mem_append_right _ (by
              rw [List.mem_singleton.mp h]
              exact List.mem_cons_self _ _)
        exact ⟨hrange x (List.mem_cons_of_mem _ hmem), hfirst x hmem,
          hclock x (List.mem_cons_of_mem _ hmem)⟩
      have hfold := foldl_detectFault_range (pre2 ++ [tick])
        { sm with faultStartTime := Function.update sm.faultStartTime i t1 } true i t1
        (by simp) ht1 hall
      simp only [List.cons_append, SensorManager.detectFaultTicks, List.foldl_cons, hstart,
        SensorManager.isSensorFaulty]
      refine ⟨hfold.2.2 (by simp), hfold.1, ?_⟩
      rw [hfold.2.1]
      have htick : t1 ≤ tick.1 := hfirst tick (by simp)
      have hany : (pre2 ++ [tick]).any (fun x => decide (t1 + 5000 < x.1))
          = decide (tick.1 - t1 > 5000) := by
        rw [List.any_append]
        by_cases h : tick.1 - t1 > 5000
        · have h3 : t1 + 5000 < tick.1 := by omega
          simp [h, h3]
        · have h3 : ¬ t1 + 5000 < tick.1 := by omega
          have h4 : ∀ x ∈ pre2, ¬ t1 + 5000 < x.1 := by
            intro x hx hlt
            have := hpre x hx
            omega
          simp only [h, decide_False, List.any_cons, h3, List.any_nil, Bool.or_false,
            List.any_eq_false, decide_eq_true_eq]
          exact h4
      rw [hany]
  · intro sm2 now rawValue hfalse
    unfold SensorManager.detectFault at hfalse ⊢
    unfold SensorManager.isSensorFaulty
    dsimp only at hfalse ⊢
    split_ifs at hfalse ⊢
    all_goals
      first
      | exact absurd hfalse (Bool.noConfusion)
      | exact Function.update_same _ _ _

/-- C34 on a new manager, channel 1 reading 20 at clock readings 1000, 3000
and 7000: every call returns `true`; after the second reading (2000 ms into
the run) the channel is not persistently faulty, after the third (6000 ms) it
is. -/
theorem detectFault_persistent_range_fault_example :
    (SensorManager.new.detectFaultTicks 1 [(1000, 20), (3000, 20)]).2 = true
      ∧ (SensorManager.new.detectFaultTicks 1 [(1000, 20), (3000, 20)]).1.isSensorFaulty 1
        = false
      ∧ (SensorManager.new.detectFaultTicks 1 [(1000, 20), (3000, 20), (7000, 20)]).2 = true
      ∧ (SensorManager.new.detectFaultTicks 1
          [(1000, 20), (3000, 20), (7000, 20)]).1.isSensorFaulty 1 = true := by
  have h := detectFault_persistent_range_fault SensorManager.new 1
    [(1000, 20), (3000, 20), (7000, 20)] 1000 20 [(3000, 20), (7000, 20)] rfl rfl
    (by
      intro tick ht
      simp only [List.mem_cons, List.mem_singleton, List.not_mem_nil, or_false] at ht
      rcases ht with h | h | h <;> rw [h] <;> norm_num)
    (by norm_num)
    (by
      intro tick ht
      simp only [List.mem_cons, List.mem_singleton, List.not_mem_nil, or_false] at ht
      rcases ht with h | h | h <;> rw [h] <;> norm_num)
    (by simp)
  have h2 := h.1 [(1000, 20)] (3000, 20) [(7000, 20)] rfl
  have h3 := h.1 [(1000, 20), (3000, 20)] (7000, 20) [] rfl
  refine ⟨h2.1, ?_, h3.1, ?_⟩
  · have e := h2.2.2
    simp only [SensorManager.new, Bool.false_or] at e
    simpa using e
  · have e := h3.2.2
    simp only [SensorManager.new, Bool.false_or] at e
    simpa using e

/-! ## Data quality and stability (claim C35) -/

theorem ring_shift (h : Nat → ℚ) (idx : Nat) (hidx : idx < 5) (v : ℚ) :
    ([0, 1, 2, 3, 4] : List Nat).map
        (fun (k : Nat) => Function.update h idx v (((idx + 1) % 5 + k) % 5))
      = (([0, 1, 2, 3, 4] : List Nat).map (fun (k : Nat) => h ((idx + k) % 5))).tail ++ [v] := by
  interval_cases idx <;> simp [Function.update]

theorem ring_sum (f : Nat → ℚ) (idx : Nat) (hidx : idx < 5) :
    ([0, 1, 2, 3, 4] : List Nat).foldl (fun (s : ℚ) (k : Nat) => s + f k) 0
      = (([0, 1, 2, 3, 4] : List Nat).map (fun (k : Nat) => f ((idx + k) % 5))).sum := by
  interval_cases idx <;> simp <;> ring

theorem updateStability_history (sm : SensorManager) (i : Fin 5) (v : ℚ) :
    (sm.updateStability i v).history i
      = Function.update (sm.history i) (sm.historyIndex i) v := by
  simp [SensorManager.updateStability]

theorem updateStability_historyIndex (sm : SensorManager) (i : Fin 5) (v : ℚ) :
    (sm.updateStability i v).historyIndex i = (sm.historyIndex i + 1) % 5 := by
  simp [SensorManager.updateStability]

theorem updateStability_other (sm : SensorManager) (i j : Fin 5) (v : ℚ) (h : j ≠ i) :
    (sm.updateStability i v).history j = sm.history j
      ∧ (sm.updateStability i v).historyIndex j = sm.historyIndex j := by
  simp [SensorManager.updateStability, Function.update_noteq h]

theorem updateStability_dataStability (sm : SensorManager) (i : Fin 5) (v : ℚ) :
    (sm.updateStability i v).dataStability i
      = 1 - constrain ((sm.updateStability i v).dataVariance i) 0 (1 / 2) := by
  simp [SensorManager.updateStability]

/-- The ring after a call holds the previous four newer slots and the new
reading. -/
theorem updateStability_ringList (sm : SensorManager) (i : Fin 5) (v : ℚ)
    (hidx : sm.historyIndex i < 5) :
    (sm.updateStability i v).ringList i = (sm.ringList i).tail ++ [v] := by
  unfold SensorManager.ringList
  rw [updateStability_history, updateStability_historyIndex]
  exact ring_shift (sm.history i) (sm.historyIndex i) hidx v

theorem updateStability_ringList_other (sm : SensorManager) (i j : Fin 5) (v : ℚ) (h : j ≠ i) :
    (sm.updateStability i v).ringList j = sm.ringList j := by
  unfold SensorManager.ringList
  rw [(updateStability_other sm i j v h).1, (updateStability_other sm i j v h).2]

theorem ringList_length (sm : SensorManager) (i : Fin 5) : (sm.ringList i).length = 5 := by
  simp [SensorManager.ringList]

/-- The variance figure stored by a call is the population variance of the
five ring slots over their mean plus 0.001. -/
theorem updateStability_dataVariance (sm : SensorManager) (i : Fin 5) (v : ℚ) :
    (sm.updateStability i v).dataVariance i
      = specVariance ((sm.updateStability i v).ringList i)
        / (specMean ((sm.updateStability i v).ringList i) + 1 / 1000) := by
  have hlt : (sm.historyIndex i + 1) % 5 < 5 := Nat.mod_lt _ (by norm_num)
  have hmean : specMean ((sm.updateStability i v).ringList i)
      = ([0, 1, 2, 3, 4] : List Nat).foldl
          (fun (s : ℚ) (k : Nat) =>
            s + Function.update (sm.history i) (sm.historyIndex i) v k) 0 / 5 := by
    unfold specMean
    rw [ringList_length]
    unfold SensorManager.ringList
    rw [updateStability_history, updateStability_historyIndex,
      ring_sum _ ((sm.historyIndex i + 1) % 5) hlt]
    norm_num
  unfold specVariance
  rw [hmean, ringList_length]
  unfold SensorManager.ringList
  rw [updateStability_history, updateStability_historyIndex]
  simp only [SensorManager.updateStability, Function.update_same]
  rw [ring_sum (fun (k : Nat) =>
      (Function.update (sm.history i) (sm.historyIndex i) v k
        - ([0, 1, 2, 3, 4] : List Nat).foldl
          (fun (s : ℚ) (k : Nat) =>
            s + Function.update (sm.history i) (sm.historyIndex i) v k) 0 / 5)
      * (Function.update (sm.history i) (sm.historyIndex i) v k
        - ([0, 1, 2, 3, 4] : List Nat).foldl
          (fun (s : ℚ) (k : Nat) =>
            s + Function.update (sm.history i) (sm.historyIndex i) v k) 0 / 5))
    ((sm.historyIndex i + 1) % 5) hlt]
  simp only [List.map_map, Function.comp, pow_two]
  norm_num

theorem specLastFive_shift (l : List ℚ) (hl : l.length = 5) (x : ℚ) (r : List ℚ) :
    specLastFive (l.tail ++ [x] ++ r) = specLastFive (l ++ x :: r) := by
  cases l with
  | nil => simp at hl
  | cons a t =>
    have ht : t.length = 4 := by
      simp only [List.length_cons] at hl
      omega
    unfold specLastFive
    have e1 : (t ++ [x] ++ r).length - 5 = r.length := by
      simp only [List.length_append, List.length_singleton, ht]
      omega
    have e2 : (a :: t ++ x :: r).length - 5 = r.length + 1 := by
      simp only [List.length_cons, List.length_append, ht]
      omega
    rw [List.tail_cons, e1, e2]
    simp

theorem specLastFive_of_length (l : List ℚ) (hl : l.length = 5) : specLastFive l = l := by
  unfold specLastFive
  simp [hl]

/-- Ring invariant over a sequence of calls: every index stays below 5 and
each channel's ring holds the last five entries of its initial ring followed
by the readings recorded for it. -/
theorem updateStabilityAll_ringList (calls : List (Fin 5 × ℚ)) (sm : SensorManager)
    (hidx : ∀ j, sm.historyIndex j < 5) :
    (∀ j, (sm.updateStabilityAll calls).historyIndex j < 5)
      ∧ ∀ j, (sm.updateStabilityAll calls).ringList j
          = specLastFive (sm.ringList j ++ specReadingsOf j calls) := by
  induction calls generalizing sm with
  | nil =>
    refine ⟨hidx, fun j => ?_⟩
    simp [SensorManager.updateStabilityAll, specReadingsOf,
      specLastFive_of_length _ (ringList_length sm j)]
  | cons c rest ih =>
    have hidx1 : ∀ j, (sm.updateStability c.1 c.2).historyIndex j < 5 := by
      intro j
      by_cases h : j = c.1
      · rw [h, updateStability_historyIndex]
        exact Nat.mod_lt _ (by norm_num)
      · rw [(updateStability_other sm c.1 j c.2 h).2]
        exact hidx j
    obtain ⟨h1, h2⟩ := ih (sm.updateStability c.1 c.2) hidx1
    have hfold : sm.updateStabilityAll (c :: rest)
        = (sm.updateStability c.1 c.2).updateStabilityAll rest := rfl
    rw [hfold]
    refine ⟨h1, fun j => ?_⟩
    rw [h2 j]
    by_cases h : j = c.1
    · subst h
      rw [updateStability_ringList sm _ c.2 (hidx _)]
      have hr : specReadingsOf c.1 (c :: rest) = c.2 :: specReadingsOf c.1 rest := by
        simp [specReadingsOf]
      rw [hr]
      exact specLastFive_shift _ (ringList_length sm _) _ _
    · rw [updateStability_ringList_other sm c.1 j c.2 h]
      have hr : specReadingsOf j (c :: rest) = specReadingsOf j rest := by
        have hne : ¬ c.1 = j := fun e => h e.symm
        simp [specReadingsOf, hne]
      rw [hr]

theorem specLastFive_padding (rs : List ℚ) (h : 5 ≤ rs.length) :
    specLastFive (List.replicate 5 0 ++ rs) = specLastFive rs := by
  unfold specLastFive
  have e : (List.replicate 5 (0 : ℚ) ++ rs).length - 5
      = (List.replicate 5 (0 : ℚ)).length + (rs.length - 5) := by
    simp only [List.length_append, List.length_replicate]
    omega
  rw [e, List.drop_append]

/-- C35 as amended. `calculateDataQuality` returns 0 for a faulty channel and
otherwise `0.7 * stability + 0.3 * (1 - variance)` clamped to `[0, 1]`, so
every score lies in `[0, 1]`. After every `updateStability` call, in any
state, the stored stability is `1 - clamp(v / (mean + 0.001), 0, 0.5)` with
`mean` and `v` the mean and population variance of the channel's five ring
slots, and lies in `[0.5, 1]`. From program start the five slots hold the last
five entries of the channel's recorded readings preceded by five zeros: the
last five recorded readings once five have been recorded, and before that the
recorded readings together with zeros for the missing ones. -/
theorem quality_score_and_stability :
    (∀ (sm : SensorManager) (i : Fin 5) (rawValue : ℚ),
        sm.calculateDataQuality i rawValue true = 0
          ∧ sm.calculateDataQuality i rawValue false
            = constrain (7 / 10 * sm.dataStability i + 3 / 10 * (1 - sm.dataVariance i)) 0 1)
      ∧ (∀ (sm : SensorManager) (i : Fin 5) (rawValue : ℚ) (isFaulty : Bool),
          0 ≤ sm.calculateDataQuality i rawValue isFaulty
            ∧ sm.calculateDataQuality i rawValue isFaulty ≤ 1)
      ∧ (∀ (sm : SensorManager) (i : Fin 5) (v : ℚ),
          (sm.updateStability i v).dataStability i
              = specStability ((sm.updateStability i v).ringList i)
            ∧ 1 / 2 ≤ (sm.updateStability i v).dataStability i
            ∧ (sm.updateStability i v).dataStability i ≤ 1)
      ∧ (∀ (calls : List (Fin 5 × ℚ)) (i : Fin 5) (v : ℚ),
          (SensorManager.new.updateStabilityAll (calls ++ [(i, v)])).dataStability i
              = specStability
                (specLastFive (List.replicate 5 0 ++ specReadingsOf i (calls ++ [(i, v)])))
            ∧ (5 ≤ (specReadingsOf i (calls ++ [(i, v)])).length →
                (SensorManager.new.updateStabilityAll (calls ++ [(i, v)])).dataStability i
                  = specStability (specLastFive (specReadingsOf i (calls ++ [(i, v)]))))) := by
  have hstab : ∀ (sm : SensorManager) (i : Fin 5) (v : ℚ),
      (sm.updateStability i v).dataStability i
        = specStability ((sm.updateStability i v).ringList i) := by
    intro sm i v
    rw [updateStability_dataStability, updateStability_dataVariance]
    rfl
  have hrun : ∀ (calls : List (Fin 5 × ℚ)) (i : Fin 5) (v : ℚ),
      (SensorManager.new.updateStabilityAll (calls ++ [(i, v)])).dataStability i
        = specStability
          (specLastFive (List.replicate 5 0 ++ specReadingsOf i (calls ++ [(i, v)]))) := by
    intro calls i v
    have hinv := (updateStabilityAll_ringList (calls ++ [(i, v)]) SensorManager.new
      (fun _ => by simp [SensorManager.new])).2 i
    have hnew : SensorManager.new.ringList i = List.replicate 5 0 := by
      simp [SensorManager.ringList, SensorManager.new, List.replicate]
    rw [hnew] at hinv
    rw [← hinv]
    have hlast : SensorManager.new.updateStabilityAll (calls ++ [(i, v)])
        = (SensorManager.new.updateStabilityAll calls).updateStability i v := by
      simp [SensorManager.updateStabilityAll, List.foldl_append]
    rw [hlast]
    exact hstab _ i v
  refine ⟨?_, ?_, ?_, ?_⟩
  · intro sm i rawValue
    constructor
    · simp [SensorManager.calculateDataQuality]
    · simp only [SensorManager.calculateDataQuality, Bool.false_eq_true, if_false]
      congr 1
      ring
  · intro sm i rawValue isFaulty
    unfold SensorManager.calculateDataQuality
    cases isFaulty
    · simp only [Bool.false_eq_true, if_false]
      exact constrain_bounds _ 0 1 (by norm_num)
    · simp
  · intro sm i v
    refine ⟨hstab sm i v, ?_, ?_⟩
    · rw [updateStability_dataStability]
      have := (constrain_bounds ((sm.updateStability i v).dataVariance i) 0 (1 / 2)
        (by norm_num)).2
      linarith
    · rw [updateStability_dataStability]
      have := (constrain_bounds ((sm.updateStability i v).dataVariance i) 0 (1 / 2)
        (by norm_num)).1
      linarith
  · intro calls i v
    refine ⟨hrun calls i v, fun h5 => ?_⟩
    rw [hrun calls i v, specLastFive_padding _ h5]

/-- C35 as stated fails before five readings are recorded: on a new manager
one `updateStability(1, 100)` call leaves the ring `0, 0, 0, 0, 100` (mean
20, variance 1600) and stores stability `1 / 2`, whereas the readings recorded
for channel 1, the single value 100, have mean 100 and variance 0 and give
stability 1. -/
theorem updateStability_counts_empty_slots :
    specReadingsOf 1 [((1 : Fin 5), (100 : ℚ))] = [100]
      ∧ specLastFive [100] = [100]
      ∧ specMean [100] = 100
      ∧ specVariance [100] = 0
      ∧ specStability [100] = 1
      ∧ (SensorManager.new.updateStabilityAll [(1, 100)]).ringList 1 = [0, 0, 0, 0, 100]
      ∧ (SensorManager.new.updateStabilityAll [(1, 100)]).dataStability 1 = 1 / 2
      ∧ (SensorManager.new.updateStabilityAll [(1, 100)]).dataStability 1
        ≠ specStability (specLastFive (specReadingsOf 1 [((1 : Fin 5), (100 : ℚ))])) := by
  have h1 : specReadingsOf 1 [((1 : Fin 5), (100 : ℚ))] = [100] := by
    simp [specReadingsOf]
  have h2 : specLastFive [100] = [100] := by simp [specLastFive]
  have h3 : specStability [100] = 1 := by
    norm_num [specStability, specVariance, specMean, constrain]
  have h4 : (SensorManager.new.updateStabilityAll [(1, 100)]).dataStability 1 = 1 / 2 := by
    norm_num [SensorManager.updateStabilityAll, SensorManager.updateStability,
      SensorManager.new, Function.update, constrain]
  refine ⟨h1, h2, by norm_num [specMean], by norm_num [specVariance, specMean], h3, ?_, h4, ?_⟩
  · norm_num [SensorManager.updateStabilityAll, SensorManager.updateStability,
      SensorManager.new, SensorManager.ringList, Function.update]
  · rw [h1, h2, h3, h4]
    norm_num

/-! ## Q-learning update and greedy selection (claims C36 and C37) -/

theorem foldl_max_seed (f : Int → ℚ) (l : List Int) (c x : ℚ) :
    l.foldl (fun (m : ℚ) (a : Int) => max m (f a)) (max c x)
      = max c (l.foldl (fun (m : ℚ) (a : Int) => max m (f a)) x) := by
  induction l generalizing x with
  | nil => rfl
  | cons a rest ih =>
    rw [List.foldl_cons, List.foldl_cons, max_assoc, ih]

theorem foldl_if_eq_max (f : Int → ℚ) (l : List Int) (x : ℚ) :
    l.foldl (fun (m : ℚ) (a : Int) => if f a > m then f a else m) x
      = l.foldl (fun (m : ℚ) (a : Int) => max m (f a)) x := by
  induction l generalizing x with
  | nil => rfl
  | cons a rest ih =>
    rw [List.foldl_cons, List.foldl_cons, ih]
    congr 1
    by_cases h : f a > x
    · rw [if_pos h, max_eq_right h.le]
    · rw [if_neg h, max_eq_left (not_lt.mp h)]

/-- The loop of `updateQTable` computes the larger of 0 and the row maximum. -/
theorem maxNextQ_eq (ls : LearningSystem) (s : Int) :
    ls.maxNextQ s = max 0 (specMaxQ ls s) := by
  unfold LearningSystem.maxNextQ specMaxQ
  rw [foldl_if_eq_max (fun a => ls.qTable s a), List.foldl_cons, foldl_max_seed]

theorem foldl_max_le (f : Int → ℚ) (l : List Int) (x c : ℚ) (hf : ∀ a, f a ≤ c) (hx : x ≤ c) :
    l.foldl (fun (m : ℚ) (a : Int) => max m (f a)) x ≤ c := by
  induction l generalizing x with
  | nil => exact hx
  | cons a rest ih =>
    rw [List.foldl_cons]
    exact ih _ (max_le hx (hf a))

theorem maxNextQ_of_nonpos_row (ls : LearningSystem) (s : Int)
    (hrow : ∀ a, ls.qTable s a ≤ 0) : ls.maxNextQ s = 0 := by
  rw [maxNextQ_eq]
  exact max_eq_left (foldl_max_le (fun a => ls.qTable s a) _ _ 0 hrow (hrow 0))

/-- An exploring `reinforcementLearning` call on a snapshot of state 0 is
`updateQTable(0, draw2, reward, 0)`. -/
theorem reinforcementLearning_explore (ls : LearningSystem) (draw2 : Int) (sensors : SensorData)
    (reward : ℚ) (hpol : sensors.pollutionLevel < 100) (he : 0 < ls.explorationRate) :
    (ls.reinforcementLearning 0 draw2 sensors reward).qTable
        = (ls.updateQTable 0 draw2 reward 0).qTable
      ∧ (ls.reinforcementLearning 0 draw2 sensors reward).learningRate = ls.learningRate
      ∧ (ls.reinforcementLearning 0 draw2 sensors reward).discountFactor = ls.discountFactor
      ∧ 0 < (ls.reinforcementLearning 0 draw2 sensors reward).explorationRate := by
  have hs : ls.discretizeState sensors = 0 := by
    unfold LearningSystem.discretizeState
    rw [if_pos hpol]
  have ha : ls.selectAction 0 draw2 0 = draw2 := by
    unfold LearningSystem.selectAction
    rw [if_pos (by
      push_cast
      linarith)]
  refine ⟨?_, rfl, rfl, ?_⟩
  · unfold LearningSystem.reinforcementLearning
    simp only [hs, ha]
  · rw [reinforcementLearning_explorationRate]
    exact lt_of_lt_of_le (by norm_num) (le_max_right _ _)

/-- Exploring calls with reward -1 on distinct actions of a row that holds no
positive entry and holds 0 at these actions: each of them ends at `-1/100`. -/
theorem explore_negative_row (acts : List Int) (ls : LearningSystem) (sensors : SensorData)
    (hpol : sensors.pollutionLevel < 100) (he : 0 < ls.explorationRate)
    (hα : ls.learningRate = 1 / 100) (hrow : ∀ a, ls.qTable 0 a ≤ 0)
    (hzero : ∀ a ∈ acts, ls.qTable 0 a = 0) (hnd : acts.Nodup) :
    (∀ a, (acts.foldl (fun (l : LearningSystem) (a : Int) =>
          l.reinforcementLearning 0 a sensors (-1)) ls).qTable 0 a
        = if a ∈ acts then -1 / 100 else ls.qTable 0 a)
      ∧ (acts.foldl (fun (l : LearningSystem) (a : Int) =>
          l.reinforcementLearning 0 a sensors (-1)) ls).learningRate = 1 / 100
      ∧ (acts.foldl (fun (l : LearningSystem) (a : Int) =>
          l.reinforcementLearning 0 a sensors (-1)) ls).discountFactor = ls.discountFactor := by
  induction acts generalizing ls with
  | nil => simp [hα]
  | cons a0 rest ih =>
    obtain ⟨hq, hl, hd, he1⟩ := reinforcementLearning_explore ls a0 sensors (-1) hpol he
    have hentry : ∀ a, (ls.reinforcementLearning 0 a0 sensors (-1)).qTable 0 a
        = if a = a0 then -1 / 100 else ls.qTable 0 a := by
      intro a
      rw [hq]
      unfold LearningSystem.updateQTable
      simp only [true_and]
      by_cases h : a = a0
      · rw [if_pos h, if_pos h, maxNextQ_of_nonpos_row ls 0 hrow, hα,
          hzero a0 (List.mem_cons_self _ _)]
        norm_num
      · rw [if_neg h, if_neg h]
    have hrow1 : ∀ a, (ls.reinforcementLearning 0 a0 sensors (-1)).qTable 0 a ≤ 0 := by
      intro a
      rw [hentry a]
      split_ifs
      · norm_num
      · exact hrow a
    have hzero1 : ∀ a ∈ rest, (ls.reinforcementLearning 0 a0 sensors (-1)).qTable 0 a = 0 := by
      intro a ha
      have hne : ¬ a = a0 := by
        intro h
        rw [h] at ha
        exact (List.nodup_cons.mp hnd).1 ha
      rw [hentry a, if_neg hne]
      exact hzero a (List.mem_cons_of_mem _ ha)
    obtain ⟨r1, r2, r3⟩ := ih (ls.reinforcementLearning 0 a0 sensors (-1)) he1 (hl.trans hα)
      hrow1 hzero1 (List.nodup_cons.mp hnd).2
    rw [List.foldl_cons]
    refine ⟨fun a => ?_, r2, r3.trans hd⟩
    rw [r1 a, hentry a]
    by_cases h1 : a ∈ rest
    · rw [if_pos h1, if_pos (List.mem_cons_of_mem _ h1)]
    · rw [if_neg h1]
      by_cases h2 : a = a0
      · rw [if_pos h2, if_pos (by rw [h2]; exact List.mem_cons_self _ _)]
      · rw [if_neg h2, if_neg (by
          intro hmem
          rcases List.mem_cons.mp hmem with h | h
          · exact h2 h
          · exact h1 h)]

/-- C36 fails on tables with a row of negative entries: the loop of
`updateQTable` seeds its running maximum with 0, so it uses
`max(0, max_a Q[s2][a])` where its own comment and the specification have
`max_a Q[s2][a]`. From a new learner, ten exploring `reinforcementLearning`
calls with reward -1 in state 0 leave every entry of row 0 at `-1/100`; the
next call (reward 0, action 0) stores `-99/10000`, whereas the rule gives
`-999/100000`. The update does leave every other entry unchanged, agrees with
the rule as soon as the next-state row has a non-negative maximum, and
`reinforcementLearning` passes the current state as next state. -/
theorem updateQTable_floors_row_maximum_at_zero :
    (∀ a : Int, 0 ≤ a → a ≤ 9 → (LearningSystem.new.calls negativeRewardCalls).qTable 0 a
        = -1 / 100)
      ∧ specMaxQ (LearningSystem.new.calls negativeRewardCalls) 0 = -1 / 100
      ∧ (LearningSystem.new.calls negativeRewardCalls).maxNextQ 0 = 0
      ∧ (((LearningSystem.new.calls negativeRewardCalls).call
          (LearnerCall.reinforcementLearning 0 0 (sampleSensors 50 50) 0)).qTable 0 0
          = -99 / 10000)
      ∧ specUpdatedQ (LearningSystem.new.calls negativeRewardCalls) 0 0 0 0 = -999 / 100000
      ∧ (∀ (ls : LearningSystem) (s a s2 : Int) (r : ℚ),
          (ls.updateQTable s a r s2).qTable s a
              = ls.qTable s a + ls.learningRate
                * (r + ls.discountFactor * max 0 (specMaxQ ls s2) - ls.qTable s a)
            ∧ (∀ x y, ¬ (x = s ∧ y = a) → (ls.updateQTable s a r s2).qTable x y = ls.qTable x y)
            ∧ (0 ≤ specMaxQ ls s2 →
                (ls.updateQTable s a r s2).qTable s a = specUpdatedQ ls s a r s2))
      ∧ (∀ (ls : LearningSystem) (draw1 draw2 : Int) (sensors : SensorData) (reward : ℚ),
          (ls.reinforcementLearning draw1 draw2 sensors reward).qTable
            = (ls.updateQTable (ls.discretizeState sensors)
                (ls.selectAction draw1 draw2 (ls.discretizeState sensors)) reward
                (ls.discretizeState sensors)).qTable) := by
  have hrun : LearningSystem.new.calls negativeRewardCalls
      = ([0, 1, 2, 3, 4, 5, 6, 7, 8, 9] : List Int).foldl
          (fun (l : LearningSystem) (a : Int) =>
            l.reinforcementLearning 0 a (sampleSensors 50 50) (-1)) LearningSystem.new := by
    unfold LearningSystem.calls negativeRewardCalls
    rw [List.foldl_map]
    rfl
  obtain ⟨hq, hα, hγ⟩ := explore_negative_row [0, 1, 2, 3, 4, 5, 6, 7, 8, 9] LearningSystem.new
    (sampleSensors 50 50) (by norm_num [sampleSensors]) (by norm_num [LearningSystem.new]) rfl
    (fun _ => le_refl _) (fun _ _ => rfl) (by decide)
  rw [← hrun] at hq hα hγ
  have hentries : ∀ a : Int, 0 ≤ a → a ≤ 9 →
      (LearningSystem.new.calls negativeRewardCalls).qTable 0 a = -1 / 100 := by
    intro a h0 h9
    rw [hq a, if_pos (by interval_cases a <;> simp)]
  have hmax : specMaxQ (LearningSystem.new.calls negativeRewardCalls) 0 = -1 / 100 := by
    unfold specMaxQ
    simp only [List.foldl_cons, List.foldl_nil]
    rw [hentries 0 (by norm_num) (by norm_num), hentries 1 (by norm_num) (by norm_num),
      hentries 2 (by norm_num) (by norm_num), hentries 3 (by norm_num) (by norm_num),
      hentries 4 (by norm_num) (by norm_num), hentries 5 (by norm_num) (by norm_num),
      hentries 6 (by norm_num) (by norm_num), hentries 7 (by norm_num) (by norm_num),
      hentries 8 (by norm_num) (by norm_num), hentries 9 (by norm_num) (by norm_num)]
    simp
  have hcode : (LearningSystem.new.calls negativeRewardCalls).maxNextQ 0 = 0 := by
    rw [maxNextQ_eq, hmax]
    norm_num
  have hγ2 : (LearningSystem.new.calls negativeRewardCalls).discountFactor = 9 / 10 := by
    rw [hγ]
    rfl
  have hrate : 0 < (LearningSystem.new.calls negativeRewardCalls).explorationRate := by
    have hb : ∀ (cs : List LearnerCall) (l : LearningSystem),
        (1 / 100 ≤ l.explorationRate ∧ l.explorationRate ≤ 1 / 10) →
        1 / 100 ≤ (l.calls cs).explorationRate ∧ (l.calls cs).explorationRate ≤ 1 / 10 := by
      intro cs
      induction cs with
      | nil => exact fun l h => h
      | cons c rest ih => exact fun l h => ih (l.call c) (learner_call_explorationRate l c h)
    have := (hb negativeRewardCalls LearningSystem.new (by norm_num [LearningSystem.new])).1
    linarith
  refine ⟨hentries, hmax, hcode, ?_, ?_, ?_, ?_⟩
  · show ((LearningSystem.new.calls negativeRewardCalls).reinforcementLearning 0 0
      (sampleSensors 50 50) 0).qTable 0 0 = -99 / 10000
    rw [(reinforcementLearning_explore _ 0 (sampleSensors 50 50) 0
      (by norm_num [sampleSensors]) hrate).1]
    unfold LearningSystem.updateQTable
    simp only [and_self, if_true]
    rw [hcode, hα, hγ2, hentries 0 (by norm_num) (by norm_num)]
    norm_num
  · unfold specUpdatedQ
    rw [hmax, hα, hγ2, hentries 0 (by norm_num) (by norm_num)]
    norm_num
  · intro ls s a s2 r
    have h1 : (ls.updateQTable s a r s2).qTable s a
        = ls.qTable s a + ls.learningRate
          * (r + ls.discountFactor * max 0 (specMaxQ ls s2) - ls.qTable s a) := by
      rw [← maxNextQ_eq]
      unfold LearningSystem.updateQTable
      simp only [and_self, if_true]
    refine ⟨h1, ?_, ?_⟩
    · intro x y hxy
      unfold LearningSystem.updateQTable
      simp only [if_neg hxy]
    · intro hpos
      rw [h1, max_eq_right hpos]
      rfl
  · intro ls draw1 draw2 sensors reward
    rfl

/-- Invariant of the greedy loop of `selectAction` over the indices visited so
far: the running best is one of them, carries its table entry, is at least
every visited entry and strictly above every visited entry of smaller index. -/
theorem greedy_fold (ls : LearningSystem) (state : Int) (l seen : List Int) (best : Int × ℚ)
    (hord : ∀ x ∈ seen, ∀ y ∈ l, x < y) (hsorted : l.Pairwise (fun a b => a < b))
    (hmem : best.1 ∈ seen) (hval : best.2 = ls.qTable state best.1)
    (hmax : ∀ x ∈ seen, ls.qTable state x ≤ best.2)
    (hfirst : ∀ x ∈ seen, x < best.1 → ls.qTable state x < best.2) :
    (l.foldl (ls.greedyStep state) best).1 ∈ seen ++ l
      ∧ (∀ x ∈ seen ++ l,
          ls.qTable state x ≤ ls.qTable state (l.foldl (ls.greedyStep state) best).1)
      ∧ (∀ x ∈ seen ++ l, x < (l.foldl (ls.greedyStep state) best).1 →
          ls.qTable state x < ls.qTable state (l.foldl (ls.greedyStep state) best).1) := by
  induction l generalizing seen best with
  | nil =>
    simp only [List.foldl_nil, List.append_nil]
    rw [← hval]
    exact ⟨hmem, hmax, hfirst⟩
  | cons a rest ih =>
    rw [List.foldl_cons]
    have hlt : ∀ x ∈ seen, x < a := fun x hx => hord x hx a (List.mem_cons_self _ _)
    have hord1 : ∀ x ∈ seen ++ [a], ∀ y ∈ rest, x < y := by
      intro x hx y hy
      rcases List.mem_append.mp hx with h | h
      · exact hord x h y (List.mem_cons_of_mem _ hy)
      · rw [List.mem_singleton.mp h]
        exact (List.pairwise_cons.mp hsorted).1 y hy
    have hres := ih (seen ++ [a]) (ls.greedyStep state best a) hord1
      (List.pairwise_cons.mp hsorted).2
    have happ : seen ++ [a] ++ rest = seen ++ a :: rest := by simp
    rw [happ] at hres
    apply hres
    · unfold LearningSystem.greedyStep
      split_ifs
      · simp
      · exact List.mem_append_left _ hmem
    · unfold LearningSystem.greedyStep
      split_ifs
      · rfl
      · exact hval
    · intro x hx
      unfold LearningSystem.greedyStep
      rcases List.mem_append.mp hx with h | h
      · split_ifs with hc
        · exact le_of_lt (lt_of_le_of_lt (hmax x h) hc)
        · exact hmax x h
      · rw [List.mem_singleton.mp h]
        split_ifs with hc
        · exact le_refl _
        · exact not_lt.mp hc
    · intro x hx
      unfold LearningSystem.greedyStep
      rcases List.mem_append.mp hx with h | h
      · split_ifs with hc
        · exact fun _ => lt_of_le_of_lt (hmax x h) hc
        · exact hfirst x h
      · rw [List.mem_singleton.mp h]
        split_ifs with hc
        · exact fun hlt2 => absurd hlt2 (lt_irrefl a)
        · exact fun hlt2 => absurd (hlt best.1 hmem) (not_lt.mpr (le_of_lt hlt2))

theorem mem_actions_iff (a : Int) :
    a ∈ ([0] ++ [1, 2, 3, 4, 5, 6, 7, 8, 9] : List Int) ↔ 0 ≤ a ∧ a ≤ 9 := by
  constructor
  · intro h
    simp only [List.singleton_append, List.mem_cons, List.mem_singleton, List.not_mem_nil,
      or_false] at h
    omega
  · rintro ⟨h0, h9⟩
    interval_cases a <;> simp

/-- C37: with the two random draws as inputs, the second in `0..9`. When the
first draw does not trigger exploration, `selectAction` returns an index in
`0..9` whose entry is at least every entry of the row and strictly above
every entry of smaller index, so it is the smallest maximiser of the row;
when exploration is triggered it returns the second draw; in both cases the
returned index lies in `0..9`. -/
theorem selectAction_greedy_first_maximiser (ls : LearningSystem) (draw1 draw2 state : Int)
    (hdraw : 0 ≤ draw2 ∧ draw2 ≤ 9) :
    (¬ (draw1 : ℚ) < ls.explorationRate * 100 →
        (∀ a : Int, 0 ≤ a → a ≤ 9 →
          ls.qTable state a ≤ ls.qTable state (ls.selectAction draw1 draw2 state))
          ∧ (∀ a : Int, 0 ≤ a → a < ls.selectAction draw1 draw2 state →
              ls.qTable state a < ls.qTable state (ls.selectAction draw1 draw2 state))
          ∧ (∀ b : Int, 0 ≤ b → b ≤ 9 →
              (∀ a : Int, 0 ≤ a → a ≤ 9 → ls.qTable state a ≤ ls.qTable state b) →
              ls.selectAction draw1 draw2 state ≤ b))
      ∧ ((draw1 : ℚ) < ls.explorationRate * 100 → ls.selectAction draw1 draw2 state = draw2)
      ∧ 0 ≤ ls.selectAction draw1 draw2 state
      ∧ ls.selectAction draw1 draw2 state ≤ 9 := by
  have hfold := greedy_fold ls state [1, 2, 3, 4, 5, 6, 7, 8, 9] [0] (0, ls.qTable state 0)
    (by decide) (by decide) (by simp) rfl (by simp) (by simp)
  by_cases hexp : (draw1 : ℚ) < ls.explorationRate * 100
  · have hsel : ls.selectAction draw1 draw2 state = draw2 := by
      unfold LearningSystem.selectAction
      rw [if_pos hexp]
    refine ⟨fun h => absurd hexp h, fun _ => hsel, ?_, ?_⟩
    · rw [hsel]
      exact hdraw.1
    · rw [hsel]
      exact hdraw.2
  · have hsel : ls.selectAction draw1 draw2 state
        = (([1, 2, 3, 4, 5, 6, 7, 8, 9] : List Int).foldl (ls.greedyStep state)
            (0, ls.qTable state 0)).1 := by
      unfold LearningSystem.selectAction
      rw [if_neg hexp]
    rw [hsel]
    have hrange := (mem_actions_iff _).mp hfold.1
    have hmaxi : ∀ a : Int, 0 ≤ a → a ≤ 9 →
        ls.qTable state a ≤ ls.qTable state
          (([1, 2, 3, 4, 5, 6, 7, 8, 9] : List Int).foldl (ls.greedyStep state)
            (0, ls.qTable state 0)).1 :=
      fun a h0 h9 => hfold.2.1 a ((mem_actions_iff a).mpr ⟨h0, h9⟩)
    have hstrict : ∀ a : Int, 0 ≤ a →
        a < (([1, 2, 3, 4, 5, 6, 7, 8, 9] : List Int).foldl (ls.greedyStep state)
            (0, ls.qTable state 0)).1 →
        ls.qTable state a < ls.qTable state
          (([1, 2, 3, 4, 5, 6, 7, 8, 9] : List Int).foldl (ls.greedyStep state)
            (0, ls.qTable state 0)).1 :=
      fun a h0 hlt =>
        hfold.2.2 a ((mem_actions_iff a).mpr ⟨h0, le_trans (le_of_lt hlt) hrange.2⟩) hlt
    refine ⟨fun _ => ⟨hmaxi, hstrict, ?_⟩, fun h => absurd h hexp, hrange.1, hrange.2⟩
    intro b hb0 _ hb
    by_contra hcon
    have hlt := hstrict b hb0 (not_le.mp hcon)
    exact absurd (hb _ hrange.1 hrange.2) (not_le.mpr hlt)

/-- C37 on a table with the row maximum 5 at actions 3 and 7 (exploration
rate 0.1): with first draw 50 the call is greedy and returns 3, the first of
the two maximisers; with first draw 5 it explores and returns the second
draw 4. -/
theorem selectAction_greedy_first_maximiser_example :
    tiedLearner.selectAction 50 4 2 = 3 ∧ tiedLearner.selectAction 5 4 2 = 4 := by
  have h1 := selectAction_greedy_first_maximiser tiedLearner 50 4 2 ⟨by norm_num, by norm_num⟩
  have h2 := selectAction_greedy_first_maximiser tiedLearner 5 4 2 ⟨by norm_num, by norm_num⟩
  have hq : ∀ a : Int, tiedLearner.qTable 2 a = if a = 3 ∨ a = 7 then 5 else 1 := fun _ => rfl
  have hrate : tiedLearner.explorationRate = 1 / 10 := rfl
  constructor
  · obtain ⟨hmax, _, hmin⟩ := h1.1 (by rw [hrate]; norm_num)
    have hle : tiedLearner.selectAction 50 4 2 ≤ 3 := by
      apply hmin 3 (by norm_num) (by norm_num)
      intro a _ _
      rw [hq a, hq 3, if_pos (Or.inl rfl)]
      split_ifs <;> norm_num
    have h3 := hmax 3 (by norm_num) (by norm_num)
    rw [hq 3, if_pos (Or.inl rfl), hq (tiedLearner.selectAction 50 4 2)] at h3
    by_cases hc : tiedLearner.selectAction 50 4 2 = 3 ∨ tiedLearner.selectAction 50 4 2 = 7
    · rcases hc with hc | hc
      · exact hc
      · rw [hc] at hle
        norm_num at hle
    · rw [if_neg hc] at h3
      norm_num at h3
  · exact h2.2.1 (by rw [hrate]; norm_num)

/-! ## Degenerate cost search (claim C38) -/

/-- The search cost is strictly increasing in the candidate. -/
theorem specCost_strictMono (p c1 c2 : ℚ) (h : c1 < c2) : specCost p c1 < specCost p c2 := by
  unfold specCost
  have habs : |p - c1 * (1 / 2) - 100| ≤ |p - c2 * (1 / 2) - 100| + (c2 - c1) * (1 / 2) := by
    have h1 := abs_sub_abs_le_abs_sub (p - c1 * (1 / 2) - 100) (p - c2 * (1 / 2) - 100)
    have h2 : p - c1 * (1 / 2) - 100 - (p - c2 * (1 / 2) - 100) = (c2 - c1) * (1 / 2) := by ring
    have h3 : |(c2 - c1) * (1 / 2)| = (c2 - c1) * (1 / 2) := abs_of_nonneg (by linarith)
    rw [h2, h3] at h1
    linarith
  have hmax : max 0 (c1 - 80) ≤ max 0 (c2 - 80) := max_le_max (le_refl _) (by linarith)
  linarith

/-- C38: for every controller, sensor snapshot and twin forecast with
`|predictedPollution - 100| < 1e9`. The cost evaluated by the search is
`|p - 0.5 c - 100| + 0.8 c + 2 max(0, c - 80)`, which is strictly increasing
in the candidate `c` for every `p`; so `modelPredictiveControl` returns 0, and
`computeControl` in HighEfficiency mode returns 0. -/
theorem highEfficiency_search_returns_zero (cs : ControlSystem) (sensors : SensorData)
    (twin : DigitalTwinData) (hp : |twin.predictedPollution - 100| < 1000000000) :
    (∀ (c : ℚ) (mode : ControlMode),
        cs.evaluateControlCost c sensors twin mode
          = |twin.predictedPollution - c * (1 / 2) - 100| + c * (8 / 10) + max 0 (c - 80) * 2)
      ∧ (∀ p c1 c2 : ℚ, 0 ≤ c1 → c1 < c2 → specCost p c1 < specCost p c2)
      ∧ cs.modelPredictiveControl sensors twin = 0
      ∧ (cs.currentMode = HIGH_EFFICIENCY → (cs.computeControl sensors twin).2 = 0) := by
  have hzero : specCost twin.predictedPollution 0 < 1000000000 := by
    unfold specCost
    simpa using hp
  have hmpc : cs.modelPredictiveControl sensors twin = 0 := by
    unfold ControlSystem.modelPredictiveControl
    obtain ⟨h1, _, h3⟩ := mpc_fold_spec cs sensors twin mpcCandidates 50 1000000000
    have hmem0 : (0 : ℚ) ∈ mpcCandidates := by simp [mpcCandidates]
    rcases h3 with ⟨_, hall⟩ | ⟨_, hcost, pre, post, hl, _⟩
    · exact absurd hzero (not_lt.mpr (hall 0 hmem0))
    · have hle := h1 0 hmem0
      rw [hcost] at hle
      generalize (mpcCandidates.foldl (cs.mpcStep sensors twin) (50, 1000000000)).1 = r at hl hle
      have hr : r ∈ mpcCandidates := by
        rw [hl]
        simp
      by_contra hne
      have hpos : 0 < r := by
        simp only [mpcCandidates, List.mem_cons, List.mem_singleton, List.not_mem_nil,
          or_false] at hr
        rcases hr with h | h | h | h | h | h
        · exact absurd h hne
        all_goals rw [h]; norm_num
      exact absurd hle (not_le.mpr (specCost_strictMono twin.predictedPollution 0 r hpos))
  refine ⟨fun c mode => ?_, fun p c1 c2 _ h => specCost_strictMono p c1 c2 h, hmpc, ?_⟩
  · rw [evaluateControlCost_eq_specCost]
    rfl
  · intro hmode
    unfold ControlSystem.computeControl
    rw [hmode]
    exact hmpc

/-- C38 on a new controller in HighEfficiency mode: with pollutant reading 350
and forecast 250 the search returns 0, and so does `computeControl`; with the
forecast 2000 it returns 0 as well. -/
theorem highEfficiency_search_returns_zero_example :
    ControlSystem.new.modelPredictiveControl (sampleSensors 350 50) (sampleTwin 250 60 90) = 0
      ∧ (({ ControlSystem.new with currentMode := HIGH_EFFICIENCY } : ControlSystem).computeControl
          (sampleSensors 350 50) (sampleTwin 250 60 90)).2 = 0
      ∧ ControlSystem.new.modelPredictiveControl (sampleSensors 20 10) (sampleTwin 2000 60 90)
        = 0 := by
  have h1 := highEfficiency_search_returns_zero ControlSystem.new (sampleSensors 350 50)
    (sampleTwin 250 60 90) (by norm_num [sampleTwin, abs_lt])
  have h2 := highEfficiency_search_returns_zero
    ({ ControlSystem.new with currentMode := HIGH_EFFICIENCY } : ControlSystem)
    (sampleSensors 350 50) (sampleTwin 250 60 90) (by norm_num [sampleTwin, abs_lt])
  have h3 := highEfficiency_search_returns_zero ControlSystem.new (sampleSensors 20 10)
    (sampleTwin 2000 60 90) (by norm_num [sampleTwin, abs_lt])
  exact ⟨h1.2.2.1, h2.2.2.2 rfl, h3.2.2.1⟩

/-! ## Full history buffers (claim C39) -/

theorem push_full {N : Nat} (b : CircularBuffer N) (v : ℚ) (h : b.count = b.capacity) :
    b.push v = (b, false) := by
  unfold CircularBuffer.push CircularBuffer.isFull
  rw [if_pos (by simp [h])]

theorem ring_slot_ne (N tail count i : Nat) (hc : count < N) (hi : i < count) :
    (tail + i) % N ≠ (tail + count) % N := by
  intro h
  have h1 : i % N = count % N := Nat.ModEq.add_left_cancel' tail h
  rw [Nat.mod_eq_of_lt (lt_trans hi hc), Nat.mod_eq_of_lt hc] at h1
  omega

/-- A `push` on a buffer that is not full stores the value after the stored
elements and keeps the representation invariant. -/
theorem push_not_full {N : Nat} (b : CircularBuffer N) (v : ℚ) (hwf : b.wellFormed)
    (hc : b.count < N) :
    (b.push v).2 = true ∧ (b.push v).1.wellFormed ∧ (b.push v).1.count = b.count + 1
      ∧ (b.push v).1.toList = b.toList ++ [v] := by
  obtain ⟨hcap, hN, _, htail, hhead⟩ := hwf
  have hnf : b.isFull = false := by
    unfold CircularBuffer.isFull
    rw [hcap]
    simp only [beq_eq_false_iff_ne, ne_eq]
    omega
  have hpush : b.push v
      = ({ b with buffer := fun k => if k = b.head then v else b.buffer k,
                  head := (b.head + 1) % b.capacity,
                  count := b.count + 1 }, true) := by
    simp only [CircularBuffer.push, hnf, Bool.false_eq_true, if_false]
  rw [hpush]
  refine ⟨rfl, ⟨hcap, hN, hc, htail, ?_⟩, rfl, ?_⟩
  · show (b.head + 1) % b.capacity = (b.tail + (b.count + 1)) % N
    rw [hcap, hhead, Nat.mod_add_mod, Nat.add_assoc]
  · unfold CircularBuffer.toList
    simp only [List.range_succ, List.map_append, List.map_cons, List.map_nil]
    congr 1
    · apply List.map_congr_left
      intro i hi
      rw [hcap, hhead, if_neg (ring_slot_ne N b.tail b.count i hc (List.mem_range.mp hi))]
    · rw [hcap, hhead, if_pos rfl]

theorem push_wellFormed {N : Nat} (b : CircularBuffer N) (v : ℚ) (hwf : b.wellFormed) :
    (b.push v).1.wellFormed := by
  by_cases hc : b.count < N
  · exact (push_not_full b v hwf hc).2.1
  · have hfull : b.count = b.capacity := by
      rw [hwf.1]
      exact le_antisymm hwf.2.2.1 (not_lt.mp hc)
    rw [push_full b v hfull]
    exact hwf

/-- A run of `push` calls stores as many of the values as there is room for,
in order, after the elements already stored. -/
theorem pushAll_toList {N : Nat} (vs : List ℚ) (b : CircularBuffer N) (hwf : b.wellFormed) :
    (b.pushAll vs).wellFormed
      ∧ (b.pushAll vs).toList = b.toList ++ vs.take (N - b.count)
      ∧ (b.pushAll vs).count = min N (b.count + vs.length) := by
  induction vs generalizing b with
  | nil =>
    refine ⟨hwf, by simp [CircularBuffer.pushAll], ?_⟩
    simp only [CircularBuffer.pushAll, List.foldl_nil, List.length_nil, Nat.add_zero]
    exact (min_eq_right hwf.2.2.1).symm
  | cons v rest ih =>
    have hstep : b.pushAll (v :: rest) = (b.push v).1.pushAll rest := rfl
    rw [hstep]
    by_cases hc : b.count < N
    · obtain ⟨_, hwf1, hcount, hlist⟩ := push_not_full b v hwf hc
      obtain ⟨r1, r2, r3⟩ := ih (b.push v).1 hwf1
      refine ⟨r1, ?_, ?_⟩
      · rw [r2, hlist, hcount]
        have e : N - b.count = (N - (b.count + 1)) + 1 := by omega
        rw [e, List.take_succ_cons]
        simp
      · rw [r3, hcount, List.length_cons]
        congr 1
        omega
    · have hfull : b.count = b.capacity := by
        rw [hwf.1]
        exact le_antisymm hwf.2.2.1 (not_lt.mp hc)
      rw [push_full b v hfull]
      obtain ⟨r1, r2, r3⟩ := ih b hwf
      refine ⟨r1, ?_, ?_⟩
      · rw [r2]
        have e : N - b.count = 0 := by omega
        rw [e]
        simp
      · rw [r3, List.length_cons]
        have hN : b.count = N := hfull.trans hwf.1
        rw [hN]
        simp

theorem pushAll_full {N : Nat} (vs : List ℚ) (b : CircularBuffer N)
    (h : b.count = b.capacity) : b.pushAll vs = b := by
  induction vs with
  | nil => rfl
  | cons v rest ih =>
    have hstep : b.pushAll (v :: rest) = (b.push v).1.pushAll rest := rfl
    rw [hstep, push_full b v h]
    exact ih

theorem get_eq_toList {N : Nat} (b : CircularBuffer N) (i : Nat) (x : ℚ) (hi : i < b.count) :
    b.get i x = (true, b.toList.getD i 0) := by
  unfold CircularBuffer.get CircularBuffer.toList
  rw [if_neg (by omega)]
  simp [List.getD, hi]

theorem call_pollutionHistory (tw : DigitalTwin) (expF : ℚ → ℚ) (c : TwinCall) :
    (tw.call expF c).pollutionHistory = tw.pollutionHistory.pushAll (specSimulatedLevels [c]) := by
  cases c <;> rfl

theorem specSimulatedLevels_cons (c : TwinCall) (cs : List TwinCall) :
    specSimulatedLevels (c :: cs) = specSimulatedLevels [c] ++ specSimulatedLevels cs := by
  cases c <;> simp [specSimulatedLevels]

theorem specSimulatedLevels_length (cs : List TwinCall) :
    (specSimulatedLevels cs).length = (cs.filter TwinCall.isSimulate).length := by
  induction cs with
  | nil => rfl
  | cons c rest ih =>
    rw [specSimulatedLevels_cons, List.length_append, ih]
    cases c with
    | simulate now uninit sensors =>
      simp only [specSimulatedLevels, TwinCall.isSimulate, List.filterMap_cons,
        List.filterMap_nil, List.length_singleton, List.filter_cons_of_pos, List.length_cons,
        List.length_nil]
      omega
    | updateSystemModel now sensors twin =>
      simp [specSimulatedLevels, TwinCall.isSimulate]

/-- Only `simulate` touches the pollutant history, by one `push` per call. -/
theorem calls_pollutionHistory (cs : List TwinCall) (tw : DigitalTwin) (expF : ℚ → ℚ) :
    (tw.calls expF cs).pollutionHistory
      = tw.pollutionHistory.pushAll (specSimulatedLevels cs) := by
  induction cs generalizing tw with
  | nil => rfl
  | cons c rest ih =>
    have hstep : tw.calls expF (c :: rest) = (tw.call expF c).calls expF rest := rfl
    rw [hstep, ih, call_pollutionHistory, specSimulatedLevels_cons c rest]
    unfold CircularBuffer.pushAll
    rw [List.foldl_append]

/-- C39: for a twin whose pollutant history has capacity 20 (as its
constructor sets it) and a call sequence after `initialize()` that holds at
least 20 `simulate` calls. A `push` on a buffer holding `N` elements returns
`false` and returns the buffer as it was; on a buffer satisfying the
representation invariant a run of pushes never takes the size above `N` and
stores the values in order while there is room; `get(i)` for `i` below the
size delivers the `i`-th oldest stored element. Hence after those calls the
history holds exactly the first 20 pollutant levels handed to `simulate`, and
any further calls leave the history, `arimaPrediction` and
`calculatePerformanceTrend` as they were. -/
theorem history_buffers_freeze_when_full (tw : DigitalTwin) (expF : ℚ → ℚ) (now0 : Nat)
    (cs more : List TwinCall) (hcap : tw.pollutionHistory.capacity = 20)
    (h20 : 20 ≤ (cs.filter TwinCall.isSimulate).length) :
    (∀ (N : Nat) (b : CircularBuffer N) (v : ℚ), b.capacity = N → b.size = N →
        b.push v = (b, false))
      ∧ (∀ (N : Nat) (b : CircularBuffer N) (vs : List ℚ), b.wellFormed →
          (b.pushAll vs).size ≤ N
            ∧ (b.pushAll vs).toList = b.toList ++ vs.take (N - b.size))
      ∧ (∀ (N : Nat) (b : CircularBuffer N) (i : Nat) (x : ℚ), i < b.size →
          b.get i x = (true, b.toList.getD i 0))
      ∧ (( tw.initialize now0).calls expF cs).pollutionHistory.size = 20
      ∧ (( tw.initialize now0).calls expF cs).pollutionHistory.toList
        = (specSimulatedLevels cs).take 20
      ∧ ((( tw.initialize now0).calls expF cs).calls expF more).pollutionHistory
        = (( tw.initialize now0).calls expF cs).pollutionHistory
      ∧ ((( tw.initialize now0).calls expF cs).calls expF more).arimaPrediction
        = (( tw.initialize now0).calls expF cs).arimaPrediction
      ∧ ((( tw.initialize now0).calls expF cs).calls expF more).calculatePerformanceTrend
        = (( tw.initialize now0).calls expF cs).calculatePerformanceTrend := by
  have hwf0 : ( tw.initialize now0).pollutionHistory.wellFormed :=
    ⟨hcap, by norm_num, Nat.zero_le _, Nat.zero_lt_succ 19, rfl⟩
  have hcount0 : ( tw.initialize now0).pollutionHistory.count = 0 := rfl
  have hlist0 : ( tw.initialize now0).pollutionHistory.toList = [] := rfl
  obtain ⟨hwf, hlist, hcount⟩ := pushAll_toList (specSimulatedLevels cs)
    ( tw.initialize now0).pollutionHistory hwf0
  rw [← calls_pollutionHistory cs ( tw.initialize now0) expF] at hwf hlist hcount
  rw [specSimulatedLevels_length] at hcount
  have hsize : (( tw.initialize now0).calls expF cs).pollutionHistory.count = 20 := by
    rw [hcount, hcount0]
    exact min_eq_left (by omega)
  have hsame : ((( tw.initialize now0).calls expF cs).calls expF more).pollutionHistory
      = (( tw.initialize now0).calls expF cs).pollutionHistory := by
    rw [calls_pollutionHistory more]
    exact pushAll_full _ _ (hsize.trans hwf.1.symm)
  refine ⟨?_, ?_, ?_, hsize, ?_, hsame, ?_, ?_⟩
  · intro N b v hc hs
    exact push_full b v (hs.trans hc.symm)
  · intro N b vs hb
    obtain ⟨r1, r2, _⟩ := pushAll_toList vs b hb
    exact ⟨r1.2.2.1, r2⟩
  · intro N b i x hi
    exact get_eq_toList b i x hi
  · rw [hlist, hlist0, hcount0]
    rfl
  · unfold DigitalTwin.arimaPrediction
    rw [hsame]
  · unfold DigitalTwin.calculatePerformanceTrend
    rw [hsame]

/-- C39 on a twin initialised at clock 0 and ticked 20 times with pollutant
level 100: the history then holds twenty times 100, and a further `simulate`
call with level 300 leaves the history and both forecasts as they were. -/
theorem history_buffers_freeze_when_full_example :
    (( DigitalTwin.blank.initialize 0).calls (fun _ => 1)
        (List.replicate 20 (TwinCall.simulate 1000 (sampleTwin 0 0 0)
          (sampleSensors 100 50)))).pollutionHistory.toList = List.replicate 20 100
      ∧ ((( DigitalTwin.blank.initialize 0).calls (fun _ => 1)
          (List.replicate 20 (TwinCall.simulate 1000 (sampleTwin 0 0 0)
            (sampleSensors 100 50)))).calls (fun _ => 1)
          [TwinCall.simulate 2000 (sampleTwin 0 0 0) (sampleSensors 300 50)]).pollutionHistory
        = (( DigitalTwin.blank.initialize 0).calls (fun _ => 1)
          (List.replicate 20 (TwinCall.simulate 1000 (sampleTwin 0 0 0)
            (sampleSensors 100 50)))).pollutionHistory
      ∧ ((( DigitalTwin.blank.initialize 0).calls (fun _ => 1)
          (List.replicate 20 (TwinCall.simulate 1000 (sampleTwin 0 0 0)
            (sampleSensors 100 50)))).calls (fun _ => 1)
          [TwinCall.simulate 2000 (sampleTwin 0 0 0) (sampleSensors 300 50)]).arimaPrediction
        = (( DigitalTwin.blank.initialize 0).calls (fun _ => 1)
          (List.replicate 20 (TwinCall.simulate 1000 (sampleTwin 0 0 0)
            (sampleSensors 100 50)))).arimaPrediction := by
  have h := history_buffers_freeze_when_full DigitalTwin.blank (fun _ => 1) 0
    (List.replicate 20 (TwinCall.simulate 1000 (sampleTwin 0 0 0) (sampleSensors 100 50)))
    [TwinCall.simulate 2000 (sampleTwin 0 0 0) (sampleSensors 300 50)] rfl
    (by simp [List.replicate, TwinCall.isSimulate])
  refine ⟨?_, h.2.2.2.2.2.1, h.2.2.2.2.2.2.1⟩
  rw [h.2.2.2.2.1]
  simp [specSimulatedLevels, List.replicate, sampleSensors]

/-! ## Rounding to binary32 -/

theorem roundHalfEven_intCast (n : ℤ) : roundHalfEven (n : ℚ) = n := by
  simp [roundHalfEven]

theorem roundHalfEven_cases (s : ℚ) :
    roundHalfEven s = ⌊s⌋ ∨ roundHalfEven s = ⌊s⌋ + 1 := by
  unfold roundHalfEven
  split_ifs <;> simp

theorem roundHalfEven_near (s : ℚ) : |(roundHalfEven s : ℚ) - s| ≤ 1 / 2 := by
  have h1 := Int.floor_le s
  have h2 := Int.lt_floor_add_one s
  rw [abs_le]
  unfold roundHalfEven
  split_ifs <;> push_cast <;> constructor <;> linarith

theorem roundHalfEven_mono {s t : ℚ} (h : s ≤ t) : roundHalfEven s ≤ roundHalfEven t := by
  have hfg : ⌊s⌋ ≤ ⌊t⌋ := Int.floor_mono h
  rcases lt_or_eq_of_le hfg with hlt | heq
  · rcases roundHalfEven_cases s with h1 | h1 <;> rcases roundHalfEven_cases t with h2 | h2 <;>
      rw [h1, h2] <;> omega
  · unfold roundHalfEven
    rw [← heq]
    split_ifs <;> first | omega | (exfalso; linarith)

theorem floor_neg_of_lt (s : ℚ) (h : (⌊s⌋ : ℚ) < s) : ⌊-s⌋ = -⌊s⌋ - 1 := by
  rw [Int.floor_eq_iff]
  have h2 := Int.lt_floor_add_one s
  push_cast
  constructor <;> linarith

theorem roundHalfEven_neg (s : ℚ) : roundHalfEven (-s) = -roundHalfEven s := by
  rcases eq_or_lt_of_le (Int.floor_le s) with heq | hlt
  · rw [← heq, ← Int.cast_neg, roundHalfEven_intCast, roundHalfEven_intCast]
  · have hf := floor_neg_of_lt s hlt
    unfold roundHalfEven
    rw [hf]
    push_cast
    split_ifs <;> first | omega | (exfalso; linarith)

theorem roundHalfEven_nonneg {s : ℚ} (h : 0 ≤ s) : 0 ≤ roundHalfEven s := by
  have := roundHalfEven_mono h
  rwa [show ((0 : ℚ)) = ((0 : ℤ) : ℚ) by norm_num, roundHalfEven_intCast] at this

theorem f32Exponent_ge (x : ℚ) : -126 ≤ f32Exponent x := by
  unfold f32Exponent
  split_ifs
  · exact le_refl _
  · exact le_max_right _ _

theorem f32Exponent_neg (x : ℚ) : f32Exponent (-x) = f32Exponent x := by
  unfold f32Exponent
  simp only [abs_neg, neg_eq_zero]

theorem f32Exponent_eq (x : ℚ) (e : ℤ) (he : -126 ≤ e) (hhi : |x| < 2 ^ (e + 1))
    (hlo : e = -126 ∨ 2 ^ e ≤ |x|) : f32Exponent x = e := by
  unfold f32Exponent
  by_cases hx : x = 0
  · rw [if_pos hx]
    rcases hlo with h | h
    · exact h.symm
    · rw [hx, abs_zero] at h
      exact absurd h (not_le.mpr (zpow_pos (by norm_num) e))
  · rw [if_neg hx]
    have hpos : 0 < |x| := abs_pos.mpr hx
    have h2 : ((2 : ℕ) : ℚ) = 2 := by norm_num
    have hlog_lt : Int.log 2 |x| < e + 1 := by
      rw [← Int.lt_zpow_iff_log_lt (by norm_num) hpos, h2]
      exact hhi
    rcases hlo with h | h
    · rw [h] at hlog_lt ⊢
      exact max_eq_right (by omega)
    · have hle : e ≤ Int.log 2 |x| := by
        rw [← Int.zpow_le_iff_le_log (by norm_num) hpos, h2]
        exact h
      rw [max_eq_left (by omega)]
      omega

/-- The exponent brackets the magnitude: `|x| < 2 ^ (e + 1)`, and `2 ^ e ≤ |x|`
unless `e = -126`. -/
theorem f32Exponent_spec (x : ℚ) :
    |x| < 2 ^ (f32Exponent x + 1)
      ∧ (f32Exponent x = -126 ∨ 2 ^ f32Exponent x ≤ |x|) := by
  unfold f32Exponent
  by_cases hx : x = 0
  · rw [if_pos hx, hx, abs_zero]
    exact ⟨zpow_pos (by norm_num) _, Or.inl rfl⟩
  · rw [if_neg hx]
    have hpos : 0 < |x| := abs_pos.mpr hx
    have h2 : ((2 : ℕ) : ℚ) = 2 := by norm_num
    have hup := Int.lt_zpow_succ_log_self (b := 2) (by norm_num) |x|
    have hdown := Int.zpow_log_le_self (b := 2) (r := |x|) (by norm_num) hpos
    rw [h2] at hup hdown
    constructor
    · refine lt_of_lt_of_le hup (zpow_le_zpow_right₀ (by norm_num) ?_)
      have := le_max_left (Int.log 2 |x|) (-126)
      omega
    · rcases le_total (Int.log 2 |x|) (-126) with h | h
      · left
        exact max_eq_right h
      · right
        rw [max_eq_left h]
        exact hdown

theorem roundF32_of_exponent (x : ℚ) (e : ℤ) (h : f32Exponent x = e) :
    roundF32 x = (roundHalfEven (x / 2 ^ (e - 23)) : ℚ) * 2 ^ (e - 23) := by
  unfold roundF32
  rw [h]

theorem roundF32_zero : roundF32 0 = 0 := by
  simp [roundF32, roundHalfEven]

theorem roundF32_neg (x : ℚ) : roundF32 (-x) = -roundF32 x := by
  unfold roundF32
  rw [f32Exponent_neg, neg_div, roundHalfEven_neg]
  push_cast
  ring

theorem roundF32_nonneg {x : ℚ} (h : 0 ≤ x) : 0 ≤ roundF32 x := by
  unfold roundF32
  have hq : (0 : ℚ) < 2 ^ (f32Exponent x - 23) := zpow_pos (by norm_num) _
  have := roundHalfEven_nonneg (div_nonneg h hq.le)
  exact mul_nonneg (by exact_mod_cast this) hq.le

theorem two_zpow_split (e : ℤ) :
    (2 : ℚ) ^ e = 8388608 * 2 ^ (e - 23) ∧ (2 : ℚ) ^ (e + 1) = 16777216 * 2 ^ (e - 23) := by
  have h1 : (2 : ℚ) ^ e = 2 ^ (23 : ℤ) * 2 ^ (e - 23) := by
    rw [← zpow_add₀ (by norm_num : (2 : ℚ) ≠ 0)]
    congr 1
    ring
  have h2 : (2 : ℚ) ^ (e + 1) = 2 ^ (24 : ℤ) * 2 ^ (e - 23) := by
    rw [← zpow_add₀ (by norm_num : (2 : ℚ) ≠ 0)]
    congr 1
    ring
  rw [h1, h2]
  norm_num

theorem roundF32_scaled_le {x : ℚ} (hx : 0 ≤ x) :
    roundHalfEven (x / 2 ^ (f32Exponent x - 23)) ≤ 16777216 := by
  have hq : (0 : ℚ) < 2 ^ (f32Exponent x - 23) := zpow_pos (by norm_num) _
  have h := (f32Exponent_spec x).1
  rw [abs_of_nonneg hx, (two_zpow_split _).2] at h
  have hle : x / 2 ^ (f32Exponent x - 23) ≤ ((16777216 : ℤ) : ℚ) := by
    rw [div_le_iff₀ hq]
    push_cast
    exact h.le
  have := roundHalfEven_mono hle
  rwa [roundHalfEven_intCast] at this

theorem roundF32_scaled_ge {x : ℚ} (h : 2 ^ f32Exponent x ≤ x) :
    8388608 ≤ roundHalfEven (x / 2 ^ (f32Exponent x - 23)) := by
  have hq : (0 : ℚ) < 2 ^ (f32Exponent x - 23) := zpow_pos (by norm_num) _
  rw [(two_zpow_split _).1] at h
  have hle : ((8388608 : ℤ) : ℚ) ≤ x / 2 ^ (f32Exponent x - 23) := by
    rw [le_div_iff₀ hq]
    push_cast
    exact h
  have := roundHalfEven_mono hle
  rwa [roundHalfEven_intCast] at this

/-- Rounding moves a value by at most half the spacing. -/
theorem roundF32_abs_sub_le (x : ℚ) :
    |roundF32 x - x| ≤ 2 ^ (f32Exponent x - 23) / 2 := by
  have hq : (0 : ℚ) < 2 ^ (f32Exponent x - 23) := zpow_pos (by norm_num) _
  have hn := roundHalfEven_near (x / 2 ^ (f32Exponent x - 23))
  have e : roundF32 x - x
      = ((roundHalfEven (x / 2 ^ (f32Exponent x - 23)) : ℚ) - x / 2 ^ (f32Exponent x - 23))
        * 2 ^ (f32Exponent x - 23) := by
    unfold roundF32
    field_simp
  rw [e, abs_mul, abs_of_pos hq]
  calc |(roundHalfEven (x / 2 ^ (f32Exponent x - 23)) : ℚ) - x / 2 ^ (f32Exponent x - 23)|
        * 2 ^ (f32Exponent x - 23)
      ≤ 1 / 2 * 2 ^ (f32Exponent x - 23) := mul_le_mul_of_nonneg_right hn hq.le
    _ = 2 ^ (f32Exponent x - 23) / 2 := by ring

/-- The relative form of the rounding error: at most `2 ^ -24` times the
magnitude, or times `2 ^ -126` in the subnormal range. -/
theorem roundF32_error (x : ℚ) :
    |roundF32 x - x| ≤ max |x| (2 ^ (-126 : ℤ)) / 16777216 := by
  have h := roundF32_abs_sub_le x
  have hs := (f32Exponent_spec x).2
  have hsplit := (two_zpow_split (f32Exponent x)).1
  have hmax : (2 : ℚ) ^ f32Exponent x ≤ max |x| (2 ^ (-126 : ℤ)) := by
    rcases hs with h1 | h1
    · rw [h1]
      exact le_max_right _ _
    · exact le_trans h1 (le_max_left _ _)
  rw [hsplit] at hmax
  have hq : (0 : ℚ) < 2 ^ (f32Exponent x - 23) := zpow_pos (by norm_num) _
  calc |roundF32 x - x| ≤ 2 ^ (f32Exponent x - 23) / 2 := h
    _ ≤ max |x| (2 ^ (-126 : ℤ)) / 16777216 := by
      rw [div_le_div_iff₀ (by norm_num) (by norm_num)]
      linarith

theorem roundF32_mono_of_pos {x y : ℚ} (hx : 0 < x) (h : x ≤ y) : roundF32 x ≤ roundF32 y := by
  have hy : 0 < y := lt_of_lt_of_le hx h
  have hxy : f32Exponent x ≤ f32Exponent y := by
    unfold f32Exponent
    rw [if_neg hx.ne.symm, if_neg hy.ne.symm, abs_of_pos hx, abs_of_pos hy]
    exact max_le_max (Int.log_mono_right hx h) (le_refl _)
  rcases lt_or_eq_of_le hxy with hlt | heq
  · have hqx : (0 : ℚ) < 2 ^ (f32Exponent x - 23) := zpow_pos (by norm_num) _
    have hqy : (0 : ℚ) < 2 ^ (f32Exponent y - 23) := zpow_pos (by norm_num) _
    have hup : roundF32 x ≤ 2 ^ (f32Exponent x + 1) := by
      rw [(two_zpow_split _).2]
      unfold roundF32
      have := roundF32_scaled_le hx.le
      exact mul_le_mul_of_nonneg_right (by exact_mod_cast this) hqx.le
    have hylo : (2 : ℚ) ^ f32Exponent y ≤ y := by
      rcases (f32Exponent_spec y).2 with h1 | h1
      · have := f32Exponent_ge x
        omega
      · rwa [abs_of_pos hy] at h1
    have hdown : 2 ^ f32Exponent y ≤ roundF32 y := by
      rw [(two_zpow_split _).1]
      unfold roundF32
      have := roundF32_scaled_ge hylo
      exact mul_le_mul_of_nonneg_right (by exact_mod_cast this) hqy.le
    have hmid : (2 : ℚ) ^ (f32Exponent x + 1) ≤ 2 ^ f32Exponent y :=
      zpow_le_zpow_right₀ (by norm_num) (by omega)
    linarith
  · unfold roundF32
    rw [heq]
    have hq : (0 : ℚ) < 2 ^ (f32Exponent y - 23) := zpow_pos (by norm_num) _
    have := roundHalfEven_mono (div_le_div_of_nonneg_right h hq.le)
    exact mul_le_mul_of_nonneg_right (by exact_mod_cast this) hq.le

/-- Rounding to binary32 is monotone. -/
theorem roundF32_mono {x y : ℚ} (h : x ≤ y) : roundF32 x ≤ roundF32 y := by
  rcases lt_trichotomy 0 x with hx | hx | hx
  · exact roundF32_mono_of_pos hx h
  · rw [← hx, roundF32_zero]
    exact roundF32_nonneg (hx ▸ h)
  · rcases le_or_lt 0 y with hy | hy
    · have h1 : roundF32 x ≤ 0 := by
        have := roundF32_nonneg (neg_nonneg.mpr hx.le)
        rw [roundF32_neg] at this
        linarith
      exact le_trans h1 (roundF32_nonneg hy)
    · have := roundF32_mono_of_pos (neg_pos.mpr hy) (neg_le_neg h)
      rw [roundF32_neg, roundF32_neg] at this
      linarith

theorem roundF32_idem_of_pos {x : ℚ} (hx : 0 < x) : roundF32 (roundF32 x) = roundF32 x := by
  have hq : (0 : ℚ) < 2 ^ (f32Exponent x - 23) := zpow_pos (by norm_num) _
  have hr0 := roundHalfEven_nonneg (div_nonneg hx.le hq.le)
  have hr1 := roundF32_scaled_le hx.le
  have hy : roundF32 x
      = (roundHalfEven (x / 2 ^ (f32Exponent x - 23)) : ℚ) * 2 ^ (f32Exponent x - 23) := rfl
  generalize roundHalfEven (x / 2 ^ (f32Exponent x - 23)) = r at hr0 hr1 hy
  have hlow : f32Exponent x = -126 ∨ 8388608 ≤ r := by
    rcases (f32Exponent_spec x).2 with h1 | h1
    · exact Or.inl h1
    · right
      rw [abs_of_pos hx] at h1
      have := roundF32_scaled_ge h1
      have hy2 : roundF32 x
          = (roundHalfEven (x / 2 ^ (f32Exponent x - 23)) : ℚ) * 2 ^ (f32Exponent x - 23) := rfl
      rw [hy] at hy2
      have hcast := mul_right_cancel₀ hq.ne.symm hy2
      have : r = roundHalfEven (x / 2 ^ (f32Exponent x - 23)) := by exact_mod_cast hcast
      omega
  have hge := f32Exponent_ge x
  rcases eq_or_lt_of_le hr0 with h0 | hpos
  · rw [hy, ← h0]
    simp [roundF32_zero]
  rcases eq_or_lt_of_le hr1 with h24 | hlt24
  · have hval : roundF32 x = 2 ^ (f32Exponent x + 1) := by
      rw [hy, h24, (two_zpow_split _).2]
      norm_num
    have hexp : f32Exponent (roundF32 x) = f32Exponent x + 1 := by
      apply f32Exponent_eq _ _ (by omega)
      · rw [hval, abs_of_pos (zpow_pos (by norm_num) _)]
        exact zpow_lt_zpow_right₀ (by norm_num) (by omega)
      · right
        rw [hval, abs_of_pos (zpow_pos (by norm_num) _)]
    rw [roundF32_of_exponent _ _ hexp, hval]
    have hsc : (2 : ℚ) ^ (f32Exponent x + 1) / 2 ^ (f32Exponent x + 1 - 23)
        = ((8388608 : ℤ) : ℚ) := by
      rw [(two_zpow_split (f32Exponent x + 1)).1]
      have : (0 : ℚ) < 2 ^ (f32Exponent x + 1 - 23) := zpow_pos (by norm_num) _
      field_simp
    rw [hsc, roundHalfEven_intCast, (two_zpow_split (f32Exponent x + 1)).1]
    norm_num
  · have hrq : (0 : ℚ) < r := by exact_mod_cast hpos
    have hypos : 0 < roundF32 x := by
      rw [hy]
      exact mul_pos hrq hq
    have hexp : f32Exponent (roundF32 x) = f32Exponent x := by
      apply f32Exponent_eq _ _ hge
      · rw [abs_of_pos hypos, hy, (two_zpow_split _).2]
        have : (r : ℚ) < 16777216 := by exact_mod_cast hlt24
        exact mul_lt_mul_of_pos_right this hq
      · rcases hlow with h1 | h1
        · exact Or.inl h1
        · right
          rw [abs_of_pos hypos, hy, (two_zpow_split _).1]
          have : (8388608 : ℚ) ≤ r := by exact_mod_cast h1
          exact mul_le_mul_of_nonneg_right this hq.le
    rw [roundF32_of_exponent _ _ hexp]
    have hsc : roundF32 x / 2 ^ (f32Exponent x - 23) = (r : ℚ) := by
      rw [hy]
      field_simp
    rw [hsc, roundHalfEven_intCast, hy]

/-- A rounded value is a binary32 value: rounding it again changes nothing. -/
theorem roundF32_idem (x : ℚ) : roundF32 (roundF32 x) = roundF32 x := by
  rcases lt_trichotomy 0 x with hx | hx | hx
  · exact roundF32_idem_of_pos hx
  · rw [← hx, roundF32_zero, roundF32_zero]
  · have := roundF32_idem_of_pos (neg_pos.mpr hx)
    rw [roundF32_neg, roundF32_neg] at this
    linarith

/-- Every binary32 value is an integer multiple of `2 ^ -149`. -/
theorem roundF32_grid (x : ℚ) : ∃ n : ℤ, roundF32 x = n * 2 ^ (-149 : ℤ) := by
  have hge := f32Exponent_ge x
  obtain ⟨k, hk⟩ : ∃ k : ℕ, f32Exponent x - 23 = (k : ℤ) + (-149) :=
    ⟨(f32Exponent x - 23 + 149).toNat, by omega⟩
  refine ⟨roundHalfEven (x / 2 ^ (f32Exponent x - 23)) * 2 ^ k, ?_⟩
  unfold roundF32
  rw [hk, zpow_add₀ (by norm_num : (2 : ℚ) ≠ 0), zpow_natCast]
  push_cast
  ring

/-- Integer multiples of `2 ^ -149` below `2 ^ -126` in magnitude are binary32
values. -/
theorem roundF32_of_small_grid (n : ℤ) (h : |(n : ℚ) * 2 ^ (-149 : ℤ)| < 2 ^ (-126 : ℤ)) :
    roundF32 (n * 2 ^ (-149 : ℤ)) = n * 2 ^ (-149 : ℤ) := by
  have hexp : f32Exponent ((n : ℚ) * 2 ^ (-149 : ℤ)) = -126 := by
    apply f32Exponent_eq _ _ (le_refl _) _ (Or.inl rfl)
    refine lt_trans h ?_
    norm_num
  rw [roundF32_of_exponent _ _ hexp]
  have hsc : (n : ℚ) * 2 ^ (-149 : ℤ) / 2 ^ ((-126 : ℤ) - 23) = (n : ℚ) := by
    norm_num
  rw [hsc, roundHalfEven_intCast]
  norm_num

/-- The estimate update `est + K * (z - est)` in binary32, for binary32 values
`est ≤ z` and a gain in `[0, 11/16]`, stays between `est` and `z`. -/
theorem f32_blend_of_le (est z K : ℚ) (hest : roundF32 est = est) (hz : roundF32 z = z)
    (hK0 : 0 ≤ K) (hK1 : K ≤ 11 / 16) (h : est ≤ z) :
    est ≤ roundF32 (est + roundF32 (K * roundF32 (z - est)))
      ∧ roundF32 (est + roundF32 (K * roundF32 (z - est))) ≤ z := by
  have ht : 0 ≤ z - est := by linarith
  have hd : 0 ≤ roundF32 (z - est) := roundF32_nonneg ht
  have hw : 0 ≤ K * roundF32 (z - est) := mul_nonneg hK0 hd
  have hp : 0 ≤ roundF32 (K * roundF32 (z - est)) := roundF32_nonneg hw
  have hwd : K * roundF32 (z - est) ≤ 11 / 16 * roundF32 (z - est) :=
    mul_le_mul_of_nonneg_right hK1 hd
  have key : roundF32 (K * roundF32 (z - est)) ≤ z - est := by
    rcases lt_or_le (z - est) (2 ^ (-126 : ℤ)) with hsmall | hbig
    · obtain ⟨n1, h1⟩ := roundF32_grid est
      obtain ⟨n2, h2⟩ := roundF32_grid z
      rw [hest] at h1
      rw [hz] at h2
      have hgrid : z - est = ((n2 - n1 : ℤ) : ℚ) * 2 ^ (-149 : ℤ) := by
        rw [h1, h2]
        push_cast
        ring
      have hfix : roundF32 (z - est) = z - est := by
        rw [hgrid]
        apply roundF32_of_small_grid
        rw [← hgrid, abs_of_nonneg ht]
        exact hsmall
      have hle : K * roundF32 (z - est) ≤ roundF32 (z - est) := by linarith
      have hdd : roundF32 (roundF32 (z - est)) = z - est := by
        rw [roundF32_idem, hfix]
      exact le_trans (roundF32_mono hle) (le_of_eq hdd)
    · have he1 := roundF32_error (z - est)
      rw [abs_of_nonneg ht, max_eq_left hbig, abs_le] at he1
      have hwt : K * roundF32 (z - est) ≤ z - est := by linarith [he1.2]
      have he2 := roundF32_error (K * roundF32 (z - est))
      rw [abs_of_nonneg hw, abs_le] at he2
      have hmax : max (K * roundF32 (z - est)) (2 ^ (-126 : ℤ)) ≤ z - est :=
        max_le hwt hbig
      have h3 : max (K * roundF32 (z - est)) (2 ^ (-126 : ℤ)) / 16777216
          ≤ (z - est) / 16777216 := div_le_div_of_nonneg_right hmax (by norm_num)
      linarith [he1.2, he2.2]
  constructor
  · have := roundF32_mono (show est ≤ est + roundF32 (K * roundF32 (z - est)) by linarith)
    rwa [hest] at this
  · have := roundF32_mono (show est + roundF32 (K * roundF32 (z - est)) ≤ z by linarith)
    rwa [hz] at this

/-- The same for either order of `est` and `z`. -/
theorem f32_blend_between (est z K : ℚ) (hest : roundF32 est = est) (hz : roundF32 z = z)
    (hK0 : 0 ≤ K) (hK1 : K ≤ 11 / 16) :
    min est z ≤ roundF32 (est + roundF32 (K * roundF32 (z - est)))
      ∧ roundF32 (est + roundF32 (K * roundF32 (z - est))) ≤ max est z := by
  rcases le_total est z with h | h
  · rw [min_eq_left h, max_eq_right h]
    exact f32_blend_of_le est z K hest hz hK0 hK1 h
  · rw [min_eq_right h, max_eq_left h]
    have hn := f32_blend_of_le (-est) (-z) K (by rw [roundF32_neg, hest])
      (by rw [roundF32_neg, hz]) hK0 hK1 (neg_le_neg h)
    have e : roundF32 (-est + roundF32 (K * roundF32 (-z - -est)))
        = -roundF32 (est + roundF32 (K * roundF32 (z - est))) := by
      rw [show -z - -est = -(z - est) by ring, roundF32_neg,
        show K * -roundF32 (z - est) = -(K * roundF32 (z - est)) by ring, roundF32_neg,
        show -est + -roundF32 (K * roundF32 (z - est))
          = -(est + roundF32 (K * roundF32 (z - est))) by ring, roundF32_neg]
    rw [e] at hn
    constructor <;> linarith [hn.1, hn.2]

/-! ## Kalman error in binary32 (claims C11 and C40) -/

theorem roundF32_eval (x y : ℚ) (e : ℤ) (he : -126 ≤ e) (hhi : |x| < 2 ^ (e + 1))
    (hlo : e = -126 ∨ 2 ^ e ≤ |x|)
    (hy : (roundHalfEven (x / 2 ^ (e - 23)) : ℚ) * 2 ^ (e - 23) = y) : roundF32 x = y := by
  rw [roundF32_of_exponent x e (f32Exponent_eq x e he hhi hlo), hy]

theorem roundF32_one : roundF32 1 = 1 :=
  roundF32_eval _ _ 0 (by norm_num) (by norm_num [abs_lt])
    (Or.inr (by norm_num [le_abs])) (by norm_num [roundHalfEven])

theorem roundF32_tenth : roundF32 (1 / 10) = 13421773 / 134217728 :=
  roundF32_eval _ _ (-4) (by norm_num) (by norm_num [abs_lt])
    (Or.inr (by norm_num [le_abs])) (by norm_num [roundHalfEven])

theorem roundF32_half : roundF32 (5 / 10) = 1 / 2 :=
  roundF32_eval _ _ (-1) (by norm_num) (by norm_num [abs_lt])
    (Or.inr (by norm_num [le_abs])) (by norm_num [roundHalfEven])

theorem roundF32_250 : roundF32 250 = 250 :=
  roundF32_eval _ _ 7 (by norm_num) (by norm_num [abs_lt])
    (Or.inr (by norm_num [le_abs])) (by norm_num [roundHalfEven])


theorem kalman_trace_step_0 (state : KalmanState) (z : ℚ)
    (hP : state.estimateError = 1)
    (hQ : state.processNoise = 13421773 / 134217728) (hR : state.measurementNoise = 1 / 2) :
    state.kalmanGainF32 = 11 / 16
      ∧ (state.filterStepF32 z).estimateError = 11 / 32 := by
  have ha : state.predictedErrorF32 = 9227469 / 8388608 := by
    unfold KalmanState.predictedErrorF32
    rw [hP, hQ]
    exact roundF32_eval _ _ 0 (by norm_num) (by norm_num [abs_lt])
      (Or.inr (by norm_num [le_abs])) (by norm_num [roundHalfEven])
  have hb : roundF32 (state.predictedErrorF32 + state.measurementNoise) = 13421773 / 8388608 := by
    rw [ha, hR]
    exact roundF32_eval _ _ 0 (by norm_num) (by norm_num [abs_lt])
      (Or.inr (by norm_num [le_abs])) (by norm_num [roundHalfEven])
  have hK : state.kalmanGainF32 = 11 / 16 := by
    unfold KalmanState.kalmanGainF32
    rw [hb, ha]
    exact roundF32_eval _ _ (-1) (by norm_num) (by norm_num [abs_lt])
      (Or.inr (by norm_num [le_abs])) (by norm_num [roundHalfEven])
  have hc : roundF32 (1 - state.kalmanGainF32) = 5 / 16 := by
    rw [hK]
    exact roundF32_eval _ _ (-2) (by norm_num) (by norm_num [abs_lt])
      (Or.inr (by norm_num [le_abs])) (by norm_num [roundHalfEven])
  refine ⟨hK, ?_⟩
  show roundF32 (roundF32 (1 - state.kalmanGainF32) * state.predictedErrorF32) = _
  rw [hc, ha]
  exact roundF32_eval _ _ (-2) (by norm_num) (by norm_num [abs_lt])
      (Or.inr (by norm_num [le_abs])) (by norm_num [roundHalfEven])

theorem kalman_trace_step_1 (state : KalmanState) (z : ℚ)
    (hP : state.estimateError = 11 / 32)
    (hQ : state.processNoise = 13421773 / 134217728) (hR : state.measurementNoise = 1 / 2) :
    state.kalmanGainF32 = 15777249 / 33554432
      ∧ (state.filterStepF32 z).estimateError = 15777251 / 67108864 := by
  have ha : state.predictedErrorF32 = 14889779 / 33554432 := by
    unfold KalmanState.predictedErrorF32
    rw [hP, hQ]
    exact roundF32_eval _ _ (-2) (by norm_num) (by norm_num [abs_lt])
      (Or.inr (by norm_num [le_abs])) (by norm_num [roundHalfEven])
  have hb : roundF32 (state.predictedErrorF32 + state.measurementNoise) = 7916749 / 8388608 := by
    rw [ha, hR]
    exact roundF32_eval _ _ (-1) (by norm_num) (by norm_num [abs_lt])
      (Or.inr (by norm_num [le_abs])) (by norm_num [roundHalfEven])
  have hK : state.kalmanGainF32 = 15777249 / 33554432 := by
    unfold KalmanState.kalmanGainF32
    rw [hb, ha]
    exact roundF32_eval _ _ (-2) (by norm_num) (by norm_num [abs_lt])
      (Or.inr (by norm_num [le_abs])) (by norm_num [roundHalfEven])
  have hc : roundF32 (1 - state.kalmanGainF32) = 555537 / 1048576 := by
    rw [hK]
    exact roundF32_eval _ _ (-1) (by norm_num) (by norm_num [abs_lt])
      (Or.inr (by norm_num [le_abs])) (by norm_num [roundHalfEven])
  refine ⟨hK, ?_⟩
  show roundF32 (roundF32 (1 - state.kalmanGainF32) * state.predictedErrorF32) = _
  rw [hc, ha]
  exact roundF32_eval _ _ (-3) (by norm_num) (by norm_num [abs_lt])
      (Or.inr (by norm_num [le_abs])) (by norm_num [roundHalfEven])

theorem kalman_trace_step_2 (state : KalmanState) (z : ℚ)
    (hP : state.estimateError = 15777251 / 67108864)
    (hQ : state.processNoise = 13421773 / 134217728) (hR : state.measurementNoise = 1 / 2) :
    state.kalmanGainF32 = 13464349 / 33554432
      ∧ (state.filterStepF32 z).estimateError = 13464349 / 67108864 := by
  have ha : state.predictedErrorF32 = 11244069 / 33554432 := by
    unfold KalmanState.predictedErrorF32
    rw [hP, hQ]
    exact roundF32_eval _ _ (-2) (by norm_num) (by norm_num [abs_lt])
      (Or.inr (by norm_num [le_abs])) (by norm_num [roundHalfEven])
  have hb : roundF32 (state.predictedErrorF32 + state.measurementNoise) = 7005321 / 8388608 := by
    rw [ha, hR]
    exact roundF32_eval _ _ (-1) (by norm_num) (by norm_num [abs_lt])
      (Or.inr (by norm_num [le_abs])) (by norm_num [roundHalfEven])
  have hK : state.kalmanGainF32 = 13464349 / 33554432 := by
    unfold KalmanState.kalmanGainF32
    rw [hb, ha]
    exact roundF32_eval _ _ (-2) (by norm_num) (by norm_num [abs_lt])
      (Or.inr (by norm_num [le_abs])) (by norm_num [roundHalfEven])
  have hc : roundF32 (1 - state.kalmanGainF32) = 5022521 / 8388608 := by
    rw [hK]
    exact roundF32_eval _ _ (-1) (by norm_num) (by norm_num [abs_lt])
      (Or.inr (by norm_num [le_abs])) (by norm_num [roundHalfEven])
  refine ⟨hK, ?_⟩
  show roundF32 (roundF32 (1 - state.kalmanGainF32) * state.predictedErrorF32) = _
  rw [hc, ha]
  exact roundF32_eval _ _ (-3) (by norm_num) (by norm_num [abs_lt])
      (Or.inr (by norm_num [le_abs])) (by norm_num [roundHalfEven])

theorem kalman_trace_step_3 (state : KalmanState) (z : ℚ)
    (hP : state.estimateError = 13464349 / 67108864)
    (hQ : state.processNoise = 13421773 / 134217728) (hR : state.measurementNoise = 1 / 2) :
    state.kalmanGainF32 = 6299765 / 16777216
      ∧ (state.filterStepF32 z).estimateError = 12599531 / 67108864 := by
  have ha : state.predictedErrorF32 = 5043809 / 16777216 := by
    unfold KalmanState.predictedErrorF32
    rw [hP, hQ]
    exact roundF32_eval _ _ (-2) (by norm_num) (by norm_num [abs_lt])
      (Or.inr (by norm_num [le_abs])) (by norm_num [roundHalfEven])
  have hb : roundF32 (state.predictedErrorF32 + state.measurementNoise) = 13432417 / 16777216 := by
    rw [ha, hR]
    exact roundF32_eval _ _ (-1) (by norm_num) (by norm_num [abs_lt])
      (Or.inr (by norm_num [le_abs])) (by norm_num [roundHalfEven])
  have hK : state.kalmanGainF32 = 6299765 / 16777216 := by
    unfold KalmanState.kalmanGainF32
    rw [hb, ha]
    exact roundF32_eval _ _ (-2) (by norm_num) (by norm_num [abs_lt])
      (Or.inr (by norm_num [le_abs])) (by norm_num [roundHalfEven])
  have hc : roundF32 (1 - state.kalmanGainF32) = 10477451 / 16777216 := by
    rw [hK]
    exact roundF32_eval _ _ (-1) (by norm_num) (by norm_num [abs_lt])
      (Or.inr (by norm_num [le_abs])) (by norm_num [roundHalfEven])
  refine ⟨hK, ?_⟩
  show roundF32 (roundF32 (1 - state.kalmanGainF32) * state.predictedErrorF32) = _
  rw [hc, ha]
  exact roundF32_eval _ _ (-3) (by norm_num) (by norm_num [abs_lt])
      (Or.inr (by norm_num [le_abs])) (by norm_num [roundHalfEven])

theorem kalman_trace_step_4 (state : KalmanState) (z : ℚ)
    (hP : state.estimateError = 12599531 / 67108864)
    (hQ : state.processNoise = 13421773 / 134217728) (hR : state.measurementNoise = 1 / 2) :
    state.kalmanGainF32 = 12256729 / 33554432
      ∧ (state.filterStepF32 z).estimateError = 12256729 / 67108864 := by
  have ha : state.predictedErrorF32 = 9655209 / 33554432 := by
    unfold KalmanState.predictedErrorF32
    rw [hP, hQ]
    exact roundF32_eval _ _ (-2) (by norm_num) (by norm_num [abs_lt])
      (Or.inr (by norm_num [le_abs])) (by norm_num [roundHalfEven])
  have hb : roundF32 (state.predictedErrorF32 + state.measurementNoise) = 3304053 / 4194304 := by
    rw [ha, hR]
    exact roundF32_eval _ _ (-1) (by norm_num) (by norm_num [abs_lt])
      (Or.inr (by norm_num [le_abs])) (by norm_num [roundHalfEven])
  have hK : state.kalmanGainF32 = 12256729 / 33554432 := by
    unfold KalmanState.kalmanGainF32
    rw [hb, ha]
    exact roundF32_eval _ _ (-2) (by norm_num) (by norm_num [abs_lt])
      (Or.inr (by norm_num [le_abs])) (by norm_num [roundHalfEven])
  have hc : roundF32 (1 - state.kalmanGainF32) = 2662213 / 4194304 := by
    rw [hK]
    exact roundF32_eval _ _ (-1) (by norm_num) (by norm_num [abs_lt])
      (Or.inr (by norm_num [le_abs])) (by norm_num [roundHalfEven])
  refine ⟨hK, ?_⟩
  show roundF32 (roundF32 (1 - state.kalmanGainF32) * state.predictedErrorF32) = _
  rw [hc, ha]
  exact roundF32_eval _ _ (-3) (by norm_num) (by norm_num [abs_lt])
      (Or.inr (by norm_num [le_abs])) (by norm_num [roundHalfEven])

theorem kalman_trace_step_5 (state : KalmanState) (z : ℚ)
    (hP : state.estimateError = 12256729 / 67108864)
    (hQ : state.processNoise = 13421773 / 134217728) (hR : state.measurementNoise = 1 / 2) :
    state.kalmanGainF32 = 6058861 / 16777216
      ∧ (state.filterStepF32 z).estimateError = 6058861 / 33554432 := by
  have ha : state.predictedErrorF32 = 296369 / 1048576 := by
    unfold KalmanState.predictedErrorF32
    rw [hP, hQ]
    exact roundF32_eval _ _ (-2) (by norm_num) (by norm_num [abs_lt])
      (Or.inr (by norm_num [le_abs])) (by norm_num [roundHalfEven])
  have hb : roundF32 (state.predictedErrorF32 + state.measurementNoise) = 820657 / 1048576 := by
    rw [ha, hR]
    exact roundF32_eval _ _ (-1) (by norm_num) (by norm_num [abs_lt])
      (Or.inr (by norm_num [le_abs])) (by norm_num [roundHalfEven])
  have hK : state.kalmanGainF32 = 6058861 / 16777216 := by
    unfold KalmanState.kalmanGainF32
    rw [hb, ha]
    exact roundF32_eval _ _ (-2) (by norm_num) (by norm_num [abs_lt])
      (Or.inr (by norm_num [le_abs])) (by norm_num [roundHalfEven])
  have hc : roundF32 (1 - state.kalmanGainF32) = 10718355 / 16777216 := by
    rw [hK]
    exact roundF32_eval _ _ (-1) (by norm_num) (by norm_num [abs_lt])
      (Or.inr (by norm_num [le_abs])) (by norm_num [roundHalfEven])
  refine ⟨hK, ?_⟩
  show roundF32 (roundF32 (1 - state.kalmanGainF32) * state.predictedErrorF32) = _
  rw [hc, ha]
  exact roundF32_eval _ _ (-3) (by norm_num) (by norm_num [abs_lt])
      (Or.inr (by norm_num [le_abs])) (by norm_num [roundHalfEven])

theorem kalman_trace_step_6 (state : KalmanState) (z : ℚ)
    (hP : state.estimateError = 6058861 / 33554432)
    (hQ : state.processNoise = 13421773 / 134217728) (hR : state.measurementNoise = 1 / 2) :
    state.kalmanGainF32 = 3015209 / 8388608
      ∧ (state.filterStepF32 z).estimateError = 3015209 / 16777216 := by
  have ha : state.predictedErrorF32 = 294197 / 1048576 := by
    unfold KalmanState.predictedErrorF32
    rw [hP, hQ]
    exact roundF32_eval _ _ (-2) (by norm_num) (by norm_num [abs_lt])
      (Or.inr (by norm_num [le_abs])) (by norm_num [roundHalfEven])
  have hb : roundF32 (state.predictedErrorF32 + state.measurementNoise) = 818485 / 1048576 := by
    rw [ha, hR]
    exact roundF32_eval _ _ (-1) (by norm_num) (by norm_num [abs_lt])
      (Or.inr (by norm_num [le_abs])) (by norm_num [roundHalfEven])
  have hK : state.kalmanGainF32 = 3015209 / 8388608 := by
    unfold KalmanState.kalmanGainF32
    rw [hb, ha]
    exact roundF32_eval _ _ (-2) (by norm_num) (by norm_num [abs_lt])
      (Or.inr (by norm_num [le_abs])) (by norm_num [roundHalfEven])
  have hc : roundF32 (1 - state.kalmanGainF32) = 5373399 / 8388608 := by
    rw [hK]
    exact roundF32_eval _ _ (-1) (by norm_num) (by norm_num [abs_lt])
      (Or.inr (by norm_num [le_abs])) (by norm_num [roundHalfEven])
  refine ⟨hK, ?_⟩
  show roundF32 (roundF32 (1 - state.kalmanGainF32) * state.predictedErrorF32) = _
  rw [hc, ha]
  exact roundF32_eval _ _ (-3) (by norm_num) (by norm_num [abs_lt])
      (Or.inr (by norm_num [le_abs])) (by norm_num [roundHalfEven])

theorem kalman_trace_step_7 (state : KalmanState) (z : ℚ)
    (hP : state.estimateError = 3015209 / 16777216)
    (hQ : state.processNoise = 13421773 / 134217728) (hR : state.measurementNoise = 1 / 2) :
    state.kalmanGainF32 = 6018735 / 16777216
      ∧ (state.filterStepF32 z).estimateError = 12037469 / 67108864 := by
  have ha : state.predictedErrorF32 = 9385861 / 33554432 := by
    unfold KalmanState.predictedErrorF32
    rw [hP, hQ]
    exact roundF32_eval _ _ (-2) (by norm_num) (by norm_num [abs_lt])
      (Or.inr (by norm_num [le_abs])) (by norm_num [roundHalfEven])
  have hb : roundF32 (state.predictedErrorF32 + state.measurementNoise) = 6540769 / 8388608 := by
    rw [ha, hR]
    exact roundF32_eval _ _ (-1) (by norm_num) (by norm_num [abs_lt])
      (Or.inr (by norm_num [le_abs])) (by norm_num [roundHalfEven])
  have hK : state.kalmanGainF32 = 6018735 / 16777216 := by
    unfold KalmanState.kalmanGainF32
    rw [hb, ha]
    exact roundF32_eval _ _ (-2) (by norm_num) (by norm_num [abs_lt])
      (Or.inr (by norm_num [le_abs])) (by norm_num [roundHalfEven])
  have hc : roundF32 (1 - state.kalmanGainF32) = 10758481 / 16777216 := by
    rw [hK]
    exact roundF32_eval _ _ (-1) (by norm_num) (by norm_num [abs_lt])
      (Or.inr (by norm_num [le_abs])) (by norm_num [roundHalfEven])
  refine ⟨hK, ?_⟩
  show roundF32 (roundF32 (1 - state.kalmanGainF32) * state.predictedErrorF32) = _
  rw [hc, ha]
  exact roundF32_eval _ _ (-3) (by norm_num) (by norm_num [abs_lt])
      (Or.inr (by norm_num [le_abs])) (by norm_num [roundHalfEven])

theorem kalman_trace_step_8 (state : KalmanState) (z : ℚ)
    (hP : state.estimateError = 12037469 / 67108864)
    (hQ : state.processNoise = 13421773 / 134217728) (hR : state.measurementNoise = 1 / 2) :
    state.kalmanGainF32 = 12027857 / 33554432
      ∧ (state.filterStepF32 z).estimateError = 12027857 / 67108864 := by
  have ha : state.predictedErrorF32 = 4687089 / 16777216 := by
    unfold KalmanState.predictedErrorF32
    rw [hP, hQ]
    exact roundF32_eval _ _ (-2) (by norm_num) (by norm_num [abs_lt])
      (Or.inr (by norm_num [le_abs])) (by norm_num [roundHalfEven])
  have hb : roundF32 (state.predictedErrorF32 + state.measurementNoise) = 13075697 / 16777216 := by
    rw [ha, hR]
    exact roundF32_eval _ _ (-1) (by norm_num) (by norm_num [abs_lt])
      (Or.inr (by norm_num [le_abs])) (by norm_num [roundHalfEven])
  have hK : state.kalmanGainF32 = 12027857 / 33554432 := by
    unfold KalmanState.kalmanGainF32
    rw [hb, ha]
    exact roundF32_eval _ _ (-2) (by norm_num) (by norm_num [abs_lt])
      (Or.inr (by norm_num [le_abs])) (by norm_num [roundHalfEven])
  have hc : roundF32 (1 - state.kalmanGainF32) = 1345411 / 2097152 := by
    rw [hK]
    exact roundF32_eval _ _ (-1) (by norm_num) (by norm_num [abs_lt])
      (Or.inr (by norm_num [le_abs])) (by norm_num [roundHalfEven])
  refine ⟨hK, ?_⟩
  show roundF32 (roundF32 (1 - state.kalmanGainF32) * state.predictedErrorF32) = _
  rw [hc, ha]
  exact roundF32_eval _ _ (-3) (by norm_num) (by norm_num [abs_lt])
      (Or.inr (by norm_num [le_abs])) (by norm_num [roundHalfEven])

theorem kalman_trace_step_9 (state : KalmanState) (z : ℚ)
    (hP : state.estimateError = 12027857 / 67108864)
    (hQ : state.processNoise = 13421773 / 134217728) (hR : state.measurementNoise = 1 / 2) :
    state.kalmanGainF32 = 3005975 / 8388608
      ∧ (state.filterStepF32 z).estimateError = 3005975 / 16777216 := by
  have ha : state.predictedErrorF32 = 2342343 / 8388608 := by
    unfold KalmanState.predictedErrorF32
    rw [hP, hQ]
    exact roundF32_eval _ _ (-2) (by norm_num) (by norm_num [abs_lt])
      (Or.inr (by norm_num [le_abs])) (by norm_num [roundHalfEven])
  have hb : roundF32 (state.predictedErrorF32 + state.measurementNoise) = 6536647 / 8388608 := by
    rw [ha, hR]
    exact roundF32_eval _ _ (-1) (by norm_num) (by norm_num [abs_lt])
      (Or.inr (by norm_num [le_abs])) (by norm_num [roundHalfEven])
  have hK : state.kalmanGainF32 = 3005975 / 8388608 := by
    unfold KalmanState.kalmanGainF32
    rw [hb, ha]
    exact roundF32_eval _ _ (-2) (by norm_num) (by norm_num [abs_lt])
      (Or.inr (by norm_num [le_abs])) (by norm_num [roundHalfEven])
  have hc : roundF32 (1 - state.kalmanGainF32) = 5382633 / 8388608 := by
    rw [hK]
    exact roundF32_eval _ _ (-1) (by norm_num) (by norm_num [abs_lt])
      (Or.inr (by norm_num [le_abs])) (by norm_num [roundHalfEven])
  refine ⟨hK, ?_⟩
  show roundF32 (roundF32 (1 - state.kalmanGainF32) * state.predictedErrorF32) = _
  rw [hc, ha]
  exact roundF32_eval _ _ (-3) (by norm_num) (by norm_num [abs_lt])
      (Or.inr (by norm_num [le_abs])) (by norm_num [roundHalfEven])

theorem kalman_trace_step_10 (state : KalmanState) (z : ℚ)
    (hP : state.estimateError = 3005975 / 16777216)
    (hQ : state.processNoise = 13421773 / 134217728) (hR : state.measurementNoise = 1 / 2) :
    state.kalmanGainF32 = 12022271 / 33554432
      ∧ (state.filterStepF32 z).estimateError = 12022269 / 67108864 := by
  have ha : state.predictedErrorF32 = 9367393 / 33554432 := by
    unfold KalmanState.predictedErrorF32
    rw [hP, hQ]
    exact roundF32_eval _ _ (-2) (by norm_num) (by norm_num [abs_lt])
      (Or.inr (by norm_num [le_abs])) (by norm_num [roundHalfEven])
  have hb : roundF32 (state.predictedErrorF32 + state.measurementNoise) = 817019 / 1048576 := by
    rw [ha, hR]
    exact roundF32_eval _ _ (-1) (by norm_num) (by norm_num [abs_lt])
      (Or.inr (by norm_num [le_abs])) (by norm_num [roundHalfEven])
  have hK : state.kalmanGainF32 = 12022271 / 33554432 := by
    unfold KalmanState.kalmanGainF32
    rw [hb, ha]
    exact roundF32_eval _ _ (-2) (by norm_num) (by norm_num [abs_lt])
      (Or.inr (by norm_num [le_abs])) (by norm_num [roundHalfEven])
  have hc : roundF32 (1 - state.kalmanGainF32) = 42055 / 65536 := by
    rw [hK]
    exact roundF32_eval _ _ (-1) (by norm_num) (by norm_num [abs_lt])
      (Or.inr (by norm_num [le_abs])) (by norm_num [roundHalfEven])
  refine ⟨hK, ?_⟩
  show roundF32 (roundF32 (1 - state.kalmanGainF32) * state.predictedErrorF32) = _
  rw [hc, ha]
  exact roundF32_eval _ _ (-3) (by norm_num) (by norm_num [abs_lt])
      (Or.inr (by norm_num [le_abs])) (by norm_num [roundHalfEven])

theorem kalman_trace_step_11 (state : KalmanState) (z : ℚ)
    (hP : state.estimateError = 12022269 / 67108864)
    (hQ : state.processNoise = 13421773 / 134217728) (hR : state.measurementNoise = 1 / 2) :
    state.kalmanGainF32 = 12021599 / 33554432
      ∧ (state.filterStepF32 z).estimateError = 6010799 / 33554432 := by
  have ha : state.predictedErrorF32 = 4683289 / 16777216 := by
    unfold KalmanState.predictedErrorF32
    rw [hP, hQ]
    exact roundF32_eval _ _ (-2) (by norm_num) (by norm_num [abs_lt])
      (Or.inr (by norm_num [le_abs])) (by norm_num [roundHalfEven])
  have hb : roundF32 (state.predictedErrorF32 + state.measurementNoise) = 13071897 / 16777216 := by
    rw [ha, hR]
    exact roundF32_eval _ _ (-1) (by norm_num) (by norm_num [abs_lt])
      (Or.inr (by norm_num [le_abs])) (by norm_num [roundHalfEven])
  have hK : state.kalmanGainF32 = 12021599 / 33554432 := by
    unfold KalmanState.kalmanGainF32
    rw [hb, ha]
    exact roundF32_eval _ _ (-2) (by norm_num) (by norm_num [abs_lt])
      (Or.inr (by norm_num [le_abs])) (by norm_num [roundHalfEven])
  have hc : roundF32 (1 - state.kalmanGainF32) = 672901 / 1048576 := by
    rw [hK]
    exact roundF32_eval _ _ (-1) (by norm_num) (by norm_num [abs_lt])
      (Or.inr (by norm_num [le_abs])) (by norm_num [roundHalfEven])
  refine ⟨hK, ?_⟩
  show roundF32 (roundF32 (1 - state.kalmanGainF32) * state.predictedErrorF32) = _
  rw [hc, ha]
  exact roundF32_eval _ _ (-3) (by norm_num) (by norm_num [abs_lt])
      (Or.inr (by norm_num [le_abs])) (by norm_num [roundHalfEven])

theorem kalman_trace_step_12 (state : KalmanState) (z : ℚ)
    (hP : state.estimateError = 6010799 / 33554432)
    (hQ : state.processNoise = 13421773 / 134217728) (hR : state.measurementNoise = 1 / 2) :
    state.kalmanGainF32 = 6010661 / 16777216
      ∧ (state.filterStepF32 z).estimateError = 6010661 / 33554432 := by
  have ha : state.predictedErrorF32 = 4683121 / 16777216 := by
    unfold KalmanState.predictedErrorF32
    rw [hP, hQ]
    exact roundF32_eval _ _ (-2) (by norm_num) (by norm_num [abs_lt])
      (Or.inr (by norm_num [le_abs])) (by norm_num [roundHalfEven])
  have hb : roundF32 (state.predictedErrorF32 + state.measurementNoise) = 13071729 / 16777216 := by
    rw [ha, hR]
    exact roundF32_eval _ _ (-1) (by norm_num) (by norm_num [abs_lt])
      (Or.inr (by norm_num [le_abs])) (by norm_num [roundHalfEven])
  have hK : state.kalmanGainF32 = 6010661 / 16777216 := by
    unfold KalmanState.kalmanGainF32
    rw [hb, ha]
    exact roundF32_eval _ _ (-2) (by norm_num) (by norm_num [abs_lt])
      (Or.inr (by norm_num [le_abs])) (by norm_num [roundHalfEven])
  have hc : roundF32 (1 - state.kalmanGainF32) = 10766555 / 16777216 := by
    rw [hK]
    exact roundF32_eval _ _ (-1) (by norm_num) (by norm_num [abs_lt])
      (Or.inr (by norm_num [le_abs])) (by norm_num [roundHalfEven])
  refine ⟨hK, ?_⟩
  show roundF32 (roundF32 (1 - state.kalmanGainF32) * state.predictedErrorF32) = _
  rw [hc, ha]
  exact roundF32_eval _ _ (-3) (by norm_num) (by norm_num [abs_lt])
      (Or.inr (by norm_num [le_abs])) (by norm_num [roundHalfEven])

theorem kalman_trace_step_13 (state : KalmanState) (z : ℚ)
    (hP : state.estimateError = 6010661 / 33554432)
    (hQ : state.processNoise = 13421773 / 134217728) (hR : state.measurementNoise = 1 / 2) :
    state.kalmanGainF32 = 1502651 / 4194304
      ∧ (state.filterStepF32 z).estimateError = 12021209 / 67108864 := by
  have ha : state.predictedErrorF32 = 1170763 / 4194304 := by
    unfold KalmanState.predictedErrorF32
    rw [hP, hQ]
    exact roundF32_eval _ _ (-2) (by norm_num) (by norm_num [abs_lt])
      (Or.inr (by norm_num [le_abs])) (by norm_num [roundHalfEven])
  have hb : roundF32 (state.predictedErrorF32 + state.measurementNoise) = 3267915 / 4194304 := by
    rw [ha, hR]
    exact roundF32_eval _ _ (-1) (by norm_num) (by norm_num [abs_lt])
      (Or.inr (by norm_num [le_abs])) (by norm_num [roundHalfEven])
  have hK : state.kalmanGainF32 = 1502651 / 4194304 := by
    unfold KalmanState.kalmanGainF32
    rw [hb, ha]
    exact roundF32_eval _ _ (-2) (by norm_num) (by norm_num [abs_lt])
      (Or.inr (by norm_num [le_abs])) (by norm_num [roundHalfEven])
  have hc : roundF32 (1 - state.kalmanGainF32) = 2691653 / 4194304 := by
    rw [hK]
    exact roundF32_eval _ _ (-1) (by norm_num) (by norm_num [abs_lt])
      (Or.inr (by norm_num [le_abs])) (by norm_num [roundHalfEven])
  refine ⟨hK, ?_⟩
  show roundF32 (roundF32 (1 - state.kalmanGainF32) * state.predictedErrorF32) = _
  rw [hc, ha]
  exact roundF32_eval _ _ (-3) (by norm_num) (by norm_num [abs_lt])
      (Or.inr (by norm_num [le_abs])) (by norm_num [roundHalfEven])

theorem kalman_trace_step_14 (state : KalmanState) (z : ℚ)
    (hP : state.estimateError = 12021209 / 67108864)
    (hQ : state.processNoise = 13421773 / 134217728) (hR : state.measurementNoise = 1 / 2) :
    state.kalmanGainF32 = 6010581 / 16777216
      ∧ (state.filterStepF32 z).estimateError = 12021163 / 67108864 := by
  have ha : state.predictedErrorF32 = 292689 / 1048576 := by
    unfold KalmanState.predictedErrorF32
    rw [hP, hQ]
    exact roundF32_eval _ _ (-2) (by norm_num) (by norm_num [abs_lt])
      (Or.inr (by norm_num [le_abs])) (by norm_num [roundHalfEven])
  have hb : roundF32 (state.predictedErrorF32 + state.measurementNoise) = 816977 / 1048576 := by
    rw [ha, hR]
    exact roundF32_eval _ _ (-1) (by norm_num) (by norm_num [abs_lt])
      (Or.inr (by norm_num [le_abs])) (by norm_num [roundHalfEven])
  have hK : state.kalmanGainF32 = 6010581 / 16777216 := by
    unfold KalmanState.kalmanGainF32
    rw [hb, ha]
    exact roundF32_eval _ _ (-2) (by norm_num) (by norm_num [abs_lt])
      (Or.inr (by norm_num [le_abs])) (by norm_num [roundHalfEven])
  have hc : roundF32 (1 - state.kalmanGainF32) = 10766635 / 16777216 := by
    rw [hK]
    exact roundF32_eval _ _ (-1) (by norm_num) (by norm_num [abs_lt])
      (Or.inr (by norm_num [le_abs])) (by norm_num [roundHalfEven])
  refine ⟨hK, ?_⟩
  show roundF32 (roundF32 (1 - state.kalmanGainF32) * state.predictedErrorF32) = _
  rw [hc, ha]
  exact roundF32_eval _ _ (-3) (by norm_num) (by norm_num [abs_lt])
      (Or.inr (by norm_num [le_abs])) (by norm_num [roundHalfEven])

theorem kalman_trace_step_15 (state : KalmanState) (z : ℚ)
    (hP : state.estimateError = 12021163 / 67108864)
    (hQ : state.processNoise = 13421773 / 134217728) (hR : state.measurementNoise = 1 / 2) :
    state.kalmanGainF32 = 1502643 / 4194304
      ∧ (state.filterStepF32 z).estimateError = 12021143 / 67108864 := by
  have ha : state.predictedErrorF32 = 9366025 / 33554432 := by
    unfold KalmanState.predictedErrorF32
    rw [hP, hQ]
    exact roundF32_eval _ _ (-2) (by norm_num) (by norm_num [abs_lt])
      (Or.inr (by norm_num [le_abs])) (by norm_num [roundHalfEven])
  have hb : roundF32 (state.predictedErrorF32 + state.measurementNoise) = 3267905 / 4194304 := by
    rw [ha, hR]
    exact roundF32_eval _ _ (-1) (by norm_num) (by norm_num [abs_lt])
      (Or.inr (by norm_num [le_abs])) (by norm_num [roundHalfEven])
  have hK : state.kalmanGainF32 = 1502643 / 4194304 := by
    unfold KalmanState.kalmanGainF32
    rw [hb, ha]
    exact roundF32_eval _ _ (-2) (by norm_num) (by norm_num [abs_lt])
      (Or.inr (by norm_num [le_abs])) (by norm_num [roundHalfEven])
  have hc : roundF32 (1 - state.kalmanGainF32) = 2691661 / 4194304 := by
    rw [hK]
    exact roundF32_eval _ _ (-1) (by norm_num) (by norm_num [abs_lt])
      (Or.inr (by norm_num [le_abs])) (by norm_num [roundHalfEven])
  refine ⟨hK, ?_⟩
  show roundF32 (roundF32 (1 - state.kalmanGainF32) * state.predictedErrorF32) = _
  rw [hc, ha]
  exact roundF32_eval _ _ (-3) (by norm_num) (by norm_num [abs_lt])
      (Or.inr (by norm_num [le_abs])) (by norm_num [roundHalfEven])

theorem kalman_trace_step_16 (state : KalmanState) (z : ℚ)
    (hP : state.estimateError = 12021143 / 67108864)
    (hQ : state.processNoise = 13421773 / 134217728) (hR : state.measurementNoise = 1 / 2) :
    state.kalmanGainF32 = 12021135 / 33554432
      ∧ (state.filterStepF32 z).estimateError = 12021135 / 67108864 := by
  have ha : state.predictedErrorF32 = 9366015 / 33554432 := by
    unfold KalmanState.predictedErrorF32
    rw [hP, hQ]
    exact roundF32_eval _ _ (-2) (by norm_num) (by norm_num [abs_lt])
      (Or.inr (by norm_num [le_abs])) (by norm_num [roundHalfEven])
  have hb : roundF32 (state.predictedErrorF32 + state.measurementNoise) = 51061 / 65536 := by
    rw [ha, hR]
    exact roundF32_eval _ _ (-1) (by norm_num) (by norm_num [abs_lt])
      (Or.inr (by norm_num [le_abs])) (by norm_num [roundHalfEven])
  have hK : state.kalmanGainF32 = 12021135 / 33554432 := by
    unfold KalmanState.kalmanGainF32
    rw [hb, ha]
    exact roundF32_eval _ _ (-2) (by norm_num) (by norm_num [abs_lt])
      (Or.inr (by norm_num [le_abs])) (by norm_num [roundHalfEven])
  have hc : roundF32 (1 - state.kalmanGainF32) = 1345831 / 2097152 := by
    rw [hK]
    exact roundF32_eval _ _ (-1) (by norm_num) (by norm_num [abs_lt])
      (Or.inr (by norm_num [le_abs])) (by norm_num [roundHalfEven])
  refine ⟨hK, ?_⟩
  show roundF32 (roundF32 (1 - state.kalmanGainF32) * state.predictedErrorF32) = _
  rw [hc, ha]
  exact roundF32_eval _ _ (-3) (by norm_num) (by norm_num [abs_lt])
      (Or.inr (by norm_num [le_abs])) (by norm_num [roundHalfEven])

theorem kalman_trace_step_17 (state : KalmanState) (z : ℚ)
    (hP : state.estimateError = 12021135 / 67108864)
    (hQ : state.processNoise = 13421773 / 134217728) (hR : state.measurementNoise = 1 / 2) :
    state.kalmanGainF32 = 12021131 / 33554432
      ∧ (state.filterStepF32 z).estimateError = 3005283 / 16777216 := by
  have ha : state.predictedErrorF32 = 9366011 / 33554432 := by
    unfold KalmanState.predictedErrorF32
    rw [hP, hQ]
    exact roundF32_eval _ _ (-2) (by norm_num) (by norm_num [abs_lt])
      (Or.inr (by norm_num [le_abs])) (by norm_num [roundHalfEven])
  have hb : roundF32 (state.predictedErrorF32 + state.measurementNoise) = 6535807 / 8388608 := by
    rw [ha, hR]
    exact roundF32_eval _ _ (-1) (by norm_num) (by norm_num [abs_lt])
      (Or.inr (by norm_num [le_abs])) (by norm_num [roundHalfEven])
  have hK : state.kalmanGainF32 = 12021131 / 33554432 := by
    unfold KalmanState.kalmanGainF32
    rw [hb, ha]
    exact roundF32_eval _ _ (-2) (by norm_num) (by norm_num [abs_lt])
      (Or.inr (by norm_num [le_abs])) (by norm_num [roundHalfEven])
  have hc : roundF32 (1 - state.kalmanGainF32) = 5383325 / 8388608 := by
    rw [hK]
    exact roundF32_eval _ _ (-1) (by norm_num) (by norm_num [abs_lt])
      (Or.inr (by norm_num [le_abs])) (by norm_num [roundHalfEven])
  refine ⟨hK, ?_⟩
  show roundF32 (roundF32 (1 - state.kalmanGainF32) * state.predictedErrorF32) = _
  rw [hc, ha]
  exact roundF32_eval _ _ (-3) (by norm_num) (by norm_num [abs_lt])
      (Or.inr (by norm_num [le_abs])) (by norm_num [roundHalfEven])

theorem kalman_trace_step_18 (state : KalmanState) (z : ℚ)
    (hP : state.estimateError = 3005283 / 16777216)
    (hQ : state.processNoise = 13421773 / 134217728) (hR : state.measurementNoise = 1 / 2) :
    state.kalmanGainF32 = 12021131 / 33554432
      ∧ (state.filterStepF32 z).estimateError = 12021129 / 67108864 := by
  have ha : state.predictedErrorF32 = 9366009 / 33554432 := by
    unfold KalmanState.predictedErrorF32
    rw [hP, hQ]
    exact roundF32_eval _ _ (-2) (by norm_num) (by norm_num [abs_lt])
      (Or.inr (by norm_num [le_abs])) (by norm_num [roundHalfEven])
  have hb : roundF32 (state.predictedErrorF32 + state.measurementNoise) = 3267903 / 4194304 := by
    rw [ha, hR]
    exact roundF32_eval _ _ (-1) (by norm_num) (by norm_num [abs_lt])
      (Or.inr (by norm_num [le_abs])) (by norm_num [roundHalfEven])
  have hK : state.kalmanGainF32 = 12021131 / 33554432 := by
    unfold KalmanState.kalmanGainF32
    rw [hb, ha]
    exact roundF32_eval _ _ (-2) (by norm_num) (by norm_num [abs_lt])
      (Or.inr (by norm_num [le_abs])) (by norm_num [roundHalfEven])
  have hc : roundF32 (1 - state.kalmanGainF32) = 5383325 / 8388608 := by
    rw [hK]
    exact roundF32_eval _ _ (-1) (by norm_num) (by norm_num [abs_lt])
      (Or.inr (by norm_num [le_abs])) (by norm_num [roundHalfEven])
  refine ⟨hK, ?_⟩
  show roundF32 (roundF32 (1 - state.kalmanGainF32) * state.predictedErrorF32) = _
  rw [hc, ha]
  exact roundF32_eval _ _ (-3) (by norm_num) (by norm_num [abs_lt])
      (Or.inr (by norm_num [le_abs])) (by norm_num [roundHalfEven])

theorem kalman_trace_step_19 (state : KalmanState) (z : ℚ)
    (hP : state.estimateError = 12021129 / 67108864)
    (hQ : state.processNoise = 13421773 / 134217728) (hR : state.measurementNoise = 1 / 2) :
    state.kalmanGainF32 = 12021129 / 33554432
      ∧ (state.filterStepF32 z).estimateError = 6010565 / 33554432 := by
  have ha : state.predictedErrorF32 = 1170751 / 4194304 := by
    unfold KalmanState.predictedErrorF32
    rw [hP, hQ]
    exact roundF32_eval _ _ (-2) (by norm_num) (by norm_num [abs_lt])
      (Or.inr (by norm_num [le_abs])) (by norm_num [roundHalfEven])
  have hb : roundF32 (state.predictedErrorF32 + state.measurementNoise) = 3267903 / 4194304 := by
    rw [ha, hR]
    exact roundF32_eval _ _ (-1) (by norm_num) (by norm_num [abs_lt])
      (Or.inr (by norm_num [le_abs])) (by norm_num [roundHalfEven])
  have hK : state.kalmanGainF32 = 12021129 / 33554432 := by
    unfold KalmanState.kalmanGainF32
    rw [hb, ha]
    exact roundF32_eval _ _ (-2) (by norm_num) (by norm_num [abs_lt])
      (Or.inr (by norm_num [le_abs])) (by norm_num [roundHalfEven])
  have hc : roundF32 (1 - state.kalmanGainF32) = 2691663 / 4194304 := by
    rw [hK]
    exact roundF32_eval _ _ (-1) (by norm_num) (by norm_num [abs_lt])
      (Or.inr (by norm_num [le_abs])) (by norm_num [roundHalfEven])
  refine ⟨hK, ?_⟩
  show roundF32 (roundF32 (1 - state.kalmanGainF32) * state.predictedErrorF32) = _
  rw [hc, ha]
  exact roundF32_eval _ _ (-3) (by norm_num) (by norm_num [abs_lt])
      (Or.inr (by norm_num [le_abs])) (by norm_num [roundHalfEven])

theorem kalman_trace_step_20 (state : KalmanState) (z : ℚ)
    (hP : state.estimateError = 6010565 / 33554432)
    (hQ : state.processNoise = 13421773 / 134217728) (hR : state.measurementNoise = 1 / 2) :
    state.kalmanGainF32 = 12021129 / 33554432
      ∧ (state.filterStepF32 z).estimateError = 6010565 / 33554432 := by
  have ha : state.predictedErrorF32 = 1170751 / 4194304 := by
    unfold KalmanState.predictedErrorF32
    rw [hP, hQ]
    exact roundF32_eval _ _ (-2) (by norm_num) (by norm_num [abs_lt])
      (Or.inr (by norm_num [le_abs])) (by norm_num [roundHalfEven])
  have hb : roundF32 (state.predictedErrorF32 + state.measurementNoise) = 3267903 / 4194304 := by
    rw [ha, hR]
    exact roundF32_eval _ _ (-1) (by norm_num) (by norm_num [abs_lt])
      (Or.inr (by norm_num [le_abs])) (by norm_num [roundHalfEven])
  have hK : state.kalmanGainF32 = 12021129 / 33554432 := by
    unfold KalmanState.kalmanGainF32
    rw [hb, ha]
    exact roundF32_eval _ _ (-2) (by norm_num) (by norm_num [abs_lt])
      (Or.inr (by norm_num [le_abs])) (by norm_num [roundHalfEven])
  have hc : roundF32 (1 - state.kalmanGainF32) = 2691663 / 4194304 := by
    rw [hK]
    exact roundF32_eval _ _ (-1) (by norm_num) (by norm_num [abs_lt])
      (Or.inr (by norm_num [le_abs])) (by norm_num [roundHalfEven])
  refine ⟨hK, ?_⟩
  show roundF32 (roundF32 (1 - state.kalmanGainF32) * state.predictedErrorF32) = _
  rw [hc, ha]
  exact roundF32_eval _ _ (-3) (by norm_num) (by norm_num [abs_lt])
      (Or.inr (by norm_num [le_abs])) (by norm_num [roundHalfEven])

/-- One binary32 filter step under the noise parameters of `initialize()`
moves the error from one entry of `kalmanErrorTrace` to the next (from entry
20 to itself), with a gain in `[0, 11/16]`. -/
theorem kalman_trace_step (n : Nat) (state : KalmanState) (z : ℚ)
    (hP : state.estimateError = kalmanErrorAfter n)
    (hQ : state.processNoise = 13421773 / 134217728) (hR : state.measurementNoise = 1 / 2) :
    (state.filterStepF32 z).estimateError = kalmanErrorAfter (n + 1)
      ∧ 0 ≤ state.kalmanGainF32 ∧ state.kalmanGainF32 ≤ 11 / 16 := by
  rcases Nat.lt_or_ge n 20 with hn | hn
  · interval_cases n
    · obtain ⟨hK, hE⟩ := kalman_trace_step_0 state z hP hQ hR
      rw [hK, hE]
      exact ⟨rfl, by norm_num, by norm_num⟩
    · obtain ⟨hK, hE⟩ := kalman_trace_step_1 state z hP hQ hR
      rw [hK, hE]
      exact ⟨rfl, by norm_num, by norm_num⟩
    · obtain ⟨hK, hE⟩ := kalman_trace_step_2 state z hP hQ hR
      rw [hK, hE]
      exact ⟨rfl, by norm_num, by norm_num⟩
    · obtain ⟨hK, hE⟩ := kalman_trace_step_3 state z hP hQ hR
      rw [hK, hE]
      exact ⟨rfl, by norm_num, by norm_num⟩
    · obtain ⟨hK, hE⟩ := kalman_trace_step_4 state z hP hQ hR
      rw [hK, hE]
      exact ⟨rfl, by norm_num, by norm_num⟩
    · obtain ⟨hK, hE⟩ := kalman_trace_step_5 state z hP hQ hR
      rw [hK, hE]
      exact ⟨rfl, by norm_num, by norm_num⟩
    · obtain ⟨hK, hE⟩ := kalman_trace_step_6 state z hP hQ hR
      rw [hK, hE]
      exact ⟨rfl, by norm_num, by norm_num⟩
    · obtain ⟨hK, hE⟩ := kalman_trace_step_7 state z hP hQ hR
      rw [hK, hE]
      exact ⟨rfl, by norm_num, by norm_num⟩
    · obtain ⟨hK, hE⟩ := kalman_trace_step_8 state z hP hQ hR
      rw [hK, hE]
      exact ⟨rfl, by norm_num, by norm_num⟩
    · obtain ⟨hK, hE⟩ := kalman_trace_step_9 state z hP hQ hR
      rw [hK, hE]
      exact ⟨rfl, by norm_num, by norm_num⟩
    · obtain ⟨hK, hE⟩ := kalman_trace_step_10 state z hP hQ hR
      rw [hK, hE]
      exact ⟨rfl, by norm_num, by norm_num⟩
    · obtain ⟨hK, hE⟩ := kalman_trace_step_11 state z hP hQ hR
      rw [hK, hE]
      exact ⟨rfl, by norm_num, by norm_num⟩
    · obtain ⟨hK, hE⟩ := kalman_trace_step_12 state z hP hQ hR
      rw [hK, hE]
      exact ⟨rfl, by norm_num, by norm_num⟩
    · obtain ⟨hK, hE⟩ := kalman_trace_step_13 state z hP hQ hR
      rw [hK, hE]
      exact ⟨rfl, by norm_num, by norm_num⟩
    · obtain ⟨hK, hE⟩ := kalman_trace_step_14 state z hP hQ hR
      rw [hK, hE]
      exact ⟨rfl, by norm_num, by norm_num⟩
    · obtain ⟨hK, hE⟩ := kalman_trace_step_15 state z hP hQ hR
      rw [hK, hE]
      exact ⟨rfl, by norm_num, by norm_num⟩
    · obtain ⟨hK, hE⟩ := kalman_trace_step_16 state z hP hQ hR
      rw [hK, hE]
      exact ⟨rfl, by norm_num, by norm_num⟩
    · obtain ⟨hK, hE⟩ := kalman_trace_step_17 state z hP hQ hR
      rw [hK, hE]
      exact ⟨rfl, by norm_num, by norm_num⟩
    · obtain ⟨hK, hE⟩ := kalman_trace_step_18 state z hP hQ hR
      rw [hK, hE]
      exact ⟨rfl, by norm_num, by norm_num⟩
    · obtain ⟨hK, hE⟩ := kalman_trace_step_19 state z hP hQ hR
      rw [hK, hE]
      exact ⟨rfl, by norm_num, by norm_num⟩
  · have h1 : kalmanErrorAfter n = kalmanErrorAfter 20 := by
      unfold kalmanErrorAfter
      rw [min_eq_right hn, min_self]
    have h2 : kalmanErrorAfter (n + 1) = kalmanErrorAfter 20 := by
      unfold kalmanErrorAfter
      rw [min_eq_right (by omega), min_self]
    rw [h1] at hP
    obtain ⟨hK, hE⟩ := kalman_trace_step_20 state z hP hQ hR
    rw [hK, hE, h2]
    exact ⟨rfl, by norm_num, by norm_num⟩

theorem filterStepF32_noise (state : KalmanState) (z : ℚ) :
    (state.filterStepF32 z).processNoise = state.processNoise
      ∧ (state.filterStepF32 z).measurementNoise = state.measurementNoise :=
  ⟨rfl, rfl⟩

theorem callF32_filter_channel (sf : SensorFusion) (idx : Nat) (z : ℚ) (i : Fin 5) :
    (sf.callF32 (.filter idx z)).kalmanStates i
      = if idx = i.val then (sf.kalmanStates i).filterStepF32 z else sf.kalmanStates i := by
  simp only [SensorFusion.callF32, SensorFusion.applyKalmanFilterF32]
  by_cases h5 : idx ≥ 5
  · rw [dif_pos h5, if_neg (by have := i.isLt; omega)]
  · rw [dif_neg h5]
    by_cases hi : idx = i.val
    · subst hi
      simp
    · have hne : ¬ i = ⟨idx, Nat.lt_of_not_ge h5⟩ := by
        intro h
        exact hi (by rw [h])
      simp [hi, hne]

/-- After `initialize()` every channel is at entry 0 of the trace, with
estimate 250. -/
theorem initializeF32_state (sf : SensorFusion) (i : Fin 5) :
    ( sf.initializeF32.kalmanStates i).estimateError = kalmanErrorAfter 0
      ∧ ( sf.initializeF32.kalmanStates i).processNoise = 13421773 / 134217728
      ∧ ( sf.initializeF32.kalmanStates i).measurementNoise = 1 / 2
      ∧ ( sf.initializeF32.kalmanStates i).estimate = 250 :=
  ⟨roundF32_one, roundF32_tenth, roundF32_half, roundF32_250⟩

/-- Filter calls move the error of channel `i` along the trace, one entry per
call on that channel, and leave its noise parameters alone. -/
theorem callsF32_error (cs : List KalmanCall) (sf : SensorFusion) (i : Fin 5) (n0 : Nat)
    (hcs : ∀ c ∈ cs, c.isFilter = true)
    (hP : (sf.kalmanStates i).estimateError = kalmanErrorAfter n0)
    (hQ : (sf.kalmanStates i).processNoise = 13421773 / 134217728)
    (hR : (sf.kalmanStates i).measurementNoise = 1 / 2) :
    ((sf.callsF32 cs).kalmanStates i).estimateError
        = kalmanErrorAfter (n0 + cs.countP (KalmanCall.filtersChannel i))
      ∧ ((sf.callsF32 cs).kalmanStates i).processNoise = 13421773 / 134217728
      ∧ ((sf.callsF32 cs).kalmanStates i).measurementNoise = 1 / 2 := by
  induction cs generalizing sf n0 with
  | nil => exact ⟨hP, hQ, hR⟩
  | cons c rest ih =>
    have hstep : sf.callsF32 (c :: rest) = (sf.callF32 c).callsF32 rest := rfl
    have hrest : ∀ x ∈ rest, x.isFilter = true := fun x hx => hcs x (List.mem_cons_of_mem _ hx)
    rw [hstep, List.countP_cons]
    cases c with
    | update idx q r =>
      exact absurd (hcs _ (List.mem_cons_self _ _)) (by simp [KalmanCall.isFilter])
    | filter idx z =>
      by_cases hi : idx = i.val
      · have hs : (sf.callF32 (.filter idx z)).kalmanStates i
            = (sf.kalmanStates i).filterStepF32 z := by
          rw [callF32_filter_channel, if_pos hi]
        have hnext := (kalman_trace_step n0 (sf.kalmanStates i) z hP hQ hR).1
        have := ih (sf.callF32 (.filter idx z)) (n0 + 1) hrest (by rw [hs]; exact hnext)
          (by rw [hs]; exact hQ) (by rw [hs]; exact hR)
        have hc : (if KalmanCall.filtersChannel i (KalmanCall.filter idx z) = true then 1 else 0)
            = 1 := by
          simp [KalmanCall.filtersChannel, hi]
        rw [hc]
        have e : n0 + (List.countP (KalmanCall.filtersChannel i) rest + 1)
            = n0 + 1 + List.countP (KalmanCall.filtersChannel i) rest := by omega
        rw [e]
        exact this
      · have hs : (sf.callF32 (.filter idx z)).kalmanStates i = sf.kalmanStates i := by
          rw [callF32_filter_channel, if_neg hi]
        have := ih (sf.callF32 (.filter idx z)) n0 hrest (by rw [hs]; exact hP)
          (by rw [hs]; exact hQ) (by rw [hs]; exact hR)
        have hc : (if KalmanCall.filtersChannel i (KalmanCall.filter idx z) = true then 1 else 0)
            = 0 := by
          simp [KalmanCall.filtersChannel, hi]
        rw [hc]
        exact this

/-- After binary32 filter calls with in-range measurements the stored
estimate is a binary32 value of magnitude at most `2 ^ 126`. -/
theorem callsF32_estimate (cs : List KalmanCall) (sf : SensorFusion) (i : Fin 5) (n0 : Nat)
    (hcs : ∀ c ∈ cs, c.isF32Filter)
    (hP : (sf.kalmanStates i).estimateError = kalmanErrorAfter n0)
    (hQ : (sf.kalmanStates i).processNoise = 13421773 / 134217728)
    (hR : (sf.kalmanStates i).measurementNoise = 1 / 2)
    (hE : roundF32 (sf.kalmanStates i).estimate = (sf.kalmanStates i).estimate)
    (hB : |(sf.kalmanStates i).estimate| ≤ 2 ^ 126) :
    roundF32 ((sf.callsF32 cs).kalmanStates i).estimate
        = ((sf.callsF32 cs).kalmanStates i).estimate
      ∧ |((sf.callsF32 cs).kalmanStates i).estimate| ≤ 2 ^ 126 := by
  induction cs generalizing sf n0 with
  | nil => exact ⟨hE, hB⟩
  | cons c rest ih =>
    have hstep : sf.callsF32 (c :: rest) = (sf.callF32 c).callsF32 rest := rfl
    have hrest : ∀ x ∈ rest, x.isF32Filter := fun x hx => hcs x (List.mem_cons_of_mem _ hx)
    rw [hstep]
    cases c with
    | update idx q r => exact absurd (hcs _ (List.mem_cons_self _ _)) (by simp [KalmanCall.isF32Filter])
    | filter idx z =>
      obtain ⟨hz, hzb⟩ : roundF32 z = z ∧ |z| ≤ 2 ^ 126 := hcs _ (List.mem_cons_self _ _)
      by_cases hi : idx = i.val
      · have hs : (sf.callF32 (.filter idx z)).kalmanStates i
            = (sf.kalmanStates i).filterStepF32 z := by
          rw [callF32_filter_channel, if_pos hi]
        obtain ⟨hnext, hK0, hK1⟩ := kalman_trace_step n0 (sf.kalmanStates i) z hP hQ hR
        have hbetween := f32_blend_between (sf.kalmanStates i).estimate z
          (sf.kalmanStates i).kalmanGainF32 hE hz hK0 hK1
        have hest : ((sf.kalmanStates i).filterStepF32 z).estimate
            = roundF32 ((sf.kalmanStates i).estimate
              + roundF32 ((sf.kalmanStates i).kalmanGainF32
                * roundF32 (z - (sf.kalmanStates i).estimate))) := rfl
        refine ih (sf.callF32 (.filter idx z)) (n0 + 1) hrest (by rw [hs]; exact hnext)
          (by rw [hs]; exact hQ) (by rw [hs]; exact hR) ?_ ?_
        · rw [hs, hest, roundF32_idem]
        · rw [hs, hest, abs_le]
          rw [abs_le] at hB hzb
          constructor
          · exact le_trans (le_min hB.1 hzb.1) hbetween.1
          · exact le_trans hbetween.2 (max_le hB.2 hzb.2)
      · have hs : (sf.callF32 (.filter idx z)).kalmanStates i = sf.kalmanStates i := by
          rw [callF32_filter_channel, if_neg hi]
        exact ih (sf.callF32 (.filter idx z)) n0 hrest (by rw [hs]; exact hP)
          (by rw [hs]; exact hQ) (by rw [hs]; exact hR) (by rw [hs]; exact hE)
          (by rw [hs]; exact hB)

theorem isF32Filter_isFilter (c : KalmanCall) (h : c.isF32Filter) : c.isFilter = true := by
  cases c with
  | filter idx z => rfl
  | update idx q r => exact absurd h (by simp [KalmanCall.isF32Filter])


theorem kalmanErrorAfter_values :
    kalmanErrorAfter 18 = 3005283 / 16777216 ∧ kalmanErrorAfter 19 = 12021129 / 67108864
      ∧ kalmanErrorAfter 20 = 6010565 / 33554432 :=
  ⟨rfl, rfl, rfl⟩

theorem kalmanErrorAfter_of_ge (n : Nat) (h : 20 ≤ n) :
    kalmanErrorAfter n = 6010565 / 33554432 := by
  unfold kalmanErrorAfter
  rw [min_eq_right h]
  rfl

/-- The trace falls strictly over its first 19 steps, rises by `2 ^ -26` at
step 20 and is constant afterwards. -/
theorem kalmanErrorAfter_order (n : Nat) :
    (n < 19 → kalmanErrorAfter (n + 1) < kalmanErrorAfter n)
      ∧ (n = 19 → kalmanErrorAfter (n + 1) = kalmanErrorAfter n + 1 / 67108864)
      ∧ (20 ≤ n → kalmanErrorAfter (n + 1) = kalmanErrorAfter n) := by
  refine ⟨?_, ?_, ?_⟩
  · intro h
    interval_cases n <;> norm_num [kalmanErrorAfter, kalmanErrorTrace]
  · intro h
    subst h
    norm_num [kalmanErrorAfter, kalmanErrorTrace]
  · intro h
    rw [kalmanErrorAfter_of_ge n h, kalmanErrorAfter_of_ge (n + 1) (by omega)]

/-- Position of the trace relative to the root of `P^2 + P/10 = 1/20`: above
it up to entry 18, below it at entry 19, above it from entry 20 on. -/
theorem kalmanErrorAfter_steady (n : Nat) :
    0 < kalmanErrorAfter n
      ∧ (n ≤ 18 → 1 / 20 < kalmanErrorAfter n ^ 2 + 1 / 10 * kalmanErrorAfter n)
      ∧ (n = 19 → kalmanErrorAfter n ^ 2 + 1 / 10 * kalmanErrorAfter n < 1 / 20)
      ∧ (20 ≤ n → 1 / 20 < kalmanErrorAfter n ^ 2 + 1 / 10 * kalmanErrorAfter n) := by
  rcases Nat.lt_or_ge n 20 with hn | hn
  · interval_cases n <;> norm_num [kalmanErrorAfter, kalmanErrorTrace]
  · rw [kalmanErrorAfter_of_ge n hn]
    refine ⟨by norm_num, fun h => by omega, fun h => by omega, fun _ => by norm_num⟩

theorem steadyState_lt (P : ℚ) (hP : 0 < P) (h : 1 / 20 < P ^ 2 + 1 / 10 * P) (Pstar : ℝ)
    (hpos : 0 < Pstar) (hroot : Pstar ^ 2 + 1 / 10 * Pstar - 1 / 20 = 0) : Pstar < (P : ℝ) := by
  have hPr : (0 : ℝ) < (P : ℝ) := by exact_mod_cast hP
  have hsr := (Rat.cast_lt (K := ℝ)).mpr h
  push_cast at hsr
  by_contra hcon
  have hle : (P : ℝ) ≤ Pstar := not_lt.mp hcon
  nlinarith

theorem lt_steadyState (P : ℚ) (hP : 0 < P) (h : P ^ 2 + 1 / 10 * P < 1 / 20) (Pstar : ℝ)
    (hpos : 0 < Pstar) (hroot : Pstar ^ 2 + 1 / 10 * Pstar - 1 / 20 = 0) : (P : ℝ) < Pstar := by
  have hPr : (0 : ℝ) < (P : ℝ) := by exact_mod_cast hP
  have hsr := (Rat.cast_lt (K := ℝ)).mpr h
  push_cast at hsr
  by_contra hcon
  have hle : Pstar ≤ (P : ℝ) := not_lt.mp hcon
  nlinarith

theorem steadyState_exists :
    ∃ Pstar : ℝ, 0 < Pstar ∧ Pstar ^ 2 + 1 / 10 * Pstar - 1 / 20 = 0 := by
  refine ⟨(-(1 / 10) + Real.sqrt (21 / 100)) / 2, ?_, ?_⟩
  · have hs : (1 / 10 : ℝ) < Real.sqrt (21 / 100) := by
      rw [Real.lt_sqrt (by norm_num)]
      norm_num
    linarith
  · have hsq : Real.sqrt (21 / 100) ^ 2 = 21 / 100 := Real.sq_sqrt (by norm_num)
    nlinarith

/-- The error of channel `i` before and after a further binary32 filter call,
in terms of the trace. -/
theorem applyKalmanFilterF32_error (sf : SensorFusion) (cs : List KalmanCall) (i : Fin 5)
    (z : ℚ) (hcs : ∀ c ∈ cs, c.isFilter = true) :
    (( sf.initializeF32.callsF32 cs).kalmanStates i).estimateError = kalmanErrorAfter (cs.countP (KalmanCall.filtersChannel i))
      ∧ ((( sf.initializeF32.callsF32 cs).applyKalmanFilterF32 i.val z).1.kalmanStates i).estimateError = kalmanErrorAfter (cs.countP (KalmanCall.filtersChannel i) + 1) := by
  obtain ⟨h0P, h0Q, h0R, _⟩ := initializeF32_state sf i
  obtain ⟨hP, hQ, hR⟩ := callsF32_error cs sf.initializeF32 i 0 hcs h0P h0Q h0R
  rw [Nat.zero_add] at hP
  refine ⟨hP, ?_⟩
  have hs : (( sf.initializeF32.callsF32 cs).applyKalmanFilterF32 i.val z).1.kalmanStates i
      = (( sf.initializeF32.callsF32 cs).kalmanStates i).filterStepF32 z := by
    have := callF32_filter_channel ( sf.initializeF32.callsF32 cs) i.val z i
    rwa [if_pos rfl] at this
  rw [hs]
  exact (kalman_trace_step _ _ z hP hQ hR).1

/-- C40 as amended, in binary32 arithmetic: from the state set by
`initialize()`, after any sequence of `applyKalmanFilter` calls with binary32
measurements of magnitude at most `2 ^ 126` (no `updateKalmanParameters`
call), of which `n` were on channel `i`, a further such call on channel `i`
strictly decreases that channel's estimate error if `n < 19`, leaving it above
every positive root `P*` of `P^2 + 0.1 P - 0.05 = 0` if `n < 18` and at
`12021129 / 2 ^ 26`, below `P*`, if `n = 18`; raises it if `n = 19`; leaves it
at `12021130 / 2 ^ 26`, above `P*`, whenever `n ≥ 19`, so unchanged if
`n ≥ 20`. Such a root exists. The stored estimate after the call lies between
the previous estimate and the measurement and is the returned value; the
difference `measurement - estimate` has magnitude at most `2 ^ 127`, inside
the binary32 range. -/
theorem kalman_error_binary32 (sf : SensorFusion) (cs : List KalmanCall) (i : Fin 5) (z : ℚ)
    (hcs : ∀ c ∈ cs, c.isF32Filter) (hz : roundF32 z = z) (hzb : |z| ≤ 2 ^ 126) :
    (cs.countP (KalmanCall.filtersChannel i) < 19 →
        ((( sf.initializeF32.callsF32 cs).applyKalmanFilterF32 i.val z).1.kalmanStates i).estimateError
          < (( sf.initializeF32.callsF32 cs).kalmanStates i).estimateError)
      ∧ (cs.countP (KalmanCall.filtersChannel i) < 18 →
          ∀ Pstar : ℝ, 0 < Pstar → Pstar ^ 2 + 1 / 10 * Pstar - 1 / 20 = 0 →
            Pstar < ((((( sf.initializeF32.callsF32 cs).applyKalmanFilterF32 i.val z).1.kalmanStates i).estimateError : ℚ) : ℝ))
      ∧ (cs.countP (KalmanCall.filtersChannel i) = 18 →
          ((( sf.initializeF32.callsF32 cs).applyKalmanFilterF32 i.val z).1.kalmanStates i).estimateError
              = 12021129 / 67108864
            ∧ ∀ Pstar : ℝ, 0 < Pstar → Pstar ^ 2 + 1 / 10 * Pstar - 1 / 20 = 0 →
              ((((( sf.initializeF32.callsF32 cs).applyKalmanFilterF32 i.val z).1.kalmanStates i).estimateError : ℚ) : ℝ) < Pstar)
      ∧ (cs.countP (KalmanCall.filtersChannel i) = 19 →
          (( sf.initializeF32.callsF32 cs).kalmanStates i).estimateError
            < ((( sf.initializeF32.callsF32 cs).applyKalmanFilterF32 i.val z).1.kalmanStates i).estimateError)
      ∧ (19 ≤ cs.countP (KalmanCall.filtersChannel i) →
          ((( sf.initializeF32.callsF32 cs).applyKalmanFilterF32 i.val z).1.kalmanStates i).estimateError
              = 12021130 / 67108864
            ∧ ∀ Pstar : ℝ, 0 < Pstar → Pstar ^ 2 + 1 / 10 * Pstar - 1 / 20 = 0 →
              Pstar < ((((( sf.initializeF32.callsF32 cs).applyKalmanFilterF32 i.val z).1.kalmanStates i).estimateError : ℚ) : ℝ))
      ∧ (20 ≤ cs.countP (KalmanCall.filtersChannel i) →
          ((( sf.initializeF32.callsF32 cs).applyKalmanFilterF32 i.val z).1.kalmanStates i).estimateError
            = (( sf.initializeF32.callsF32 cs).kalmanStates i).estimateError)
      ∧ (∃ Pstar : ℝ, 0 < Pstar ∧ Pstar ^ 2 + 1 / 10 * Pstar - 1 / 20 = 0)
      ∧ min (( sf.initializeF32.callsF32 cs).kalmanStates i).estimate z
        ≤ ((( sf.initializeF32.callsF32 cs).applyKalmanFilterF32 i.val z).1.kalmanStates i).estimate
      ∧ ((( sf.initializeF32.callsF32 cs).applyKalmanFilterF32 i.val z).1.kalmanStates i).estimate
        ≤ max (( sf.initializeF32.callsF32 cs).kalmanStates i).estimate z
      ∧ (( sf.initializeF32.callsF32 cs).applyKalmanFilterF32 i.val z).2
        = ((( sf.initializeF32.callsF32 cs).applyKalmanFilterF32 i.val z).1.kalmanStates i).estimate
      ∧ |z - (( sf.initializeF32.callsF32 cs).kalmanStates i).estimate| ≤ 2 ^ 127 := by
  have hfil : ∀ c ∈ cs, c.isFilter = true := fun c hc => isF32Filter_isFilter c (hcs c hc)
  obtain ⟨h0P, h0Q, h0R, h0E⟩ := initializeF32_state sf i
  obtain ⟨hP, hQ, hR⟩ := callsF32_error cs sf.initializeF32 i 0 hfil h0P h0Q h0R
  obtain ⟨hE, hB⟩ := callsF32_estimate cs sf.initializeF32 i 0 hcs h0P h0Q h0R
    (by rw [h0E]; exact roundF32_250) (by rw [h0E]; norm_num)
  obtain ⟨hb, ha⟩ := applyKalmanFilterF32_error sf cs i z hfil
  have hs : (( sf.initializeF32.callsF32 cs).applyKalmanFilterF32 i.val z).1.kalmanStates i
      = (( sf.initializeF32.callsF32 cs).kalmanStates i).filterStepF32 z := by
    have := callF32_filter_channel ( sf.initializeF32.callsF32 cs) i.val z i
    rwa [if_pos rfl] at this
  have hret : (( sf.initializeF32.callsF32 cs).applyKalmanFilterF32 i.val z).2
      = ((( sf.initializeF32.callsF32 cs).kalmanStates i).filterStepF32 z).estimate := by
    unfold SensorFusion.applyKalmanFilterF32
    rw [dif_neg (Nat.not_le.mpr i.isLt)]
  obtain ⟨_, hK0, hK1⟩ := kalman_trace_step _ _ z hP hQ hR
  have hbetween := f32_blend_between (( sf.initializeF32.callsF32 cs).kalmanStates i).estimate z
    (( sf.initializeF32.callsF32 cs).kalmanStates i).kalmanGainF32 hE hz hK0 hK1
  obtain ⟨o1, o2, o3⟩ := kalmanErrorAfter_order (cs.countP (KalmanCall.filtersChannel i))
  obtain ⟨s0, s1, s2, s3⟩ := kalmanErrorAfter_steady (cs.countP (KalmanCall.filtersChannel i) + 1)
  rw [hret, ha, hb, hs]
  refine ⟨o1, ?_, ?_, ?_, ?_, o3, steadyState_exists, hbetween.1, hbetween.2, rfl, ?_⟩
  · intro h Pstar hpos hroot
    exact steadyState_lt _ s0 (s1 (by omega)) Pstar hpos hroot
  · intro h
    refine ⟨by rw [h]; rfl, fun Pstar hpos hroot => ?_⟩
    exact lt_steadyState _ s0 (s2 (by omega)) Pstar hpos hroot
  · intro h
    rw [o2 h]
    norm_num
  · intro h
    refine ⟨?_, fun Pstar hpos hroot => steadyState_lt _ s0 (s3 (by omega)) Pstar hpos hroot⟩
    rw [kalmanErrorAfter_of_ge _ (by omega)]
    norm_num
  · rw [abs_le] at hB hzb ⊢
    constructor <;> linarith [hB.1, hB.2, hzb.1, hzb.2]

/-- C40 as amended, after `initialize()` and the calls
`applyKalmanFilter(1, 260)`, `applyKalmanFilter(2, 100)`: a further
`applyKalmanFilter(1, 240)` lowers the estimate error of channel 1 and leaves
its estimate at most the larger of the previous estimate and 240. -/
theorem kalman_error_binary32_example :
    ((( SensorFusion.blank.initializeF32.callsF32
        [KalmanCall.filter 1 260, KalmanCall.filter 2 100]).applyKalmanFilterF32 1
        240).1.kalmanStates 1).estimateError
      < (( SensorFusion.blank.initializeF32.callsF32
        [KalmanCall.filter 1 260, KalmanCall.filter 2 100]).kalmanStates 1).estimateError
      ∧ ((( SensorFusion.blank.initializeF32.callsF32
          [KalmanCall.filter 1 260, KalmanCall.filter 2 100]).applyKalmanFilterF32 1
          240).1.kalmanStates 1).estimate
        ≤ max (( SensorFusion.blank.initializeF32.callsF32
          [KalmanCall.filter 1 260, KalmanCall.filter 2 100]).kalmanStates 1).estimate 240 := by
  have h260 : roundF32 260 = 260 :=
    roundF32_eval _ _ 8 (by norm_num) (by norm_num [abs_lt])
      (Or.inr (by norm_num [le_abs])) (by norm_num [roundHalfEven])
  have h100 : roundF32 100 = 100 :=
    roundF32_eval _ _ 6 (by norm_num) (by norm_num [abs_lt])
      (Or.inr (by norm_num [le_abs])) (by norm_num [roundHalfEven])
  have h240 : roundF32 240 = 240 :=
    roundF32_eval _ _ 7 (by norm_num) (by norm_num [abs_lt])
      (Or.inr (by norm_num [le_abs])) (by norm_num [roundHalfEven])
  have h := kalman_error_binary32 SensorFusion.blank
    [KalmanCall.filter 1 260, KalmanCall.filter 2 100] 1 240
    (by
      intro c hc
      simp only [List.mem_cons, List.mem_singleton, List.not_mem_nil, or_false] at hc
      rcases hc with h | h
      · rw [h]
        exact ⟨h260, by norm_num [abs_le]⟩
      · rw [h]
        exact ⟨h100, by norm_num [abs_le]⟩)
    h240 (by norm_num [abs_le])
  exact ⟨h.1 (by decide), h.2.2.2.2.2.2.2.2.1⟩

/-- C40 as stated fails in the arithmetic of the program: after
`initialize()` and 19 calls `applyKalmanFilter(1, 250)` the binary32 estimate
error of channel 1 is `12021129 / 2 ^ 26`, about 0.17912878096, which lies
below every positive root of `P^2 + 0.1 P - 0.05 = 0` (about 0.17912878475);
the 20th call raises it to `12021130 / 2 ^ 26`, about 0.17912879586. -/
theorem kalman_error_rises_at_call_20 :
    (( SensorFusion.blank.initializeF32.callsF32
        (List.replicate 19 (KalmanCall.filter 1 250))).kalmanStates 1).estimateError
        = 12021129 / 67108864
      ∧ (∀ Pstar : ℝ, 0 < Pstar → Pstar ^ 2 + 1 / 10 * Pstar - 1 / 20 = 0 →
          (((( SensorFusion.blank.initializeF32.callsF32
            (List.replicate 19 (KalmanCall.filter 1 250))).kalmanStates 1).estimateError : ℚ)
              : ℝ) < Pstar)
      ∧ ((( SensorFusion.blank.initializeF32.callsF32
          (List.replicate 19 (KalmanCall.filter 1 250))).applyKalmanFilterF32 1
          250).1.kalmanStates 1).estimateError = 12021130 / 67108864
      ∧ (( SensorFusion.blank.initializeF32.callsF32
          (List.replicate 19 (KalmanCall.filter 1 250))).kalmanStates 1).estimateError
        < ((( SensorFusion.blank.initializeF32.callsF32
          (List.replicate 19 (KalmanCall.filter 1 250))).applyKalmanFilterF32 1
          250).1.kalmanStates 1).estimateError := by
  have hcs : ∀ c ∈ List.replicate 19 (KalmanCall.filter 1 250), c.isFilter = true := by
    intro c hc
    rw [List.eq_of_mem_replicate hc]
    rfl
  have hn : (List.replicate 19 (KalmanCall.filter 1 250)).countP
      (KalmanCall.filtersChannel 1) = 19 := by
    decide
  obtain ⟨hb, ha⟩ := applyKalmanFilterF32_error SensorFusion.blank
    (List.replicate 19 (KalmanCall.filter 1 250)) 1 250 hcs
  rw [hn] at hb ha
  have hb2 : (( SensorFusion.blank.initializeF32.callsF32
      (List.replicate 19 (KalmanCall.filter 1 250))).kalmanStates 1).estimateError
      = 12021129 / 67108864 := hb
  have ha2 : ((( SensorFusion.blank.initializeF32.callsF32
      (List.replicate 19 (KalmanCall.filter 1 250))).applyKalmanFilterF32 1
      250).1.kalmanStates 1).estimateError = 12021130 / 67108864 := by
    rw [show ((1 : Fin 5).val) = 1 from rfl] at ha
    rw [ha]
    norm_num [kalmanErrorAfter, kalmanErrorTrace]
  refine ⟨hb2, ?_, ha2, ?_⟩
  · intro Pstar hpos hroot
    rw [hb2]
    exact lt_steadyState _ (by norm_num) (by norm_num) Pstar hpos hroot
  · rw [hb2, ha2]
    norm_num

/-! ## Q-table indices (claim C24) -/

theorem selectAction_in_range (ls : LearningSystem) (draw1 draw2 state : Int)
    (hdraw : 0 ≤ draw2 ∧ draw2 ≤ 9) :
    0 ≤ ls.selectAction draw1 draw2 state ∧ ls.selectAction draw1 draw2 state ≤ 9 := by
  unfold LearningSystem.selectAction
  split_ifs
  · exact hdraw
  · exact (mem_actions_iff _).mp
      (greedy_fold ls state [1, 2, 3, 4, 5, 6, 7, 8, 9] [0] (0, ls.qTable state 0)
        (by decide) (by decide) (by simp) rfl (by simp) (by simp)).1

/-- C24 as amended: for every pollutant level `discretizeState` returns an
index in `0..4` (0 below 100, 1 below 200, 2 below 300, 3 below 400, otherwise
4). For every control output in `[0, 100]` `discretizeAction` returns
`floor (output / 10)`, which lies in `0..10` and is at most 9 exactly when the
output is below 100. The indices with which `reinforcementLearning` accesses
the table are the result of `discretizeState` and the result of
`selectAction`, which lies in `0..9` (the second random draw being in
`0..9`). -/
theorem qTable_indices_in_bounds (ls : LearningSystem) (sensors : SensorData)
    (controlOutput : ℚ) (draw1 draw2 : Int) (reward : ℚ)
    (hout : 0 ≤ controlOutput ∧ controlOutput ≤ 100) (hdraw : 0 ≤ draw2 ∧ draw2 ≤ 9) :
    (0 ≤ ls.discretizeState sensors ∧ ls.discretizeState sensors ≤ 4
        ∧ (ls.discretizeState sensors = 0 ↔ sensors.pollutionLevel < 100)
        ∧ (ls.discretizeState sensors = 1 ↔
            100 ≤ sensors.pollutionLevel ∧ sensors.pollutionLevel < 200)
        ∧ (ls.discretizeState sensors = 2 ↔
            200 ≤ sensors.pollutionLevel ∧ sensors.pollutionLevel < 300)
        ∧ (ls.discretizeState sensors = 3 ↔
            300 ≤ sensors.pollutionLevel ∧ sensors.pollutionLevel < 400)
        ∧ (ls.discretizeState sensors = 4 ↔ 400 ≤ sensors.pollutionLevel))
      ∧ ls.discretizeAction controlOutput = ⌊controlOutput / 10⌋
      ∧ 0 ≤ ls.discretizeAction controlOutput
      ∧ ls.discretizeAction controlOutput ≤ 10
      ∧ (ls.discretizeAction controlOutput ≤ 9 ↔ controlOutput < 100)
      ∧ (ls.reinforcementLearning draw1 draw2 sensors reward).qTable
        = (ls.updateQTable (ls.discretizeState sensors)
            (ls.selectAction draw1 draw2 (ls.discretizeState sensors)) reward
            (ls.discretizeState sensors)).qTable
      ∧ 0 ≤ ls.selectAction draw1 draw2 (ls.discretizeState sensors)
      ∧ ls.selectAction draw1 draw2 (ls.discretizeState sensors) ≤ 9 := by
  have hfloor : ls.discretizeAction controlOutput = ⌊controlOutput / 10⌋ := by
    unfold LearningSystem.discretizeAction truncToInt
    rw [if_pos (div_nonneg hout.1 (by norm_num))]
  have hsel := selectAction_in_range ls draw1 draw2 (ls.discretizeState sensors) hdraw
  refine ⟨discretizeState_in_range ls sensors, hfloor, ?_, ?_, ?_, rfl, hsel.1, hsel.2⟩
  · rw [hfloor]
    exact Int.floor_nonneg.mpr (div_nonneg hout.1 (by norm_num))
  · rw [hfloor]
    have : ⌊controlOutput / 10⌋ < 10 + 1 := by
      rw [Int.floor_lt]
      push_cast
      linarith [hout.2]
    omega
  · rw [hfloor]
    constructor
    · intro h
      have h2 : ⌊controlOutput / 10⌋ < 10 := by omega
      rw [Int.floor_lt] at h2
      push_cast at h2
      linarith
    · intro h
      have h2 : ⌊controlOutput / 10⌋ < 10 := by
        rw [Int.floor_lt]
        push_cast
        linarith
      omega

/-- C24 as amended, on a new learner: pollutant level 250 is state 2, the
control output 95 is action 9, and with first draw 50 and second draw 4 the
selected action lies in `0..9`. -/
theorem qTable_indices_in_bounds_example :
    LearningSystem.new.discretizeState (sampleSensors 250 40) = 2
      ∧ LearningSystem.new.discretizeAction 95 = 9
      ∧ 0 ≤ LearningSystem.new.selectAction 50 4
          (LearningSystem.new.discretizeState (sampleSensors 250 40))
      ∧ LearningSystem.new.selectAction 50 4
          (LearningSystem.new.discretizeState (sampleSensors 250 40)) ≤ 9 := by
  have h := qTable_indices_in_bounds LearningSystem.new (sampleSensors 250 40) 95 50 4 0
    ⟨by norm_num, by norm_num⟩ ⟨by norm_num, by norm_num⟩
  refine ⟨h.1.2.2.2.2.1.mpr (by norm_num [sampleSensors]), ?_, h.2.2.2.2.2.2.1, h.2.2.2.2.2.2.2⟩
  rw [h.2.1, Int.floor_eq_iff]
  norm_num


end Zhuanli
